import Mathlib

/-! GCG document hub: a shallow embedding of the backend routes.

The Express handlers under `backend/src/routes` and the middleware under
`backend/src/middleware` are embedded as pure functions over an explicit
relational store.  Every handler takes the store before the request and
returns the store after it together with the HTTP response.
-/

namespace GcgHub

/-! ## JavaScript numbers

Counts returned by the ORM are JavaScript numbers, that is IEEE-754 binary64
values.  The arithmetic of the statistics route is embedded exactly: a finite
non-negative double is a pair of an integer significand and a binary exponent,
and each operation returns the correctly rounded (nearest, ties to even)
result.  Only magnitudes in the normal range occur (quotients of counts and
percentages up to 100). -/

/-- Finite non-negative binary64 value `m * 2 ^ e`. -/
structure Double where
  m : Nat
  e : Int
  deriving DecidableEq, Repr

/-- An integer count as a double (exact below `2 ^ 53`). -/
def Double.ofNat (n : Nat) : Double := { m := n, e := 0 }

/-- Position of the leading binary digit, `floor (log2 n)` for `0 < n`;
the first argument bounds the number of halvings. -/
def log2Floor : Nat → Nat → Nat
  | 0, _ => 0
  | fuel + 1, n => if n < 2 then 0 else log2Floor fuel (n / 2) + 1

/-- Nearest binary64 value (53 significant bits, ties to even) of the
rational `n / d` with `0 < d`, for magnitudes in the normal range. -/
def roundBinary64 (n d : Nat) : Double :=
  if n = 0 then { m := 0, e := 0 } else
  -- exponent of the unit in the last place, first guess: quotient in [2^52, 2^54)
  let e0 : Int := (log2Floor n n : Int) - (log2Floor d d : Int) - 53
  let num0 : Nat := if e0 < 0 then n * 2 ^ e0.natAbs else n
  let den0 : Nat := if e0 < 0 then d else d * 2 ^ e0.toNat
  -- one more bit of exponent when the quotient has 54 bits
  let wide : Bool := decide (2 ^ 53 ≤ num0 / den0)
  let e : Int := if wide then e0 + 1 else e0
  let den : Nat := if wide then den0 * 2 else den0
  let q : Nat := num0 / den
  let r : Nat := num0 % den
  let m : Nat := if den < 2 * r ∨ (2 * r = den ∧ q % 2 = 1) then q + 1 else q
  { m := m, e := e }

/-- JavaScript `a / b` on two non-negative doubles (`b` nonzero): the exact
quotient `a.m * 2 ^ a.e / (b.m * 2 ^ b.e)`, correctly rounded. -/
def jsDiv (a b : Double) : Double :=
  let k : Int := a.e - b.e
  roundBinary64 (a.m * 2 ^ k.toNat) (b.m * 2 ^ (-k).toNat)

/-- JavaScript `a * b` on two non-negative doubles: the exact product,
correctly rounded. -/
def jsMul (a b : Double) : Double :=
  let k : Int := a.e + b.e
  roundBinary64 (a.m * b.m * 2 ^ k.toNat) (2 ^ (-k).toNat)

/-- JavaScript `Math.round` on a non-negative double: the nearest integer,
halves towards plus infinity, that is `floor (x + 1/2)`. -/
def mathRound (x : Double) : Nat :=
  if 0 ≤ x.e then x.m * 2 ^ x.e.toNat
  else (2 * x.m + 2 ^ x.e.natAbs) / 2 ^ (x.e.natAbs + 1)

/-- Specification side: `round(100 * completed / total)` over the exact
quotient, halves up: `floor (100 * completed / total + 1/2)`. -/
def roundPercent (completed total : Nat) : Nat :=
  (200 * completed + total) / (2 * total)

/-! ## Password policy (`routes/auth.js`) -/

/-- JavaScript `String.prototype.length`: the number of UTF-16 code units. -/
def jsLength (s : String) : Nat :=
  (s.toList.map (fun c => if c.toNat < 65536 then 1 else 2)).sum

/-- The regular expression `/[A-Z]/` tested on a string. -/
def hasUpperCase (s : String) : Bool :=
  s.toList.any (fun c => decide (65 ≤ c.toNat ∧ c.toNat ≤ 90))

/-- The regular expression `/[a-z]/` tested on a string. -/
def hasLowerCase (s : String) : Bool :=
  s.toList.any (fun c => decide (97 ≤ c.toNat ∧ c.toNat ≤ 122))

/-- The regular expression `/\d/` tested on a string (ASCII digits only). -/
def hasNumbers (s : String) : Bool :=
  s.toList.any (fun c => decide (48 ≤ c.toNat ∧ c.toNat ≤ 57))

/-- Code points of the class `[!@#$%^&*(),.?":{}|<>]`, in the order written. -/
def specialCharCodes : List Nat :=
  [33, 64, 35, 36, 37, 94, 38, 42, 40, 41, 44, 46, 63, 34, 58, 123, 125, 124, 60, 62]

/-- The regular expression for special characters tested on a string. -/
def hasSpecialChar (s : String) : Bool :=
  s.toList.any (fun c => decide (c.toNat ∈ specialCharCodes))

/-- The object returned by `validatePassword`. -/
structure PasswordValidation where
  valid : Bool
  strength : Option Nat
  message : Option String
  deriving DecidableEq, Repr

/-- Embedding of `validatePassword` from `routes/auth.js`. -/
def validatePassword (password : String) : PasswordValidation :=
  if jsLength password < 6 then
    { valid := false, strength := none,
      message := some "Password must be at least 6 characters long" }
  else
    let strength0 : Nat := 0
    let strength1 := if hasUpperCase password then strength0 + 1 else strength0
    let strength2 := if hasLowerCase password then strength1 + 1 else strength1
    let strength3 := if hasNumbers password then strength2 + 1 else strength2
    let strength4 := if hasSpecialChar password then strength3 + 1 else strength3
    if strength4 < 2 then
      { valid := false, strength := none,
        message := some
          "Password is too weak. Include uppercase, lowercase, numbers, and special characters" }
    else
      { valid := true, strength := some strength4, message := none }

/-- Specification side: how many of the four character classes (uppercase
letter, lowercase letter, digit, listed special character) occur in the
password. -/
def classesPresent (password : String) : Nat :=
  (if ∃ c ∈ password.toList, 65 ≤ c.toNat ∧ c.toNat ≤ 90 then 1 else 0)
  + (if ∃ c ∈ password.toList, 97 ≤ c.toNat ∧ c.toNat ≤ 122 then 1 else 0)
  + (if ∃ c ∈ password.toList, 48 ≤ c.toNat ∧ c.toNat ≤ 57 then 1 else 0)
  + (if ∃ c ∈ password.toList, c.toNat ∈ specialCharCodes then 1 else 0)

/-! ## Data model

The relational schema is not part of the sources; the records below carry the
columns that the route handlers read and write.  Primary keys are integers
(`parseInt` of a path or body parameter), nullable columns are `Option`. -/

/-- A row of the `user` table. -/
structure User where
  id : Int
  username : String
  email : String
  password : String
  nama : String
  role : String
  direktorat : Option String
  subdirektorat : Option String
  divisi : Option String
  deriving DecidableEq, Repr

/-- A row of the `year` table, keyed by `tahun`. -/
structure Year where
  tahun : Int
  nama : String
  deskripsi : String
  isActive : Bool
  deriving DecidableEq, Repr

/-- A row of the `aspek` table. -/
structure Aspek where
  id : Int
  nama : String
  tahun : Int
  deriving DecidableEq, Repr

/-- A row of the `checklistGCG` table. -/
structure ChecklistGCG where
  id : Int
  aspek : String
  deskripsi : String
  tahun : Int
  deriving DecidableEq, Repr

/-- A row of the `strukturPerusahaan` table. -/
structure StrukturPerusahaan where
  id : Int
  tahun : Int
  direktorat : String
  subdirektorat : String
  divisi : Option String
  deriving DecidableEq, Repr

/-- A row of the `assignment` table; `assignedAt` and `dueDate` are instants
in milliseconds. -/
structure Assignment where
  id : Int
  checklistId : Int
  strukturId : Int
  assignedBy : Int
  status : String
  dueDate : Option Nat
  notes : Option String
  assignedAt : Nat
  deriving DecidableEq, Repr

/-- A row of the `fileUpload` table. -/
structure FileUpload where
  id : Int
  fileName : String
  originalName : String
  filePath : String
  fileSize : Nat
  mimeType : String
  checklistId : Int
  tahun : Int
  uploadedBy : Int
  uploadDate : Nat
  deriving DecidableEq, Repr

/-- The relational store together with the paths present in the uploads
directory. -/
structure Store where
  users : List User
  years : List Year
  aspects : List Aspek
  checklists : List ChecklistGCG
  strukturs : List StrukturPerusahaan
  assignments : List Assignment
  fileUploads : List FileUpload
  disk : List String
  deriving DecidableEq, Repr

/-- The store with no rows and no files. -/
def Store.empty : Store :=
  { users := [], years := [], aspects := [], checklists := [], strukturs := [],
    assignments := [], fileUploads := [], disk := [] }

/-- `prisma.user.findUnique` by id. -/
def Store.findUser (st : Store) (id : Int) : Option User :=
  st.users.find? (fun u => u.id == id)

/-- `prisma.year.findUnique` by `tahun`. -/
def Store.findYear (st : Store) (tahun : Int) : Option Year :=
  st.years.find? (fun y => y.tahun == tahun)

/-- `prisma.checklistGCG.findUnique` by id. -/
def Store.findChecklist (st : Store) (id : Int) : Option ChecklistGCG :=
  st.checklists.find? (fun c => c.id == id)

/-- `prisma.strukturPerusahaan.findUnique` by id. -/
def Store.findStruktur (st : Store) (id : Int) : Option StrukturPerusahaan :=
  st.strukturs.find? (fun s => s.id == id)

/-- `prisma.assignment.findUnique` by id. -/
def Store.findAssignment (st : Store) (id : Int) : Option Assignment :=
  st.assignments.find? (fun a => a.id == id)

/-- `prisma.fileUpload.findUnique` by id. -/
def Store.findFile (st : Store) (id : Int) : Option FileUpload :=
  st.fileUploads.find? (fun f => f.id == id)

/-! ## Requests and responses -/

/-- What a handler observes of a JavaScript value used as a number: its
truthiness (`!x`), `isNaN(x)` and `parseInt(x)` (`none` for `NaN`).  Handlers
use such a value through these three observations only. -/
structure JsArg where
  truthy : Bool
  isNaN : Bool
  parseInt : Option Int
  deriving DecidableEq, Repr

/-- The JSON number `n`, for an integer of magnitude below `10 ^ 21`: in that
range the text of the number is its decimal form, which `parseInt` reads back.
(From `10 ^ 21` on JavaScript prints the exponent form and `parseInt` reads
its leading digit only; such numbers are not built with this function.) -/
def JsArg.ofInt (n : Int) : JsArg :=
  { truthy := decide (n ≠ 0), isNaN := false, parseInt := some n }

/-- A missing field (`undefined`). -/
def JsArg.undefined : JsArg :=
  { truthy := false, isNaN := true, parseInt := none }

/-- Truthiness of an optional string field: present and non-empty. -/
def truthyStr (s : Option String) : Bool :=
  match s with
  | none => false
  | some v => v != ""

/-- The JavaScript expression `s || null` on an optional string. -/
def orNull (s : Option String) : Option String :=
  if truthyStr s then s else none

/-- What a handler observes of a date field: `none` when the field is falsy,
`some none` when `new Date(x)` is an invalid date (refused by the ORM),
`some (some t)` for the instant `t`. -/
abbrev JsDate := Option (Option Nat)

/-- Status code and the `error` or `message` text of a JSON response. -/
structure Response where
  status : Nat
  message : String
  deriving DecidableEq, Repr

/-- The identity `req.user` installed by `verifyToken`. -/
structure Identity where
  id : Int
  username : String
  email : String
  role : String
  nama : String
  direktorat : Option String
  subdirektorat : Option String
  divisi : Option String
  deriving DecidableEq, Repr

/-- The projection of a user row selected by `verifyToken`. -/
def User.identity (u : User) : Identity :=
  { id := u.id, username := u.username, email := u.email, role := u.role, nama := u.nama,
    direktorat := u.direktorat, subdirektorat := u.subdirektorat, divisi := u.divisi }

/-- Column values filled in by the database when a row is inserted: the
autoincrement id, the current instant and the default assignment status. -/
structure Generated where
  id : Int
  now : Nat
  status : String
  deriving DecidableEq, Repr

/-! ## Middleware (`middleware/auth.js`) -/

/-- Embedding of `requireAdmin`: answers 403 unless the role is `ADMIN`,
otherwise runs the rest of the chain. -/
def requireAdmin (user : Identity) (st : Store) (next : Store × Response) : Store × Response :=
  if user.role ≠ "ADMIN" then (st, { status := 403, message := "Admin access required" })
  else next

/-- The `include: { assignments: { include: { struktur: true } } }` of
`requireChecklistAccess`: the organizational units of the assignments of a
checklist item (the foreign key makes every unit present). -/
def Store.checklistStrukturs (st : Store) (checklistId : Int) : List StrukturPerusahaan :=
  (st.assignments.filter (fun a => a.checklistId == checklistId)).filterMap
    (fun a => st.findStruktur a.strukturId)

/-- Embedding of `requireChecklistAccess`; `checklistId` is
`parseInt(req.params.id || req.body.checklistId)`.  The result is the response
that ends the request, or `none` when `next()` is called. -/
def requireChecklistAccess (st : Store) (user : Identity) (checklistId : Option Int) :
    Option Response :=
  match checklistId with
  | none => some { status := 400, message := "Checklist ID required" }
  | some cid =>
    if cid = 0 then some { status := 400, message := "Checklist ID required" }
    else
      match st.findChecklist cid with
      | none => some { status := 404, message := "Checklist not found" }
      | some _ =>
        if user.role = "ADMIN" then none
        else
          let hasAssignment := (st.checklistStrukturs cid).any (fun struktur =>
            some struktur.direktorat == user.direktorat &&
            some struktur.subdirektorat == user.subdirektorat &&
            (!truthyStr struktur.divisi || struktur.divisi == user.divisi))
          if !hasAssignment then
            some { status := 403, message := "Access denied to this checklist item" }
          else none

/-! ## Assignments (`routes/assignments.js`) -/

/-- Body of `POST /api/assignments`. -/
structure AssignmentCreateBody where
  checklistId : JsArg
  strukturId : JsArg
  dueDate : JsDate
  notes : Option String
  deriving DecidableEq, Repr

/-- Handler of `POST /api/assignments`, after `verifyToken` and `requireAdmin`. -/
def postAssignmentHandler (st : Store) (user : Identity) (body : AssignmentCreateBody)
    (gen : Generated) : Store × Response :=
  if !body.checklistId.truthy || !body.strukturId.truthy then
    (st, { status := 400, message := "Checklist ID and Struktur ID are required" })
  else if body.checklistId.isNaN || body.strukturId.isNaN then
    (st, { status := 400, message := "Invalid checklist ID or Struktur ID format" })
  else
    match body.checklistId.parseInt with
    | none => (st, { status := 500, message := "Failed to create assignment" })
    | some checklistId =>
      match st.findChecklist checklistId with
      | none => (st, { status := 400, message := "Checklist not found" })
      | some checklist =>
        match body.strukturId.parseInt with
        | none => (st, { status := 500, message := "Failed to create assignment" })
        | some strukturId =>
          match st.findStruktur strukturId with
          | none => (st, { status := 400, message := "Organizational structure not found" })
          | some struktur =>
            if checklist.tahun ≠ struktur.tahun then
              (st, { status := 400,
                     message := "Checklist and organizational structure years do not match" })
            else
              match st.assignments.find?
                  (fun a => a.checklistId == checklistId && a.strukturId == strukturId) with
              | some _ =>
                (st, { status := 400,
                       message := "Assignment already exists for this checklist and organizational structure" })
              | none =>
                match body.dueDate with
                | some none => (st, { status := 500, message := "Failed to create assignment" })
                | dueDate =>
                  ({ st with assignments := st.assignments ++
                      [{ id := gen.id, checklistId := checklistId, strukturId := strukturId,
                         assignedBy := user.id, status := gen.status,
                         dueDate := dueDate.join, notes := orNull body.notes,
                         assignedAt := gen.now }] },
                   { status := 201, message := "Assignment created successfully" })

/-- Route `POST /api/assignments` (admin only). -/
def postAssignment (st : Store) (user : Identity) (body : AssignmentCreateBody)
    (gen : Generated) : Store × Response :=
  requireAdmin user st (postAssignmentHandler st user body gen)

/-- Body of `PUT /api/assignments/:id`; `notes` distinguishes `undefined`
(`none`) from `null` (`some none`). -/
structure AssignmentUpdateBody where
  status : Option String
  dueDate : JsDate
  notes : Option (Option String)
  deriving DecidableEq, Repr

/-- `prisma.assignment.update` of the rows with the given id. -/
def Store.updateAssignment (st : Store) (id : Int) (f : Assignment → Assignment) : Store :=
  { st with assignments := st.assignments.map (fun a => if a.id == id then f a else a) }

/-- Handler of `PUT /api/assignments/:id`; `assignmentId` is
`parseInt(req.params.id)`. -/
def putAssignmentHandler (st : Store) (assignmentId : Option Int)
    (body : AssignmentUpdateBody) : Store × Response :=
  match assignmentId with
  | none => (st, { status := 400, message := "Invalid assignment ID" })
  | some id =>
    match st.findAssignment id with
    | none => (st, { status := 404, message := "Assignment not found" })
    | some existingAssignment =>
      match body.dueDate with
      | some none => (st, { status := 500, message := "Failed to update assignment" })
      | dueDate =>
        (st.updateAssignment id (fun a =>
            { a with
              status := if truthyStr body.status then body.status.getD "" else existingAssignment.status
              dueDate := if dueDate.isSome then dueDate.join else existingAssignment.dueDate
              notes := match body.notes with
                | some notes => notes
                | none => existingAssignment.notes }),
         { status := 200, message := "Assignment updated successfully" })

/-- Route `PUT /api/assignments/:id` (admin only). -/
def putAssignment (st : Store) (user : Identity) (assignmentId : Option Int)
    (body : AssignmentUpdateBody) : Store × Response :=
  requireAdmin user st (putAssignmentHandler st assignmentId body)

/-- Handler of `DELETE /api/assignments/:id`. -/
def deleteAssignmentHandler (st : Store) (assignmentId : Option Int) : Store × Response :=
  match assignmentId with
  | none => (st, { status := 400, message := "Invalid assignment ID" })
  | some id =>
    match st.findAssignment id with
    | none => (st, { status := 404, message := "Assignment not found" })
    | some _ =>
      ({ st with assignments := st.assignments.filter (fun a => !(a.id == id)) },
       { status := 200, message := "Assignment deleted successfully" })

/-- Route `DELETE /api/assignments/:id` (admin only). -/
def deleteAssignment (st : Store) (user : Identity) (assignmentId : Option Int) :
    Store × Response :=
  requireAdmin user st (deleteAssignmentHandler st assignmentId)

/-- The `prisma.strukturPerusahaan.findFirst` of the status route: the first
unit of the given year whose directorate, sub-directorate and division equal
the identity's (a `null` division matches only a `null` division). -/
def Store.findUserStruktur (st : Store) (tahun : Int) (user : Identity) :
    Option StrukturPerusahaan :=
  st.strukturs.find? (fun s =>
    s.tahun == tahun && some s.direktorat == user.direktorat &&
    some s.subdirektorat == user.subdirektorat && s.divisi == user.divisi)

/-- Route `PATCH /api/assignments/:id/status` (any authenticated caller);
`status` is the body field. -/
def patchAssignmentStatus (st : Store) (user : Identity) (assignmentId : Option Int)
    (status : Option String) : Store × Response :=
  match assignmentId with
  | none => (st, { status := 400, message := "Invalid assignment ID" })
  | some id =>
    if !truthyStr status then (st, { status := 400, message := "Status is required" })
    else
      match st.findAssignment id with
      | none => (st, { status := 404, message := "Assignment not found" })
      | some existingAssignment =>
        match st.findStruktur existingAssignment.strukturId with
        | none => (st, { status := 500, message := "Failed to update assignment status" })
        | some struktur =>
          let denied : Bool :=
            if user.role ≠ "ADMIN" then
              match st.findUserStruktur struktur.tahun user with
              | none => true
              | some userStruktur => userStruktur.id != existingAssignment.strukturId
            else false
          if denied then
            (st, { status := 403,
                   message := "Access denied. You can only update assignments for your organizational structure." })
          else
            (st.updateAssignment id (fun a => { a with status := status.getD "" }),
             { status := 200, message := "Assignment status updated successfully" })

/-- Prisma `groupBy` with `_count`: every distinct key with its number of rows. -/
def groupCount {α : Type} [DecidableEq α] (keys : List α) : List (α × Nat) :=
  keys.dedup.map (fun k => (k, keys.count k))

/-- The `data` of `GET /api/assignments/stats/summary`. -/
structure AssignmentStats where
  total : Nat
  byStatus : List (String × Nat)
  byMonth : List (Nat × Nat)
  completionRate : Nat
  deriving DecidableEq, Repr

/-- The assignments selected by the `where` clause of the summary: all of
them, or those whose checklist item has the given year when the query
parameter `tahun` is truthy (`none` when the ORM refuses a `NaN` year). -/
def Store.selectedAssignments (st : Store) (tahun : JsArg) : Option (List Assignment) :=
  if tahun.truthy then
    match tahun.parseInt with
    | none => none
    | some year =>
      some (st.assignments.filter (fun a =>
        match st.findChecklist a.checklistId with
        | some c => c.tahun == year
        | none => false))
  else some st.assignments

/-- The statistics object computed from the selected rows. -/
def assignmentStats (rows : List Assignment) : AssignmentStats :=
  let totalAssignments := rows.length
  let assignmentsByStatus := groupCount (rows.map (fun a => a.status))
  let assignmentsByMonth := groupCount (rows.map (fun a => a.assignedAt))
  { total := totalAssignments
    byStatus := assignmentsByStatus
    byMonth := assignmentsByMonth
    completionRate :=
      if totalAssignments > 0 then
        mathRound (jsMul
          (jsDiv
            (Double.ofNat
              (match assignmentsByStatus.find? (fun s => s.1 == "COMPLETED") with
               | some s => s.2
               | none => 0))
            (Double.ofNat totalAssignments))
          (Double.ofNat 100))
      else 0 }

/-- Route `GET /api/assignments/stats/summary`: the statistics, or `none`
for the 500 response. -/
def getAssignmentStatsSummary (st : Store) (tahun : JsArg) : Option AssignmentStats :=
  (st.selectedAssignments tahun).map assignmentStats

/-- Specification side: the number of selected assignments whose status is
`COMPLETED`. -/
def completedCount (rows : List Assignment) : Nat :=
  (rows.filter (fun a => a.status = "COMPLETED")).length

/-! ## Aspects (`routes/aspects.js`) -/

/-- Body of `POST /api/aspects`. -/
structure AspectBody where
  nama : Option String
  tahun : JsArg
  deriving DecidableEq, Repr

/-- Handler of `POST /api/aspects`. -/
def postAspectHandler (st : Store) (body : AspectBody) (gen : Generated) : Store × Response :=
  if !truthyStr body.nama || !body.tahun.truthy then
    (st, { status := 400, message := "Nama and tahun are required" })
  else if body.tahun.isNaN then
    (st, { status := 400, message := "Invalid year format" })
  else
    match body.tahun.parseInt with
    | none => (st, { status := 500, message := "Failed to create aspect" })
    | some tahun =>
      match st.findYear tahun with
      | none => (st, { status := 400, message := "Year does not exist" })
      | some _ =>
        match st.aspects.find? (fun a => a.nama == body.nama.getD "" && a.tahun == tahun) with
        | some _ =>
          (st, { status := 400, message := "Aspect already exists for the specified year" })
        | none =>
          ({ st with aspects := st.aspects ++
              [{ id := gen.id, nama := body.nama.getD "", tahun := tahun }] },
           { status := 201, message := "Aspect created successfully" })

/-- Route `POST /api/aspects` (admin only). -/
def postAspect (st : Store) (user : Identity) (body : AspectBody) (gen : Generated) :
    Store × Response :=
  requireAdmin user st (postAspectHandler st body gen)

/-! ## Checklist items (`routes/checklist.js`) -/

/-- Body of `POST /api/checklist` and `PUT /api/checklist/:id`. -/
structure ChecklistBody where
  aspek : Option String
  deskripsi : Option String
  tahun : JsArg
  deriving DecidableEq, Repr

/-- Handler of `POST /api/checklist`. -/
def postChecklistHandler (st : Store) (body : ChecklistBody) (gen : Generated) :
    Store × Response :=
  if !truthyStr body.aspek || !truthyStr body.deskripsi || !body.tahun.truthy then
    (st, { status := 400, message := "Aspek, deskripsi, and tahun are required" })
  else if body.tahun.isNaN then
    (st, { status := 400, message := "Invalid year format" })
  else
    match body.tahun.parseInt with
    | none => (st, { status := 500, message := "Failed to create checklist item" })
    | some tahun =>
      match st.findYear tahun with
      | none => (st, { status := 400, message := "Year does not exist" })
      | some _ =>
        match st.aspects.find? (fun a => a.nama == body.aspek.getD "" && a.tahun == tahun) with
        | none =>
          (st, { status := 400, message := "Aspect does not exist for the specified year" })
        | some _ =>
          ({ st with checklists := st.checklists ++
              [{ id := gen.id, aspek := body.aspek.getD "",
                 deskripsi := body.deskripsi.getD "", tahun := tahun }] },
           { status := 201, message := "Checklist item created successfully" })

/-- Route `POST /api/checklist` (admin only). -/
def postChecklist (st : Store) (user : Identity) (body : ChecklistBody) (gen : Generated) :
    Store × Response :=
  requireAdmin user st (postChecklistHandler st body gen)

/-- Handler of `PUT /api/checklist/:id`. -/
def putChecklistHandler (st : Store) (checklistId : Option Int) (body : ChecklistBody) :
    Store × Response :=
  match checklistId with
  | none => (st, { status := 400, message := "Invalid checklist ID" })
  | some id =>
    match st.findChecklist id with
    | none => (st, { status := 404, message := "Checklist item not found" })
    | some _ =>
      if !truthyStr body.aspek || !truthyStr body.deskripsi || !body.tahun.truthy then
        (st, { status := 400, message := "Aspek, deskripsi, and tahun are required" })
      else if body.tahun.isNaN then
        (st, { status := 400, message := "Invalid year format" })
      else
        match body.tahun.parseInt with
        | none => (st, { status := 500, message := "Failed to update checklist item" })
        | some tahun =>
          match st.findYear tahun with
          | none => (st, { status := 400, message := "Year does not exist" })
          | some _ =>
            match st.aspects.find?
                (fun a => a.nama == body.aspek.getD "" && a.tahun == tahun) with
            | none =>
              (st, { status := 400, message := "Aspect does not exist for the specified year" })
            | some _ =>
              ({ st with checklists := st.checklists.map (fun c =>
                  if c.id == id then
                    { c with aspek := body.aspek.getD "", deskripsi := body.deskripsi.getD "",
                             tahun := tahun }
                  else c) },
               { status := 200, message := "Checklist item updated successfully" })

/-- Route `PUT /api/checklist/:id` (admin only). -/
def putChecklist (st : Store) (user : Identity) (checklistId : Option Int)
    (body : ChecklistBody) : Store × Response :=
  requireAdmin user st (putChecklistHandler st checklistId body)

/-- Handler of `DELETE /api/checklist/:id`. -/
def deleteChecklistHandler (st : Store) (checklistId : Option Int) : Store × Response :=
  match checklistId with
  | none => (st, { status := 400, message := "Invalid checklist ID" })
  | some id =>
    match st.findChecklist id with
    | none => (st, { status := 404, message := "Checklist item not found" })
    | some _ =>
      let hasRelatedData : List Nat :=
        [ (st.fileUploads.filter (fun f => f.checklistId == id)).length,
          (st.assignments.filter (fun a => a.checklistId == id)).length ]
      if hasRelatedData.any (fun count => count > 0) then
        (st, { status := 400,
               message := "Cannot delete checklist item with existing files or assignments. Please delete related data first." })
      else
        ({ st with checklists := st.checklists.filter (fun c => !(c.id == id)) },
         { status := 200, message := "Checklist item deleted successfully" })

/-- Route `DELETE /api/checklist/:id` (admin only). -/
def deleteChecklist (st : Store) (user : Identity) (checklistId : Option Int) :
    Store × Response :=
  requireAdmin user st (deleteChecklistHandler st checklistId)

/-! ## Organizational units (`routes/struktur.js`) -/

/-- Body of `POST /api/struktur` and `PUT /api/struktur/:id`. -/
structure StrukturBody where
  tahun : JsArg
  direktorat : Option String
  subdirektorat : Option String
  divisi : Option String
  deriving DecidableEq, Repr

/-- Handler of `POST /api/struktur`. -/
def postStrukturHandler (st : Store) (body : StrukturBody) (gen : Generated) :
    Store × Response :=
  if !body.tahun.truthy || !truthyStr body.direktorat || !truthyStr body.subdirektorat then
    (st, { status := 400, message := "Tahun, direktorat, and subdirektorat are required" })
  else if body.tahun.isNaN then
    (st, { status := 400, message := "Invalid year format" })
  else
    match body.tahun.parseInt with
    | none => (st, { status := 500, message := "Failed to create organizational structure" })
    | some tahun =>
      match st.findYear tahun with
      | none => (st, { status := 400, message := "Year does not exist" })
      | some _ =>
        match st.strukturs.find? (fun s =>
            s.tahun == tahun && s.direktorat == body.direktorat.getD "" &&
            s.subdirektorat == body.subdirektorat.getD "" && s.divisi == orNull body.divisi) with
        | some _ =>
          (st, { status := 400,
                 message := "Organizational structure already exists for the specified year" })
        | none =>
          ({ st with strukturs := st.strukturs ++
              [{ id := gen.id, tahun := tahun, direktorat := body.direktorat.getD "",
                 subdirektorat := body.subdirektorat.getD "", divisi := orNull body.divisi }] },
           { status := 201, message := "Organizational structure created successfully" })

/-- Route `POST /api/struktur` (admin only). -/
def postStruktur (st : Store) (user : Identity) (body : StrukturBody) (gen : Generated) :
    Store × Response :=
  requireAdmin user st (postStrukturHandler st body gen)

/-- Handler of `PUT /api/struktur/:id`. -/
def putStrukturHandler (st : Store) (strukturId : Option Int) (body : StrukturBody) :
    Store × Response :=
  match strukturId with
  | none => (st, { status := 400, message := "Invalid organizational structure ID" })
  | some id =>
    match st.findStruktur id with
    | none => (st, { status := 404, message := "Organizational structure not found" })
    | some _ =>
      if !body.tahun.truthy || !truthyStr body.direktorat || !truthyStr body.subdirektorat then
        (st, { status := 400, message := "Tahun, direktorat, and subdirektorat are required" })
      else if body.tahun.isNaN then
        (st, { status := 400, message := "Invalid year format" })
      else
        match body.tahun.parseInt with
        | none => (st, { status := 500, message := "Failed to update organizational structure" })
        | some tahun =>
          match st.findYear tahun with
          | none => (st, { status := 400, message := "Year does not exist" })
          | some _ =>
            match st.strukturs.find? (fun s =>
                s.tahun == tahun && s.direktorat == body.direktorat.getD "" &&
                s.subdirektorat == body.subdirektorat.getD "" &&
                s.divisi == orNull body.divisi && s.id != id) with
            | some _ =>
              (st, { status := 400,
                     message := "Organizational structure already exists for the specified year" })
            | none =>
              ({ st with strukturs := st.strukturs.map (fun s =>
                  if s.id == id then
                    { s with tahun := tahun, direktorat := body.direktorat.getD "",
                             subdirektorat := body.subdirektorat.getD "",
                             divisi := orNull body.divisi }
                  else s) },
               { status := 200, message := "Organizational structure updated successfully" })

/-- Route `PUT /api/struktur/:id` (admin only). -/
def putStruktur (st : Store) (user : Identity) (strukturId : Option Int)
    (body : StrukturBody) : Store × Response :=
  requireAdmin user st (putStrukturHandler st strukturId body)

/-- Handler of `DELETE /api/struktur/:id`. -/
def deleteStrukturHandler (st : Store) (strukturId : Option Int) : Store × Response :=
  match strukturId with
  | none => (st, { status := 400, message := "Invalid organizational structure ID" })
  | some id =>
    match st.findStruktur id with
    | none => (st, { status := 404, message := "Organizational structure not found" })
    | some _ =>
      let assignmentCount := (st.assignments.filter (fun a => a.strukturId == id)).length
      if assignmentCount > 0 then
        (st, { status := 400,
               message := "Cannot delete organizational structure. It has " ++
                 toString assignmentCount ++
                 " related assignments. Please reassign or delete assignments first." })
      else
        ({ st with strukturs := st.strukturs.filter (fun s => !(s.id == id)) },
         { status := 200, message := "Organizational structure deleted successfully" })

/-- Route `DELETE /api/struktur/:id` (admin only). -/
def deleteStruktur (st : Store) (user : Identity) (strukturId : Option Int) :
    Store × Response :=
  requireAdmin user st (deleteStrukturHandler st strukturId)

/-! ## Years (`routes/years.js`) -/

/-- Handler of `DELETE /api/years/:tahun`; `tahun` is `parseInt(req.params.tahun)`. -/
def deleteYearHandler (st : Store) (tahun : Option Int) : Store × Response :=
  match tahun with
  | none => (st, { status := 400, message := "Invalid year format" })
  | some tahun =>
    match st.findYear tahun with
    | none => (st, { status := 404, message := "Year not found" })
    | some _ =>
      let hasRelatedData : List Nat :=
        [ (st.aspects.filter (fun a => a.tahun == tahun)).length,
          (st.checklists.filter (fun c => c.tahun == tahun)).length,
          (st.strukturs.filter (fun s => s.tahun == tahun)).length ]
      if hasRelatedData.any (fun count => count > 0) then
        (st, { status := 400,
               message := "Cannot delete year with existing data. Please delete related data first." })
      else
        ({ st with years := st.years.filter (fun y => !(y.tahun == tahun)) },
         { status := 200, message := "Year deleted successfully" })

/-- Route `DELETE /api/years/:tahun` (admin only). -/
def deleteYear (st : Store) (user : Identity) (tahun : Option Int) : Store × Response :=
  requireAdmin user st (deleteYearHandler st tahun)

/-! ## Users (`routes/users.js`) -/

/-- Handler of `DELETE /api/users/:id`. -/
def deleteUserHandler (st : Store) (user : Identity) (userId : Option Int) :
    Store × Response :=
  match userId with
  | none => (st, { status := 400, message := "Invalid user ID" })
  | some id =>
    match st.findUser id with
    | none => (st, { status := 404, message := "User not found" })
    | some _ =>
      if user.id = id then
        (st, { status := 400, message := "Cannot delete your own account" })
      else
        let hasRelatedData : List Nat :=
          [ (st.fileUploads.filter (fun f => f.uploadedBy == id)).length,
            (st.assignments.filter (fun a => a.assignedBy == id)).length ]
        if hasRelatedData.any (fun count => count > 0) then
          (st, { status := 400,
                 message := "Cannot delete user with existing data. Please reassign or delete related data first." })
        else
          ({ st with users := st.users.filter (fun u => !(u.id == id)) },
           { status := 200, message := "User deleted successfully" })

/-- Route `DELETE /api/users/:id` (admin only). -/
def deleteUser (st : Store) (user : Identity) (userId : Option Int) : Store × Response :=
  requireAdmin user st (deleteUserHandler st user userId)

/-! ## File records (`routes/fileUploads.js`) -/

/-- The permission test `req.user.role !== 'ADMIN' && req.user.id !==
existingFile.user.id` of the delete route: `some true` when the caller is
refused, and `none` when the test reads the included uploader row and that row
is missing (the exception is answered with 500).  An `ADMIN` never reads the
uploader row. -/
def deleteDenied (st : Store) (user : Identity) (existingFile : FileUpload) : Option Bool :=
  if user.role ≠ "ADMIN" then
    match st.findUser existingFile.uploadedBy with
    | none => none
    | some owner => some (decide (user.id ≠ owner.id))
  else some false

/-- Route `DELETE /api/files/:id` (any authenticated caller).  `unlinkThrows`
says whether `fs.unlinkSync` throws; the handler then logs and goes on.
`deleteThrows` says whether `prisma.fileUpload.delete` throws; it runs after
the unlink, and the outer `catch` answers 500. -/
def deleteFileRequest (st : Store) (user : Identity) (fileId : Option Int)
    (unlinkThrows deleteThrows : Bool) : Store × Response :=
  match fileId with
  | none => (st, { status := 400, message := "Invalid file ID" })
  | some id =>
    match st.findFile id with
    | none => (st, { status := 404, message := "File not found" })
    | some existingFile =>
      match deleteDenied st user existingFile with
      | none => (st, { status := 500, message := "Failed to delete file" })
      | some true =>
        (st, { status := 403,
               message := "Access denied. You can only delete your own files." })
      | some false =>
        if deleteThrows then
          ({ st with
              disk := if existingFile.filePath ∈ st.disk ∧ unlinkThrows = false then
                  st.disk.filter (fun path => !(path == existingFile.filePath))
                else st.disk },
           { status := 500, message := "Failed to delete file" })
        else
          ({ st with
              disk := if existingFile.filePath ∈ st.disk ∧ unlinkThrows = false then
                  st.disk.filter (fun path => !(path == existingFile.filePath))
                else st.disk,
              fileUploads := st.fileUploads.filter (fun f => !(f.id == id)) },
           { status := 200, message := "File deleted successfully" })

/-- Route `DELETE /api/files/:id` on a database that carries out the row
deletion: `deleteFileRequest` with a `prisma.fileUpload.delete` that does not
throw. -/
def deleteFile (st : Store) (user : Identity) (fileId : Option Int) (unlinkThrows : Bool) :
    Store × Response :=
  deleteFileRequest st user fileId unlinkThrows false

/-! ## Password change (`routes/auth.js`) -/

/-- The password hashing library: `hash` is `bcrypt.hash` with the salt drawn
for the request, `compare` is `bcrypt.compare`. -/
structure Bcrypt where
  hash : String → String
  compare : String → String → Bool

/-- Route `POST /api/auth/change-password` (any authenticated caller). -/
def postChangePassword (bcrypt : Bcrypt) (st : Store) (user : Identity)
    (currentPassword newPassword : Option String) : Store × Response :=
  if !truthyStr currentPassword || !truthyStr newPassword then
    (st, { status := 400, message := "Current password and new password are required" })
  else
    match st.findUser user.id with
    | none => (st, { status := 500, message := "Failed to change password" })
    | some row =>
      if !bcrypt.compare (currentPassword.getD "") row.password then
        (st, { status := 400, message := "Current password is incorrect" })
      else
        let passwordValidation := validatePassword (newPassword.getD "")
        if !passwordValidation.valid then
          (st, { status := 400, message := passwordValidation.message.getD "" })
        else
          ({ st with users := st.users.map (fun u =>
              if u.id == user.id then { u with password := bcrypt.hash (newPassword.getD "") }
              else u) },
           { status := 200, message := "Password changed successfully" })

/-! ## Login and registration (`routes/auth.js`) -/

/-- The JSON answer of `POST /api/auth/login`: the status code and the body
fields `error`, `message`, `user` and `token`. -/
structure LoginResponse where
  status : Nat
  error : Option String
  message : Option String
  user : Option Identity
  token : Option String
  deriving DecidableEq, Repr

/-- The `prisma.user.findFirst` of the login route: the first user whose
username or email is the submitted name. -/
def Store.findUserByLogin (st : Store) (username : String) : Option User :=
  st.users.find? (fun u => u.username == username || u.email == username)

/-- Route `POST /api/auth/login` (no authentication); `generateToken` signs
the user id with the configured secret. -/
def postLogin (bcrypt : Bcrypt) (generateToken : Int → String) (st : Store)
    (username password : Option String) : LoginResponse :=
  if !truthyStr username || !truthyStr password then
    { status := 400, error := some "Username and password are required", message := none,
      user := none, token := none }
  else
    match st.findUserByLogin (username.getD "") with
    | none =>
      { status := 401, error := some "Invalid credentials", message := none, user := none,
        token := none }
    | some user =>
      if !bcrypt.compare (password.getD "") user.password then
        { status := 401, error := some "Invalid credentials", message := none, user := none,
          token := none }
      else
        { status := 200, error := none, message := some "Login successful",
          user := some user.identity, token := some (generateToken user.id) }

/-- Body of `POST /api/auth/register`. -/
structure RegisterBody where
  username : Option String
  email : Option String
  password : Option String
  nama : Option String
  direktorat : Option String
  subdirektorat : Option String
  divisi : Option String
  role : Option String
  deriving DecidableEq, Repr

/-- Handler of `POST /api/auth/register`. -/
def postRegisterHandler (bcrypt : Bcrypt) (st : Store) (body : RegisterBody)
    (gen : Generated) : Store × Response :=
  if !truthyStr body.username || !truthyStr body.email || !truthyStr body.password ||
      !truthyStr body.nama then
    (st, { status := 400, message := "Username, email, password, and nama are required" })
  else
    let passwordValidation := validatePassword (body.password.getD "")
    if !passwordValidation.valid then
      (st, { status := 400, message := passwordValidation.message.getD "" })
    else
      match st.users.find? (fun u =>
          u.username == body.username.getD "" || u.email == body.email.getD "") with
      | some existingUser =>
        (st, { status := 400,
               message := if existingUser.username = body.username.getD "" then
                 "Username already exists" else "Email already exists" })
      | none =>
        ({ st with users := st.users ++
            [{ id := gen.id, username := body.username.getD "", email := body.email.getD "",
               password := bcrypt.hash (body.password.getD ""), nama := body.nama.getD "",
               role := if truthyStr body.role then body.role.getD "" else "USER",
               direktorat := orNull body.direktorat,
               subdirektorat := orNull body.subdirektorat,
               divisi := orNull body.divisi }] },
         { status := 201, message := "User created successfully" })

/-- Route `POST /api/auth/register` (admin only). -/
def postRegister (bcrypt : Bcrypt) (st : Store) (user : Identity) (body : RegisterBody)
    (gen : Generated) : Store × Response :=
  requireAdmin user st (postRegisterHandler bcrypt st body gen)

/-! ## Users: listing, viewing and editing (`routes/users.js`) -/

/-- Route `GET /api/users` (admin only).  The listing only reads the store;
the `data` payload of the answer is not part of the response record. -/
def getUsers (st : Store) (user : Identity) : Store × Response :=
  requireAdmin user st (st, { status := 200, message := "" })

/-- Route `GET /api/users/:id` (any authenticated caller); `userId` is
`parseInt(req.params.id)`, `none` for `NaN`, which is different from every id.
The `data` payload of the answer is not part of the response record. -/
def getUser (st : Store) (user : Identity) (userId : Option Int) : Response :=
  if user.role ≠ "ADMIN" ∧ some user.id ≠ userId then
    { status := 403, message := "Access denied" }
  else
    match userId with
    | none => { status := 500, message := "Failed to fetch user" }
    | some id =>
      match st.findUser id with
      | none => { status := 404, message := "User not found" }
      | some _ => { status := 200, message := "" }

/-- The check `email && email !== current` followed by
`prisma.user.findFirst({ email, id: { not: id } })`: the submitted email is new
for this user and belongs to another user. -/
def Store.emailTaken (st : Store) (email : Option String) (current : String) (id : Int) :
    Bool :=
  if truthyStr email ∧ email ≠ some current then
    (st.users.find? (fun u => u.email == email.getD "" && u.id != id)).isSome
  else false

/-- Body of `PUT /api/users/:id`; the unit fields distinguish `undefined`
(`none`) from `null` (`some none`). -/
structure UserUpdateBody where
  nama : Option String
  email : Option String
  direktorat : Option (Option String)
  subdirektorat : Option (Option String)
  divisi : Option (Option String)
  role : Option String
  deriving DecidableEq, Repr

/-- Route `PUT /api/users/:id` (any authenticated caller). -/
def putUser (st : Store) (user : Identity) (userId : Option Int) (body : UserUpdateBody) :
    Store × Response :=
  if user.role ≠ "ADMIN" ∧ some user.id ≠ userId then
    (st, { status := 403, message := "Access denied" })
  else if truthyStr body.role ∧ user.role ≠ "ADMIN" then
    (st, { status := 403, message := "Only admins can change user roles" })
  else
    match userId with
    | none => (st, { status := 400, message := "Invalid user ID" })
    | some id =>
      match st.findUser id with
      | none => (st, { status := 404, message := "User not found" })
      | some existingUser =>
        if st.emailTaken body.email existingUser.email id then
          (st, { status := 400, message := "Email already exists" })
        else
          ({ st with users := st.users.map (fun u =>
              if u.id == id then
                { u with
                  nama := if truthyStr body.nama then body.nama.getD "" else existingUser.nama
                  email := if truthyStr body.email then body.email.getD ""
                    else existingUser.email
                  direktorat := match body.direktorat with
                    | some v => v
                    | none => existingUser.direktorat
                  subdirektorat := match body.subdirektorat with
                    | some v => v
                    | none => existingUser.subdirektorat
                  divisi := match body.divisi with
                    | some v => v
                    | none => existingUser.divisi
                  role := if truthyStr body.role then body.role.getD ""
                    else existingUser.role }
              else u) },
           { status := 200, message := "User updated successfully" })

/-- Body of `PUT /api/users/profile/me`. -/
structure ProfileBody where
  nama : Option String
  email : Option String
  direktorat : Option (Option String)
  subdirektorat : Option (Option String)
  divisi : Option (Option String)
  deriving DecidableEq, Repr

/-- Route `PUT /api/users/profile/me` (any authenticated caller). -/
def putProfileMe (st : Store) (user : Identity) (body : ProfileBody) : Store × Response :=
  if st.emailTaken body.email user.email user.id then
    (st, { status := 400, message := "Email already exists" })
  else
    match st.findUser user.id with
    | none => (st, { status := 500, message := "Failed to update profile" })
    | some _ =>
      ({ st with users := st.users.map (fun u =>
          if u.id == user.id then
            { u with
              nama := if truthyStr body.nama then body.nama.getD "" else user.nama
              email := if truthyStr body.email then body.email.getD "" else user.email
              direktorat := match body.direktorat with
                | some v => v
                | none => user.direktorat
              subdirektorat := match body.subdirektorat with
                | some v => v
                | none => user.subdirektorat
              divisi := match body.divisi with
                | some v => v
                | none => user.divisi }
          else u) },
       { status := 200, message := "Profile updated successfully" })

/-! ## Years: creation and update (`routes/years.js`) -/

/-- What `POST /api/years` observes of the body field `tahun`: the
observations of `JsArg`, the comparisons `tahun < 1900` and `tahun > 2100` on
its numeric value, and its text in a template string. -/
structure YearArg where
  arg : JsArg
  below1900 : Bool
  above2100 : Bool
  text : String
  deriving DecidableEq, Repr

/-- The JSON number `n` as a year argument, for an integer of magnitude below
`10 ^ 21` (see `JsArg.ofInt`). -/
def YearArg.ofInt (n : Int) : YearArg :=
  { arg := JsArg.ofInt n, below1900 := decide (n < 1900), above2100 := decide (n > 2100),
    text := toString n }

/-- The JSON string made of the decimal digits of `m`, the letter `e` and the
decimal digits of `k`, such as `19e2`, as a year argument: as a number it is
`m * 10 ^ k`, which `isNaN` and the two comparisons read, while `parseInt`
stops at the letter and returns `m`. -/
def YearArg.ofExponentText (m k : Nat) : YearArg :=
  { arg := { truthy := true, isNaN := false, parseInt := some (m : Int) }
    below1900 := decide (m * 10 ^ k < 1900)
    above2100 := decide (m * 10 ^ k > 2100)
    text := toString m ++ "e" ++ toString k }

/-- Body of `POST /api/years`. -/
structure YearCreateBody where
  tahun : YearArg
  nama : Option String
  deskripsi : Option String
  deriving DecidableEq, Repr

/-- Handler of `POST /api/years`; `isActive` is the column default. -/
def postYearHandler (st : Store) (body : YearCreateBody) (isActive : Bool) :
    Store × Response :=
  if !body.tahun.arg.truthy then
    (st, { status := 400, message := "Year is required" })
  else if body.tahun.arg.isNaN || body.tahun.below1900 || body.tahun.above2100 then
    (st, { status := 400, message := "Invalid year format (1900-2100)" })
  else
    match body.tahun.arg.parseInt with
    | none => (st, { status := 500, message := "Failed to create year" })
    | some tahun =>
      match st.findYear tahun with
      | some _ => (st, { status := 400, message := "Year already exists" })
      | none =>
        ({ st with years := st.years ++
            [{ tahun := tahun,
               nama := if truthyStr body.nama then body.nama.getD ""
                 else "Tahun Buku " ++ body.tahun.text,
               deskripsi := if truthyStr body.deskripsi then body.deskripsi.getD ""
                 else "Tahun buku " ++ body.tahun.text,
               isActive := isActive }] },
         { status := 201, message := "Year created successfully" })

/-- Route `POST /api/years` (admin only). -/
def postYear (st : Store) (user : Identity) (body : YearCreateBody) (isActive : Bool) :
    Store × Response :=
  requireAdmin user st (postYearHandler st body isActive)

/-- Body of `PUT /api/years/:tahun`; every field distinguishes `undefined`
(`none`) from `null` (`some none`), which the non-null columns refuse. -/
structure YearUpdateBody where
  nama : Option (Option String)
  deskripsi : Option (Option String)
  isActive : Option (Option Bool)
  deriving DecidableEq, Repr

/-- Handler of `PUT /api/years/:tahun`. -/
def putYearHandler (st : Store) (tahun : Option Int) (body : YearUpdateBody) :
    Store × Response :=
  match tahun with
  | none => (st, { status := 400, message := "Invalid year format" })
  | some tahun =>
    match st.findYear tahun with
    | none => (st, { status := 404, message := "Year not found" })
    | some existingYear =>
      if body.nama = some none ∨ body.deskripsi = some none ∨ body.isActive = some none then
        (st, { status := 500, message := "Failed to update year" })
      else
        ({ st with years := st.years.map (fun y =>
            if y.tahun == tahun then
              { y with
                nama := (body.nama.join).getD existingYear.nama
                deskripsi := (body.deskripsi.join).getD existingYear.deskripsi
                isActive := (body.isActive.join).getD existingYear.isActive }
            else y) },
         { status := 200, message := "Year updated successfully" })

/-- Route `PUT /api/years/:tahun` (admin only). -/
def putYear (st : Store) (user : Identity) (tahun : Option Int) (body : YearUpdateBody) :
    Store × Response :=
  requireAdmin user st (putYearHandler st tahun body)

/-! ## Aspects: update and deletion (`routes/aspects.js`) -/

/-- Handler of `PUT /api/aspects/:id`. -/
def putAspectHandler (st : Store) (aspectId : Option Int) (body : AspectBody) :
    Store × Response :=
  match aspectId with
  | none => (st, { status := 400, message := "Invalid aspect ID" })
  | some id =>
    match st.aspects.find? (fun a => a.id == id) with
    | none => (st, { status := 404, message := "Aspect not found" })
    | some _ =>
      if !truthyStr body.nama || !body.tahun.truthy then
        (st, { status := 400, message := "Nama and tahun are required" })
      else if body.tahun.isNaN then
        (st, { status := 400, message := "Invalid year format" })
      else
        match body.tahun.parseInt with
        | none => (st, { status := 500, message := "Failed to update aspect" })
        | some tahun =>
          match st.findYear tahun with
          | none => (st, { status := 400, message := "Year does not exist" })
          | some _ =>
            match st.aspects.find? (fun a =>
                a.nama == body.nama.getD "" && a.tahun == tahun && a.id != id) with
            | some _ =>
              (st, { status := 400,
                     message := "Aspect name already exists for the specified year" })
            | none =>
              ({ st with aspects := st.aspects.map (fun a =>
                  if a.id == id then { a with nama := body.nama.getD "", tahun := tahun }
                  else a) },
               { status := 200, message := "Aspect updated successfully" })

/-- Route `PUT /api/aspects/:id` (admin only). -/
def putAspect (st : Store) (user : Identity) (aspectId : Option Int) (body : AspectBody) :
    Store × Response :=
  requireAdmin user st (putAspectHandler st aspectId body)

/-- Handler of `DELETE /api/aspects/:id`. -/
def deleteAspectHandler (st : Store) (aspectId : Option Int) : Store × Response :=
  match aspectId with
  | none => (st, { status := 400, message := "Invalid aspect ID" })
  | some id =>
    match st.aspects.find? (fun a => a.id == id) with
    | none => (st, { status := 404, message := "Aspect not found" })
    | some existingAspect =>
      let checklistCount := (st.checklists.filter (fun c =>
        c.aspek == existingAspect.nama && c.tahun == existingAspect.tahun)).length
      if checklistCount > 0 then
        (st, { status := 400,
               message := "Cannot delete aspect. It has " ++ toString checklistCount ++
                 " related checklist items. Please delete or reassign checklist items first." })
      else
        ({ st with aspects := st.aspects.filter (fun a => !(a.id == id)) },
         { status := 200, message := "Aspect deleted successfully" })

/-- Route `DELETE /api/aspects/:id` (admin only). -/
def deleteAspect (st : Store) (user : Identity) (aspectId : Option Int) : Store × Response :=
  requireAdmin user st (deleteAspectHandler st aspectId)

/-! ## File upload (`routes/fileUploads.js`) -/

/-- The list `allowedTypes` of `fileFilter`. -/
def allowedTypes : List String :=
  [ "application/pdf",
    "application/msword",
    "application/vnd.openxmlformats-officedocument.wordprocessingml.document",
    "application/vnd.ms-excel",
    "application/vnd.openxmlformats-officedocument.spreadsheetml.sheet",
    "text/plain",
    "image/jpeg",
    "image/png",
    "image/gif" ]

/-- Embedding of `fileFilter`: `none` when the file is accepted
(`cb(null, true)`), otherwise the message of the error handed to the callback. -/
def fileFilter (mimetype : String) : Option String :=
  if mimetype ∈ allowedTypes then none
  else some "Invalid file type. Only documents and images are allowed."

/-- JavaScript `String.prototype.includes` on lists of characters. -/
def includes : List Char → List Char → Bool
  | [], pattern => pattern.isEmpty
  | c :: cs, pattern => pattern.isPrefixOf (c :: cs) || includes cs pattern

/-- An error handed to the error middleware of the upload router: a
`MulterError` with its code, or any other error. -/
inductive UploadError where
  | multer (code : String) (message : String)
  | other (message : String)
  deriving DecidableEq, Repr

/-- The error middleware at the end of the upload router: the response it
sends, or `none` when it calls `next(error)`. -/
def uploadErrorMiddleware (maxFileSize : Nat) (error : UploadError) : Option Response :=
  match error with
  | .multer code message =>
    if code = "LIMIT_FILE_SIZE" then
      some { status := 400,
             message := "File too large. Maximum size is " ++
               toString (mathRound (jsDiv (jsDiv (Double.ofNat maxFileSize) (Double.ofNat 1024))
                 (Double.ofNat 1024))) ++ "MB" }
    else some { status := 400, message := "File upload error: " ++ message }
  | .other message =>
    if includes message.toList "Invalid file type".toList then
      some { status := 400, message := message }
    else none

/-- The global error handler of `server.js`, for an error without
`statusCode`. -/
def globalErrorHandler (error : UploadError) : Response :=
  match error with
  | .multer _ message => { status := 500, message := message }
  | .other message => { status := 500, message := message }

/-- The file part of a multipart upload request. -/
structure FilePart where
  originalname : String
  mimetype : String
  size : Nat
  deriving DecidableEq, Repr

/-- The object `req.file` that the disk storage produces for a stored file. -/
structure UploadedFile where
  filename : String
  originalname : String
  path : String
  size : Nat
  mimetype : String
  deriving DecidableEq, Repr

/-- Body fields of `POST /api/files/upload`. -/
structure UploadBody where
  checklistId : JsArg
  tahun : JsArg
  deriving DecidableEq, Repr

/-- What surrounds one upload request: the configured size limit, the name
and path chosen by the disk storage, and whether `prisma.fileUpload.create`
throws. -/
structure UploadEnv where
  maxFileSize : Nat
  filename : String
  path : String
  createThrows : Bool
  deriving DecidableEq, Repr

/-- The `catch` block of the upload handler: the uploaded file is unlinked
and the answer is 500. -/
def uploadCleanup (st : Store) (file : UploadedFile) : Store × Response :=
  ({ st with disk := st.disk.filter (fun path => !(path == file.path)) },
   { status := 500, message := "Failed to upload file" })

/-- Handler of `POST /api/files/upload`, after `verifyToken` and
`upload.single`; `file` is `req.file`, already written to `st.disk` when
present. -/
def postUploadHandler (st : Store) (user : Identity) (file : Option UploadedFile)
    (body : UploadBody) (gen : Generated) (createThrows : Bool) : Store × Response :=
  match file with
  | none => (st, { status := 400, message := "No file uploaded" })
  | some file =>
    if !body.checklistId.truthy || !body.tahun.truthy then
      (st, { status := 400, message := "Checklist ID and tahun are required" })
    else if body.checklistId.isNaN || body.tahun.isNaN then
      (st, { status := 400, message := "Invalid checklist ID or tahun format" })
    else
      match body.checklistId.parseInt with
      | none => uploadCleanup st file
      | some checklistId =>
        match st.findChecklist checklistId with
        | none => (st, { status := 400, message := "Checklist not found" })
        | some checklist =>
          if some checklist.tahun ≠ body.tahun.parseInt then
            (st, { status := 400, message := "Checklist year does not match" })
          else if createThrows then uploadCleanup st file
          else
            ({ st with fileUploads := st.fileUploads ++
                [{ id := gen.id, fileName := file.filename, originalName := file.originalname,
                   filePath := file.path, fileSize := file.size, mimeType := file.mimetype,
                   checklistId := checklistId,
                   tahun := body.tahun.parseInt.getD checklist.tahun,
                   uploadedBy := user.id, uploadDate := gen.now }] },
             { status := 201, message := "File uploaded successfully" })

/-- Route `POST /api/files/upload` (any authenticated caller).  The multipart
middleware `upload.single` is a library: it hands the file part to
`fileFilter`, passes a rejection as an error to the error middleware, refuses
a file that reaches the size limit with the `MulterError` `LIMIT_FILE_SIZE`
(removing what it had written), and otherwise stores the file and sets `req.file`. -/
def postUpload (st : Store) (user : Identity) (part : Option FilePart) (body : UploadBody)
    (gen : Generated) (env : UploadEnv) : Store × Response :=
  match part with
  | none => postUploadHandler st user none body gen env.createThrows
  | some part =>
    match fileFilter part.mimetype with
    | some message =>
      (st, (uploadErrorMiddleware env.maxFileSize (.other message)).getD
        (globalErrorHandler (.other message)))
    | none =>
      if part.size ≥ env.maxFileSize then
        (st, (uploadErrorMiddleware env.maxFileSize
          (.multer "LIMIT_FILE_SIZE" "File too large")).getD
          (globalErrorHandler (.multer "LIMIT_FILE_SIZE" "File too large")))
      else
        postUploadHandler { st with disk := st.disk ++ [env.path] } user
          (some { filename := env.filename, originalname := part.originalname,
                  path := env.path, size := part.size, mimetype := part.mimetype })
          body gen env.createThrows

/-! ## Admin-only routes -/

/-- A request to one of the routes whose chain is `verifyToken, requireAdmin`. -/
inductive AdminRequest where
  | postYear (body : YearCreateBody) (isActive : Bool)
  | putYear (tahun : Option Int) (body : YearUpdateBody)
  | deleteYear (tahun : Option Int)
  | postAspect (body : AspectBody) (gen : Generated)
  | putAspect (id : Option Int) (body : AspectBody)
  | deleteAspect (id : Option Int)
  | postChecklist (body : ChecklistBody) (gen : Generated)
  | putChecklist (id : Option Int) (body : ChecklistBody)
  | deleteChecklist (id : Option Int)
  | postStruktur (body : StrukturBody) (gen : Generated)
  | putStruktur (id : Option Int) (body : StrukturBody)
  | deleteStruktur (id : Option Int)
  | postAssignment (body : AssignmentCreateBody) (gen : Generated)
  | putAssignment (id : Option Int) (body : AssignmentUpdateBody)
  | deleteAssignment (id : Option Int)
  | postRegister (body : RegisterBody) (gen : Generated)
  | getUsers
  | deleteUser (id : Option Int)

/-- The admin-only route that serves a request. -/
def handleAdmin (bcrypt : Bcrypt) (st : Store) (user : Identity) :
    AdminRequest → Store × Response
  | .postYear body isActive => postYear st user body isActive
  | .putYear tahun body => putYear st user tahun body
  | .deleteYear tahun => deleteYear st user tahun
  | .postAspect body gen => postAspect st user body gen
  | .putAspect id body => putAspect st user id body
  | .deleteAspect id => deleteAspect st user id
  | .postChecklist body gen => postChecklist st user body gen
  | .putChecklist id body => putChecklist st user id body
  | .deleteChecklist id => deleteChecklist st user id
  | .postStruktur body gen => postStruktur st user body gen
  | .putStruktur id body => putStruktur st user id body
  | .deleteStruktur id => deleteStruktur st user id
  | .postAssignment body gen => postAssignment st user body gen
  | .putAssignment id body => putAssignment st user id body
  | .deleteAssignment id => deleteAssignment st user id
  | .postRegister body gen => postRegister bcrypt st user body gen
  | .getUsers => getUsers st user
  | .deleteUser id => deleteUser st user id

/-! ## Summaries of files and organizational units -/

/-- The `data` of `GET /api/files/stats/summary`. -/
structure FileStats where
  total : Nat
  totalSize : Nat
  averageSize : Nat
  filesByType : List (String × Nat)
  filesByMonth : List (Nat × Nat)
  deriving DecidableEq, Repr

/-- The file records selected by the `where` clause of the file summary: all
of them, or those of the given year when the query parameter `tahun` is truthy
(`none` when the ORM refuses a `NaN` year). -/
def Store.selectedFiles (st : Store) (tahun : JsArg) : Option (List FileUpload) :=
  if tahun.truthy then
    match tahun.parseInt with
    | none => none
    | some year => some (st.fileUploads.filter (fun f => f.tahun == year))
  else some st.fileUploads

/-- The statistics object computed from the selected file records;
`sumFileSize` is `totalSize._sum.fileSize || 0`. -/
def fileStats (rows : List FileUpload) : FileStats :=
  let totalFiles := rows.length
  let sumFileSize := (rows.map (fun f => f.fileSize)).sum
  let filesByType := groupCount (rows.map (fun f => f.mimeType))
  let filesByMonth := groupCount (rows.map (fun f => f.uploadDate))
  { total := totalFiles
    totalSize := sumFileSize
    averageSize :=
      if totalFiles > 0 then
        mathRound (jsDiv (Double.ofNat sumFileSize) (Double.ofNat totalFiles))
      else 0
    filesByType := filesByType
    filesByMonth := filesByMonth }

/-- Route `GET /api/files/stats/summary`: the statistics, or `none` for the
500 response. -/
def getFileStatsSummary (st : Store) (tahun : JsArg) : Option FileStats :=
  (st.selectedFiles tahun).map fileStats

/-- The `breakdown` object of the organizational-unit summary: name and count
of every group. -/
structure StrukturBreakdown where
  direktorat : List (String × Nat)
  subdirektorat : List (String × Nat)
  divisi : List (Option String × Nat)
  deriving DecidableEq, Repr

/-- The `data` of `GET /api/struktur/stats/summary`. -/
structure StrukturStats where
  total : Nat
  direktorat : Nat
  subdirektorat : Nat
  divisi : Nat
  breakdown : StrukturBreakdown
  deriving DecidableEq, Repr

/-- The units selected by the `where` clause of the unit summary: all of
them, or those of the given year when the query parameter `tahun` is truthy
(`none` when the ORM refuses a `NaN` year). -/
def Store.selectedStrukturs (st : Store) (tahun : JsArg) :
    Option (List StrukturPerusahaan) :=
  if tahun.truthy then
    match tahun.parseInt with
    | none => none
    | some year => some (st.strukturs.filter (fun s => s.tahun == year))
  else some st.strukturs

/-- The statistics object computed from the selected units.  The group of
units without division is dropped by `d.divisi !== null` before its count is
read. -/
def strukturStats (rows : List StrukturPerusahaan) : StrukturStats :=
  let totalStruktur := rows.length
  let direktoratCount := groupCount (rows.map (fun s => s.direktorat))
  let subdirektoratCount := groupCount (rows.map (fun s => s.subdirektorat))
  let divisiCount := groupCount (rows.map (fun s => s.divisi))
  { total := totalStruktur
    direktorat := direktoratCount.length
    subdirektorat := subdirektoratCount.length
    divisi := (divisiCount.filter (fun d => d.1 != none)).length
    breakdown :=
      { direktorat := direktoratCount.map (fun d => (d.1, d.2))
        subdirektorat := subdirektoratCount.map (fun s => (s.1, s.2))
        divisi := (divisiCount.filter (fun d => d.1 != none)).map (fun d => (d.1, d.2)) } }

/-- Route `GET /api/struktur/stats/summary`: the statistics, or `none` for the
500 response. -/
def getStrukturStatsSummary (st : Store) (tahun : JsArg) : Option StrukturStats :=
  (st.selectedStrukturs tahun).map strukturStats

/-! ## Token check and the route table (`middleware/auth.js`, `server.js`) -/

/-- The two ways `jwt.verify` fails as far as `verifyToken` tells them apart:
an error named `TokenExpiredError`, or any other error. -/
inductive JwtError where
  | expired
  | other
  deriving DecidableEq, Repr

/-- Embedding of `verifyToken`; `authorization` is the request header and
`jwtVerify` checks a token against the configured secret and returns the
`userId` of its payload.  The result is the response that ends the request,
or the identity installed as `req.user`. -/
def verifyToken (jwtVerify : String → Except JwtError Int) (st : Store)
    (authorization : Option String) : Except Response Identity :=
  if !truthyStr authorization || !(authorization.getD "").startsWith "Bearer " then
    .error { status := 401, message := "Access token required" }
  else
    match jwtVerify ((authorization.getD "").drop 7) with
    | .error .expired => .error { status := 401, message := "Token expired" }
    | .error .other => .error { status := 401, message := "Invalid token" }
    | .ok userId =>
      match st.findUser userId with
      | none => .error { status := 401, message := "User not found" }
      | some user => .ok user.identity

/-- The middleware functions that occur in the chains of the routes. -/
inductive Middleware where
  | verifyToken
  | requireAdmin
  | requireChecklistAccess
  | uploadSingle
  deriving DecidableEq, Repr

/-- A registered route: method, full path (mount point and router path) and
the middleware chain in front of the handler. -/
structure Route where
  method : String
  path : String
  chain : List Middleware
  deriving DecidableEq, Repr

/-- Every route registered under `/api`: the three of `server.js` (the two
test routes exist in development mode only) and those of the eight routers, in
the order of the files. -/
def apiRoutes : List Route :=
  [ { method := "GET", path := "/api", chain := [] },
    { method := "GET", path := "/api/test/public", chain := [] },
    { method := "GET", path := "/api/test/db-status", chain := [] },
    { method := "GET", path := "/api/auth", chain := [] },
    { method := "POST", path := "/api/auth/register", chain := [.verifyToken, .requireAdmin] },
    { method := "POST", path := "/api/auth/login", chain := [] },
    { method := "POST", path := "/api/auth/generate-password", chain := [] },
    { method := "POST", path := "/api/auth/validate-password", chain := [] },
    { method := "GET", path := "/api/auth/me", chain := [.verifyToken] },
    { method := "POST", path := "/api/auth/change-password", chain := [.verifyToken] },
    { method := "GET", path := "/api/users", chain := [.verifyToken, .requireAdmin] },
    { method := "GET", path := "/api/users/:id", chain := [.verifyToken] },
    { method := "PUT", path := "/api/users/:id", chain := [.verifyToken] },
    { method := "DELETE", path := "/api/users/:id", chain := [.verifyToken, .requireAdmin] },
    { method := "GET", path := "/api/users/profile/me", chain := [.verifyToken] },
    { method := "PUT", path := "/api/users/profile/me", chain := [.verifyToken] },
    { method := "GET", path := "/api/years", chain := [.verifyToken] },
    { method := "GET", path := "/api/years/:tahun", chain := [.verifyToken] },
    { method := "POST", path := "/api/years", chain := [.verifyToken, .requireAdmin] },
    { method := "PUT", path := "/api/years/:tahun", chain := [.verifyToken, .requireAdmin] },
    { method := "DELETE", path := "/api/years/:tahun", chain := [.verifyToken, .requireAdmin] },
    { method := "GET", path := "/api/years/:tahun/stats", chain := [.verifyToken] },
    { method := "GET", path := "/api/struktur", chain := [.verifyToken] },
    { method := "GET", path := "/api/struktur/:id", chain := [.verifyToken] },
    { method := "POST", path := "/api/struktur", chain := [.verifyToken, .requireAdmin] },
    { method := "PUT", path := "/api/struktur/:id", chain := [.verifyToken, .requireAdmin] },
    { method := "DELETE", path := "/api/struktur/:id", chain := [.verifyToken, .requireAdmin] },
    { method := "GET", path := "/api/struktur/:id/assignments", chain := [.verifyToken] },
    { method := "GET", path := "/api/struktur/stats/summary", chain := [.verifyToken] },
    { method := "GET", path := "/api/aspects", chain := [.verifyToken] },
    { method := "GET", path := "/api/aspects/:id", chain := [.verifyToken] },
    { method := "POST", path := "/api/aspects", chain := [.verifyToken, .requireAdmin] },
    { method := "PUT", path := "/api/aspects/:id", chain := [.verifyToken, .requireAdmin] },
    { method := "DELETE", path := "/api/aspects/:id", chain := [.verifyToken, .requireAdmin] },
    { method := "GET", path := "/api/aspects/:id/checklist", chain := [.verifyToken] },
    { method := "GET", path := "/api/checklist", chain := [.verifyToken] },
    { method := "GET", path := "/api/checklist/:id",
      chain := [.verifyToken, .requireChecklistAccess] },
    { method := "POST", path := "/api/checklist", chain := [.verifyToken, .requireAdmin] },
    { method := "PUT", path := "/api/checklist/:id", chain := [.verifyToken, .requireAdmin] },
    { method := "DELETE", path := "/api/checklist/:id", chain := [.verifyToken, .requireAdmin] },
    { method := "GET", path := "/api/checklist/:id/status", chain := [.verifyToken] },
    { method := "GET", path := "/api/files", chain := [.verifyToken] },
    { method := "GET", path := "/api/files/:id", chain := [.verifyToken] },
    { method := "POST", path := "/api/files/upload", chain := [.verifyToken, .uploadSingle] },
    { method := "DELETE", path := "/api/files/:id", chain := [.verifyToken] },
    { method := "GET", path := "/api/files/:id/download", chain := [.verifyToken] },
    { method := "GET", path := "/api/files/stats/summary", chain := [.verifyToken] },
    { method := "GET", path := "/api/assignments", chain := [.verifyToken] },
    { method := "GET", path := "/api/assignments/:id", chain := [.verifyToken] },
    { method := "POST", path := "/api/assignments", chain := [.verifyToken, .requireAdmin] },
    { method := "PUT", path := "/api/assignments/:id", chain := [.verifyToken, .requireAdmin] },
    { method := "DELETE", path := "/api/assignments/:id",
      chain := [.verifyToken, .requireAdmin] },
    { method := "PATCH", path := "/api/assignments/:id/status", chain := [.verifyToken] },
    { method := "GET", path := "/api/assignments/stats/summary", chain := [.verifyToken] } ]

/-- The `documentation` string of the answer of `GET /api`. -/
def apiDocumentation : String :=
  "All endpoints require authentication except /api/auth/login and /api/auth/register"

/-- The routes whose chain does not contain `verifyToken`, as method and
path. -/
def openRoutes : List (String × String) :=
  (apiRoutes.filter (fun r => !r.chain.contains Middleware.verifyToken)).map
    (fun r => (r.method, r.path))

/-- Route `POST /api/auth/register` from the request header on: the chain
`verifyToken`, `requireAdmin`, handler. -/
def postRegisterRequest (bcrypt : Bcrypt) (jwtVerify : String → Except JwtError Int)
    (st : Store) (authorization : Option String) (body : RegisterBody) (gen : Generated) :
    Store × Response :=
  match verifyToken jwtVerify st authorization with
  | .error response => (st, response)
  | .ok user => postRegister bcrypt st user body gen

/-! ## Password generation (`routes/auth.js`) -/

/-- JavaScript `Math.floor` on a non-negative double. -/
def mathFloor (x : Double) : Nat :=
  if 0 ≤ x.e then x.m * 2 ^ x.e.toNat else x.m / 2 ^ x.e.natAbs

/-- The text appended by `password += s[i]`: the character at index `i`, or
the text `undefined` past the end of the string. -/
def jsIndex (s : String) (i : Nat) : List Char :=
  match s.toList[i]? with
  | some c => [c]
  | none => "undefined".toList

/-- The values `Math.floor(Math.random() * n)` drawn by one run of
`generateRandomPassword`: one index per category, and the index drawn in
iteration `i` of the loop. -/
structure PasswordDraws where
  upper : Nat
  lower : Nat
  digit : Nat
  special : Nat
  rest : Nat → Nat

/-- Embedding of `generateRandomPassword`; `sort` is the call
`sort(() => Math.random() - 0.5)` on the array of characters. -/
def generateRandomPassword (draws : PasswordDraws) (sort : List Char → List Char) : String :=
  let charset := "ABCDEFGHIJKLMNOPQRSTUVWXYZabcdefghijklmnopqrstuvwxyz0123456789!@#$%^&*"
  let password0 : List Char := []
  let password1 := password0 ++ jsIndex "ABCDEFGHIJKLMNOPQRSTUVWXYZ" draws.upper
  let password2 := password1 ++ jsIndex "abcdefghijklmnopqrstuvwxyz" draws.lower
  let password3 := password2 ++ jsIndex "0123456789" draws.digit
  let password4 := password3 ++ jsIndex "!@#$%^&*" draws.special
  let password12 := (List.range' 4 8).foldl
    (fun password i => password ++ jsIndex charset (draws.rest i)) password4
  String.mk (sort password12)

/-- The JSON answer of `POST /api/auth/generate-password`. -/
structure GeneratedPassword where
  password : String
  strength : Option Nat
  message : String
  deriving DecidableEq, Repr

/-- Route `POST /api/auth/generate-password` (no authentication). -/
def postGeneratePassword (draws : PasswordDraws) (sort : List Char → List Char) :
    GeneratedPassword :=
  let password := generateRandomPassword draws sort
  let validation := validatePassword password
  { password := password, strength := validation.strength,
    message := "Password generated successfully" }

/-! ## Areas of improvement (`src/contexts/AOIContext.tsx`) -/

/-- The `priority` of an AOI. -/
inductive Priority where
  | LOW
  | MEDIUM
  | HIGH
  | CRITICAL
  deriving DecidableEq, Repr

/-- The `status` of an AOI. -/
inductive AOIStatus where
  | PENDING
  | IN_PROGRESS
  | COMPLETED
  | CANCELLED
  deriving DecidableEq, Repr

/-- The `status` of an action item. -/
inductive ActionStatus where
  | PENDING
  | IN_PROGRESS
  | COMPLETED
  deriving DecidableEq, Repr

/-- Interface `ActionItem`. -/
structure ActionItem where
  id : String
  description : String
  status : ActionStatus
  assignedTo : String
  dueDate : String
  completedAt : Option String
  deriving DecidableEq, Repr

/-- Interface `AOI`; `progress` and `year` are numbers. -/
structure AOI where
  id : String
  title : String
  description : String
  aspect : String
  priority : Priority
  status : AOIStatus
  assignedTo : String
  dueDate : String
  createdAt : String
  updatedAt : String
  progress : Int
  actionItems : List ActionItem
  documents : List String
  year : Int
  deriving DecidableEq, Repr

/-- The argument of `addAOI`: `Omit<AOI, 'id' | 'createdAt' | 'updatedAt'>`. -/
structure NewAOI where
  title : String
  description : String
  aspect : String
  priority : Priority
  status : AOIStatus
  assignedTo : String
  dueDate : String
  progress : Int
  actionItems : List ActionItem
  documents : List String
  year : Int
  deriving DecidableEq, Repr

/-- The argument `updates : Partial<AOI>` of `updateAOI`: every field may be
absent.  An `updatedAt` among the updates has no effect, because the spread
sets `updatedAt` last, so it is left out. -/
structure AOIUpdates where
  id : Option String
  title : Option String
  description : Option String
  aspect : Option String
  priority : Option Priority
  status : Option AOIStatus
  assignedTo : Option String
  dueDate : Option String
  createdAt : Option String
  progress : Option Int
  actionItems : Option (List ActionItem)
  documents : Option (List String)
  year : Option Int
  deriving DecidableEq, Repr

/-- The argument of `addActionItem`: `Omit<ActionItem, 'id'>`. -/
structure NewActionItem where
  description : String
  status : ActionStatus
  assignedTo : String
  dueDate : String
  completedAt : Option String
  deriving DecidableEq, Repr

/-- The argument `updates : Partial<ActionItem>` of `updateActionItem`. -/
structure ActionItemUpdates where
  id : Option String
  description : Option String
  status : Option ActionStatus
  assignedTo : Option String
  dueDate : Option String
  completedAt : Option (Option String)
  deriving DecidableEq, Repr

/-- Embedding of `addAOI`; `id` is `Date.now().toString()` and `now` is
`new Date().toISOString()`. -/
def addAOI (aois : List AOI) (aoi : NewAOI) (id now : String) : List AOI :=
  aois ++
    [{ id := id, title := aoi.title, description := aoi.description, aspect := aoi.aspect,
       priority := aoi.priority, status := aoi.status, assignedTo := aoi.assignedTo,
       dueDate := aoi.dueDate, createdAt := now, updatedAt := now, progress := aoi.progress,
       actionItems := aoi.actionItems, documents := aoi.documents, year := aoi.year }]

/-- Embedding of `updateAOI`: the spread `{ ...aoi, ...updates, updatedAt }`
on every AOI with the given id. -/
def updateAOI (aois : List AOI) (id : String) (updates : AOIUpdates) (now : String) :
    List AOI :=
  aois.map (fun aoi =>
    if aoi.id = id then
      { id := updates.id.getD aoi.id
        title := updates.title.getD aoi.title
        description := updates.description.getD aoi.description
        aspect := updates.aspect.getD aoi.aspect
        priority := updates.priority.getD aoi.priority
        status := updates.status.getD aoi.status
        assignedTo := updates.assignedTo.getD aoi.assignedTo
        dueDate := updates.dueDate.getD aoi.dueDate
        createdAt := updates.createdAt.getD aoi.createdAt
        updatedAt := now
        progress := updates.progress.getD aoi.progress
        actionItems := updates.actionItems.getD aoi.actionItems
        documents := updates.documents.getD aoi.documents
        year := updates.year.getD aoi.year }
    else aoi)

/-- Embedding of `deleteAOI`. -/
def deleteAOI (aois : List AOI) (id : String) : List AOI :=
  aois.filter (fun aoi => aoi.id != id)

/-- Embedding of `updateAOIProgress`. -/
def updateAOIProgress (aois : List AOI) (id : String) (progress : Int) (now : String) :
    List AOI :=
  aois.map (fun aoi =>
    if aoi.id = id then
      { aoi with
        progress := max 0 (min 100 progress)
        updatedAt := now
        status := if progress ≥ 100 then AOIStatus.COMPLETED else aoi.status }
    else aoi)

/-- Embedding of `addActionItem`; `id` is `Date.now().toString()`. -/
def addActionItem (aois : List AOI) (aoiId : String) (actionItem : NewActionItem)
    (id : String) : List AOI :=
  aois.map (fun aoi =>
    if aoi.id = aoiId then
      { aoi with actionItems := aoi.actionItems ++
          [{ id := id, description := actionItem.description, status := actionItem.status,
             assignedTo := actionItem.assignedTo, dueDate := actionItem.dueDate,
             completedAt := actionItem.completedAt }] }
    else aoi)

/-- Embedding of `updateActionItem`. -/
def updateActionItem (aois : List AOI) (aoiId actionItemId : String)
    (updates : ActionItemUpdates) : List AOI :=
  aois.map (fun aoi =>
    if aoi.id = aoiId then
      { aoi with actionItems := aoi.actionItems.map (fun item =>
          if item.id = actionItemId then
            { id := updates.id.getD item.id
              description := updates.description.getD item.description
              status := updates.status.getD item.status
              assignedTo := updates.assignedTo.getD item.assignedTo
              dueDate := updates.dueDate.getD item.dueDate
              completedAt := updates.completedAt.getD item.completedAt }
          else item) }
    else aoi)

/-- Embedding of `deleteActionItem`. -/
def deleteActionItem (aois : List AOI) (aoiId actionItemId : String) : List AOI :=
  aois.map (fun aoi =>
    if aoi.id = aoiId then
      { aoi with actionItems := aoi.actionItems.filter (fun item => item.id != actionItemId) }
    else aoi)

/-- The object returned by `getAOIStats`. -/
structure AOIStats where
  total : Nat
  completed : Nat
  inProgress : Nat
  pending : Nat
  critical : Nat
  high : Nat
  medium : Nat
  low : Nat
  deriving DecidableEq, Repr

/-- Embedding of `getAOIStats`. -/
def getAOIStats (aois : List AOI) (year : Int) : AOIStats :=
  let yearAOIs := aois.filter (fun aoi => aoi.year == year)
  { total := yearAOIs.length
    completed := (yearAOIs.filter (fun aoi => aoi.status == AOIStatus.COMPLETED)).length
    inProgress := (yearAOIs.filter (fun aoi => aoi.status == AOIStatus.IN_PROGRESS)).length
    pending := (yearAOIs.filter (fun aoi => aoi.status == AOIStatus.PENDING)).length
    critical := (yearAOIs.filter (fun aoi => aoi.priority == Priority.CRITICAL)).length
    high := (yearAOIs.filter (fun aoi => aoi.priority == Priority.HIGH)).length
    medium := (yearAOIs.filter (fun aoi => aoi.priority == Priority.MEDIUM)).length
    low := (yearAOIs.filter (fun aoi => aoi.priority == Priority.LOW)).length }

/-- One call of an operation of the AOI context that changes the list, with
the clock values it reads. -/
inductive AOIOp where
  | addAOI (aoi : NewAOI) (id now : String)
  | updateAOI (id : String) (updates : AOIUpdates) (now : String)
  | deleteAOI (id : String)
  | updateAOIProgress (id : String) (progress : Int) (now : String)
  | addActionItem (aoiId : String) (actionItem : NewActionItem) (id : String)
  | updateActionItem (aoiId actionItemId : String) (updates : ActionItemUpdates)
  | deleteActionItem (aoiId actionItemId : String)

/-- The list of AOIs after one call. -/
def applyOp (aois : List AOI) : AOIOp → List AOI
  | .addAOI aoi id now => addAOI aois aoi id now
  | .updateAOI id updates now => updateAOI aois id updates now
  | .deleteAOI id => deleteAOI aois id
  | .updateAOIProgress id progress now => updateAOIProgress aois id progress now
  | .addActionItem aoiId actionItem id => addActionItem aois aoiId actionItem id
  | .updateActionItem aoiId actionItemId updates =>
    updateActionItem aois aoiId actionItemId updates
  | .deleteActionItem aoiId actionItemId => deleteActionItem aois aoiId actionItemId

/-- The list of AOIs after a sequence of calls, each made on the list of the
render that follows the previous call: a callback of the context works on the
list of the render it was created in, so every call of the sequence sees the
result of the one before it only after that render. -/
def applyOps (aois : List AOI) (ops : List AOIOp) : List AOI :=
  ops.foldl applyOp aois

/-! ## Store conditions and sample data -/

/-- No organizational unit stores the empty string as its division: the
create and update routes store `divisi || null`. -/
def Store.NoEmptyDivisi (st : Store) : Prop :=
  ∀ s ∈ st.strukturs, s.divisi ≠ some ""

/-- Specification side: the identity matches the organizational unit for
checklist access: directorate and sub-directorate equal, division equal or
unset on the unit. -/
def UnitCovers (s : StrukturPerusahaan) (user : Identity) : Prop :=
  some s.direktorat = user.direktorat ∧ some s.subdirektorat = user.subdirektorat ∧
    (s.divisi = user.divisi ∨ s.divisi = none)

/-- The administrator of the sample stores. -/
def adminUser : User :=
  { id := 1, username := "admin", email := "admin@example.com", password := "hash-admin",
    nama := "Admin", role := "ADMIN", direktorat := none, subdirektorat := none,
    divisi := none }

/-- A user of unit (Dir X, SubDir Y) without division. -/
def budiUser : User :=
  { id := 2, username := "budi", email := "budi@example.com", password := "hash-budi",
    nama := "Budi", role := "USER", direktorat := some "Dir X",
    subdirektorat := some "SubDir Y", divisi := none }

/-- A user of unit (Dir X, SubDir Y) with division Div B. -/
def citraUser : User :=
  { id := 3, username := "citra", email := "citra@example.com", password := "hash-citra",
    nama := "Citra", role := "USER", direktorat := some "Dir X",
    subdirektorat := some "SubDir Y", divisi := some "Div B" }

/-- A user of unit (Dir X, SubDir Z) with division Div B. -/
def dewiUser : User :=
  { id := 4, username := "dewi", email := "dewi@example.com", password := "hash-dewi",
    nama := "Dewi", role := "USER", direktorat := some "Dir X",
    subdirektorat := some "SubDir Z", divisi := some "Div B" }

/-- A small store: three years (2026 without children), the aspect A1 in 2024
and 2025, three checklist items, three organizational units, two assignments
and one file record uploaded by Citra. -/
def demoStore : Store :=
  { users := [adminUser, budiUser, citraUser, dewiUser]
    years := [{ tahun := 2024, nama := "Tahun Buku 2024", deskripsi := "Tahun buku 2024",
                isActive := true },
              { tahun := 2025, nama := "Tahun Buku 2025", deskripsi := "Tahun buku 2025",
                isActive := true },
              { tahun := 2026, nama := "Tahun Buku 2026", deskripsi := "Tahun buku 2026",
                isActive := true }]
    aspects := [{ id := 1, nama := "A1", tahun := 2024 }, { id := 2, nama := "A1", tahun := 2025 }]
    checklists := [{ id := 1, aspek := "A1", deskripsi := "Pedoman", tahun := 2024 },
                   { id := 2, aspek := "A1", deskripsi := "Laporan", tahun := 2024 },
                   { id := 3, aspek := "A1", deskripsi := "Pedoman", tahun := 2025 }]
    strukturs := [{ id := 1, tahun := 2024, direktorat := "Dir X", subdirektorat := "SubDir Y",
                    divisi := none },
                  { id := 2, tahun := 2024, direktorat := "Dir X", subdirektorat := "SubDir Z",
                    divisi := some "Div A" },
                  { id := 3, tahun := 2025, direktorat := "Dir X", subdirektorat := "SubDir Y",
                    divisi := none }]
    assignments := [{ id := 1, checklistId := 1, strukturId := 1, assignedBy := 1,
                      status := "PENDING", dueDate := none, notes := none,
                      assignedAt := 1700000000000 },
                    { id := 2, checklistId := 2, strukturId := 2, assignedBy := 1,
                      status := "PENDING", dueDate := none, notes := none,
                      assignedAt := 1700000000001 }]
    fileUploads := [{ id := 1, fileName := "file-1.pdf", originalName := "pedoman.pdf",
                      filePath := "uploads/file-1.pdf", fileSize := 1024,
                      mimeType := "application/pdf", checklistId := 1, tahun := 2024,
                      uploadedBy := 3, uploadDate := 1700000000002 }]
    disk := ["uploads/file-1.pdf"] }

/-- Values generated by the database for the next inserted row of the sample
stores. -/
def demoGen : Generated := { id := 10, now := 1700000000100, status := "PENDING" }

/-- The store invariant on years: every assignment refers to an existing
checklist item and an existing organizational unit of the same year. -/
def Store.yearsAgree (st : Store) : Bool :=
  st.assignments.all (fun a =>
    match st.findChecklist a.checklistId, st.findStruktur a.strukturId with
    | some c, some s => c.tahun == s.tahun
    | _, _ => false)

/-- User ids are a primary key: no two user rows share an id. -/
def Store.UniqueUserIds (st : Store) : Prop :=
  (st.users.map (fun u => u.id)).Nodup

/-- The role of every user row, with its id, in store order. -/
def Store.userRoles (st : Store) : List (Int × String) :=
  st.users.map (fun u => (u.id, u.role))

/-- A stand-in for the token signer on the sample stores. -/
def demoToken (userId : Int) : String := "token-" ++ toString userId

/-- A request to one of the routes that write checklist items, organizational
units or assignments. -/
inductive Request where
  | postChecklist (body : ChecklistBody) (gen : Generated)
  | putChecklist (id : Option Int) (body : ChecklistBody)
  | deleteChecklist (id : Option Int)
  | postStruktur (body : StrukturBody) (gen : Generated)
  | putStruktur (id : Option Int) (body : StrukturBody)
  | deleteStruktur (id : Option Int)
  | postAssignment (body : AssignmentCreateBody) (gen : Generated)
  | putAssignment (id : Option Int) (body : AssignmentUpdateBody)
  | deleteAssignment (id : Option Int)
  | patchAssignmentStatus (id : Option Int) (status : Option String)

/-- The route that serves a request. -/
def handle (st : Store) (user : Identity) : Request → Store × Response
  | .postChecklist body gen => postChecklist st user body gen
  | .putChecklist id body => putChecklist st user id body
  | .deleteChecklist id => deleteChecklist st user id
  | .postStruktur body gen => postStruktur st user body gen
  | .putStruktur id body => putStruktur st user id body
  | .deleteStruktur id => deleteStruktur st user id
  | .postAssignment body gen => postAssignment st user body gen
  | .putAssignment id body => putAssignment st user id body
  | .deleteAssignment id => deleteAssignment st user id
  | .patchAssignmentStatus id status => patchAssignmentStatus st user id status

/-- The request does not move a record that has assignments to another
year: an update of a checklist item or of an organizational unit either keeps
the stored year or targets a record without assignments. -/
def Request.keepsYears (st : Store) : Request → Prop
  | .putChecklist (some id) body =>
    (st.findChecklist id).map (fun c => c.tahun) = body.tahun.parseInt ∨
      ∀ a ∈ st.assignments, a.checklistId ≠ id
  | .putStruktur (some id) body =>
    (st.findStruktur id).map (fun s => s.tahun) = body.tahun.parseInt ∨
      ∀ a ∈ st.assignments, a.strukturId ≠ id
  | _ => True

/-- The store after a sequence of requests, served one at a time. -/
def runRequests (st : Store) : List (Identity × Request) → Store
  | [] => st
  | (user, req) :: rest => runRequests (handle st user req).1 rest

/-- Every request of the sequence keeps years, each at the store it is
served on. -/
def KeepYears (st : Store) : List (Identity × Request) → Prop
  | [] => True
  | (user, req) :: rest => req.keepsYears st ∧ KeepYears (handle st user req).1 rest

/-- The uniqueness key of an organizational unit: year, directorate,
sub-directorate and division. -/
def StrukturPerusahaan.tuple (s : StrukturPerusahaan) : Int × String × String × Option String :=
  (s.tahun, s.direktorat, s.subdirektorat, s.divisi)

/-- No two organizational units share the tuple (year, directorate,
sub-directorate, division). -/
def Store.UniqueStrukturTuples (st : Store) : Prop :=
  (st.strukturs.map (fun s => s.tuple)).Nodup

/-- Unit ids are a primary key: no two unit rows share an id. -/
def Store.UniqueStrukturIds (st : Store) : Prop :=
  (st.strukturs.map (fun s => s.id)).Nodup

/-- The id generated for a new organizational unit is not in use, as the
autoincrement primary key guarantees. -/
def Request.freshStrukturId (st : Store) : Request → Prop
  | .postStruktur _ gen => gen.id ∉ st.strukturs.map (fun s => s.id)
  | _ => True

/-- Every unit creation of the sequence gets an unused id, each at the store
it is served on. -/
def FreshStrukturIds (st : Store) : List (Identity × Request) → Prop
  | [] => True
  | (user, req) :: rest =>
    req.freshStrukturId st ∧ FreshStrukturIds (handle st user req).1 rest

/-- The uniqueness key of an assignment: checklist item id and unit id. -/
def Assignment.pair (a : Assignment) : Int × Int := (a.checklistId, a.strukturId)

/-- No two assignments share the pair (checklist item id, unit id). -/
def Store.UniqueAssignmentPairs (st : Store) : Prop :=
  (st.assignments.map (fun a => a.pair)).Nodup

/-- The id, checklist item id and unit id of every assignment, in store
order. -/
def Store.assignmentLinks (st : Store) : List (Int × Int × Int) :=
  st.assignments.map (fun a => (a.id, a.checklistId, a.strukturId))

/-- Specification side: a file deletion was all-or-nothing for the record
`f`: afterwards the row and the stored content are both gone or both present. -/
def FileDeleteAtomic (after : Store) (f : FileUpload) : Prop :=
  (after.findFile f.id = none ∧ f.filePath ∉ after.disk) ∨
  (after.findFile f.id = some f ∧ f.filePath ∈ after.disk)

/-- Specification side: the decimal form of the number `n` occurs in the text
of the response. -/
def reportsCount (r : Response) (n : Nat) : Bool :=
  includes r.message.toList (toString n).toList

/-- The file record of the sample store. -/
def demoFile : FileUpload :=
  { id := 1, fileName := "file-1.pdf", originalName := "pedoman.pdf",
    filePath := "uploads/file-1.pdf", fileSize := 1024, mimeType := "application/pdf",
    checklistId := 1, tahun := 2024, uploadedBy := 3, uploadDate := 1700000000002 }

/-- Specification side: the calendar month, as year and month number, of an
instant given in milliseconds since the epoch (UTC, proleptic Gregorian
calendar). -/
def monthOfInstant (ms : Nat) : Nat × Nat :=
  let z := ms / 86400000 + 719468
  let era := z / 146097
  let doe := z % 146097
  let yoe := (doe - doe / 1460 + doe / 36524 - doe / 146096) / 365
  let doy := doe - (365 * yoe + yoe / 4 - yoe / 100)
  let mp := (5 * doy + 2) / 153
  let month := if mp < 10 then mp + 3 else mp - 9
  (yoe + era * 400 + (if month ≤ 2 then 1 else 0), month)

/-- Specification side: the by-month breakdown of a list of instants, one
entry per distinct calendar month with the number of instants in it. -/
def countByMonth (instants : List Nat) : List ((Nat × Nat) × Nat) :=
  groupCount (instants.map monthOfInstant)

/-- The sample store with a second file record, uploaded one millisecond
after the first. -/
def twoFilesStore : Store :=
  { demoStore with
    fileUploads := demoStore.fileUploads ++
      [{ id := 2, fileName := "file-2.pdf", originalName := "laporan.pdf",
         filePath := "uploads/file-2.pdf", fileSize := 2048, mimeType := "application/pdf",
         checklistId := 2, tahun := 2024, uploadedBy := 3, uploadDate := 1700000000003 }]
    disk := demoStore.disk ++ ["uploads/file-2.pdf"] }

/-- Specification side: every AOI of the list has its progress within 0 and
100. -/
def ProgressInRange (aois : List AOI) : Prop :=
  ∀ aoi ∈ aois, 0 ≤ aoi.progress ∧ aoi.progress ≤ 100

/-- The progress value that a call stores as given, if any: the one of the
new AOI of `addAOI` and the one among the updates of `updateAOI`. -/
def AOIOp.storedProgress : AOIOp → Option Int
  | .addAOI aoi _ _ => some aoi.progress
  | .updateAOI _ updates _ => updates.progress
  | _ => none

/-- Two AOIs of the year 2024. -/
def demoAOIs : List AOI :=
  [{ id := "1", title := "Pedoman GCG", description := "Perbarui pedoman", aspect := "ASPEK I",
     priority := Priority.HIGH, status := AOIStatus.IN_PROGRESS, assignedTo := "Budi",
     dueDate := "2024-12-31", createdAt := "2024-01-01T00:00:00.000Z",
     updatedAt := "2024-01-01T00:00:00.000Z", progress := 30, actionItems := [],
     documents := [], year := 2024 },
   { id := "2", title := "Laporan tahunan", description := "Lengkapi laporan",
     aspect := "ASPEK II", priority := Priority.LOW, status := AOIStatus.CANCELLED,
     assignedTo := "Citra", dueDate := "2024-06-30", createdAt := "2024-01-02T00:00:00.000Z",
     updatedAt := "2024-01-02T00:00:00.000Z", progress := 40, actionItems := [],
     documents := [], year := 2024 }]

/-- An update that sets nothing. -/
def AOIUpdates.none : AOIUpdates :=
  { id := Option.none, title := Option.none, description := Option.none,
    aspect := Option.none, priority := Option.none, status := Option.none,
    assignedTo := Option.none, dueDate := Option.none, createdAt := Option.none,
    progress := Option.none, actionItems := Option.none, documents := Option.none,
    year := Option.none }

/-- Sample draws of the password generator: `Q`, `k`, `7`, `#` and then the
characters of the set at the indices 0, 9, 18, up to 63. -/
def demoDraws : PasswordDraws :=
  { upper := 16, lower := 10, digit := 7, special := 2, rest := fun i => 9 * (i - 4) }

/-- A stand-in for the token check on the sample stores: the token
`token-1` belongs to user 1, every other token is invalid. -/
def demoJwtVerify (token : String) : Except JwtError Int :=
  if token = "token-1" then .ok 1 else .error .other

/-- A stand-in for the hashing library on the sample stores: the hash of a
password is the password behind a fixed prefix. -/
def demoBcrypt : Bcrypt :=
  { hash := fun password => "hash-" ++ password
    compare := fun password hashed => hashed == "hash-" ++ password }

/-- A dataset of forty assignments of one organizational unit, the first
twenty-three of them completed, over forty checklist items of the year 2024. -/
def statsStore : Store :=
  { users := [{ id := 1, username := "admin", email := "admin@example.com", password := "hash",
                nama := "Admin", role := "ADMIN", direktorat := none, subdirektorat := none,
                divisi := none }]
    years := [{ tahun := 2024, nama := "Tahun Buku 2024", deskripsi := "Tahun buku 2024",
                isActive := true }]
    aspects := [{ id := 1, nama := "A1", tahun := 2024 }]
    checklists := (List.range 40).map (fun (i : Nat) =>
      { id := (i : Int) + 1, aspek := "A1", deskripsi := "Dokumen", tahun := 2024 })
    strukturs := [{ id := 1, tahun := 2024, direktorat := "Dir X", subdirektorat := "SubDir Y",
                    divisi := none }]
    assignments := (List.range 40).map (fun (i : Nat) =>
      { id := (i : Int) + 1, checklistId := (i : Int) + 1, strukturId := 1, assignedBy := 1,
        status := if i < 23 then "COMPLETED" else "PENDING", dueDate := none, notes := none,
        assignedAt := 1700000000000 + i })
    fileUploads := []
    disk := [] }

/-! ## Theorems -/

/-! ### Lists -/

theorem find?_filter_not {α : Type} (p : α → Bool) (l : List α) :
    (l.filter (fun x => !(p x))).find? p = none := by
  rw [List.find?_eq_none]
  intro x hx
  have := (List.mem_filter.1 hx).2
  simpa using this

theorem any_pos_iff (counts : List Nat) :
    counts.any (fun count => decide (count > 0)) = true ↔ ∃ n ∈ counts, n ≠ 0 := by
  simp [List.any_eq_true, Nat.pos_iff_ne_zero]


theorem hasUpperCase_iff (s : String) :
    hasUpperCase s = true ↔ ∃ c ∈ s.toList, 65 ≤ c.toNat ∧ c.toNat ≤ 90 := by
  simp [hasUpperCase, List.any_eq_true]

theorem hasLowerCase_iff (s : String) :
    hasLowerCase s = true ↔ ∃ c ∈ s.toList, 97 ≤ c.toNat ∧ c.toNat ≤ 122 := by
  simp [hasLowerCase, List.any_eq_true]

theorem hasNumbers_iff (s : String) :
    hasNumbers s = true ↔ ∃ c ∈ s.toList, 48 ≤ c.toNat ∧ c.toNat ≤ 57 := by
  simp [hasNumbers, List.any_eq_true]

theorem hasSpecialChar_iff (s : String) :
    hasSpecialChar s = true ↔ ∃ c ∈ s.toList, c.toNat ∈ specialCharCodes := by
  simp [hasSpecialChar, List.any_eq_true]

theorem classesPresent_eq (s : String) :
    classesPresent s =
      (if hasUpperCase s then 1 else 0) + (if hasLowerCase s then 1 else 0)
      + (if hasNumbers s then 1 else 0) + (if hasSpecialChar s then 1 else 0) := by
  unfold classesPresent
  simp only [← hasUpperCase_iff, ← hasLowerCase_iff, ← hasNumbers_iff, ← hasSpecialChar_iff]

theorem validatePassword_valid_iff (password : String) :
    (validatePassword password).valid = true ↔
      6 ≤ jsLength password ∧ 2 ≤ classesPresent password := by
  rw [classesPresent_eq]
  unfold validatePassword
  by_cases hlen : jsLength password < 6
  · simp [hlen]
  · have h6 : 6 ≤ jsLength password := by omega
    cases hasUpperCase password <;> cases hasLowerCase password <;>
      cases hasNumbers password <;> cases hasSpecialChar password <;>
      simp [hlen, h6]

theorem validatePassword_strength (password : String)
    (h : (validatePassword password).valid = true) :
    (validatePassword password).strength = some (classesPresent password) ∧
      2 ≤ classesPresent password ∧ classesPresent password ≤ 4 := by
  revert h
  rw [classesPresent_eq]
  unfold validatePassword
  by_cases hlen : jsLength password < 6
  · simp [hlen]
  · cases hasUpperCase password <;> cases hasLowerCase password <;>
      cases hasNumbers password <;> cases hasSpecialChar password <;>
      simp [hlen]

/-- C9: `validatePassword` accepts exactly the passwords of UTF-16 length at
least 6 in which at least two of the four character classes occur, and on
acceptance the reported strength is the number of classes present, between 2
and 4. -/
theorem validatePassword_accepts_iff (password : String) :
    ((validatePassword password).valid = true ↔
        6 ≤ jsLength password ∧ 2 ≤ classesPresent password) ∧
    ((validatePassword password).valid = true →
        (validatePassword password).strength = some (classesPresent password) ∧
        2 ≤ classesPresent password ∧ classesPresent password ≤ 4) :=
  ⟨validatePassword_valid_iff password, validatePassword_strength password⟩

/-- Witness for C9 at the password `Abc123` (three classes, length 6). -/
theorem validatePassword_accepts_iff_witness :
    (validatePassword "Abc123").valid = true ∧
    (validatePassword "Abc123").strength = some (classesPresent "Abc123") ∧
    2 ≤ classesPresent "Abc123" ∧ classesPresent "Abc123" ≤ 4 :=
  ⟨by decide, (validatePassword_accepts_iff "Abc123").2 (by decide)⟩


/-! ### Assignment summary -/

theorem find?_map_key {α : Type} [DecidableEq α] (f : α → Nat) (k : α) (l : List α) :
    (l.map (fun x => (x, f x))).find? (fun s => s.1 == k) =
      if k ∈ l then some (k, f k) else none := by
  induction l with
  | nil => simp
  | cons a l ih =>
    by_cases h : a = k
    · subst h
      simp
    · have h2 : ¬ k = a := fun e => h e.symm
      simp [List.find?_cons, h, h2, ih]

theorem groupCount_find? {α : Type} [DecidableEq α] (keys : List α) (k : α) :
    (groupCount keys).find? (fun s => s.1 == k) =
      if k ∈ keys then some (k, keys.count k) else none := by
  unfold groupCount
  rw [find?_map_key]
  simp [List.mem_dedup]

theorem count_status_eq (rows : List Assignment) :
    (rows.map (fun a => a.status)).count "COMPLETED" = completedCount rows := by
  unfold completedCount
  induction rows with
  | nil => simp
  | cons a l ih =>
    by_cases h : a.status = "COMPLETED"
    · simp [List.count_cons, List.filter_cons, h, ih]
    · simp [List.count_cons, List.filter_cons, h, ih]

/-- What the summary route computes: the rate is 0 for an empty selection and
otherwise `Math.round` of the double `completed / total * 100`. -/
theorem completionRate_eq (rows : List Assignment) :
    (assignmentStats rows).completionRate =
      if rows.length > 0 then
        mathRound (jsMul (jsDiv (Double.ofNat (completedCount rows)) (Double.ofNat rows.length))
          (Double.ofNat 100))
      else 0 := by
  unfold assignmentStats
  simp only [groupCount_find?, count_status_eq]
  by_cases h : "COMPLETED" ∈ rows.map (fun a => a.status)
  · simp only [h, if_true]
  · have h0 : completedCount rows = 0 := by
      rw [← count_status_eq]
      exact List.count_eq_zero_of_not_mem h
    simp only [h, if_false, h0]

/-- C1 (failing input): with 23 completed assignments out of 40 and no year
filter the route answers `completionRate = 57`, because the double
`23 / 40 * 100` is `57.49999999999999`, while `round(100 * 23 / 40)` is 58. -/
theorem completionRate_23_of_40 :
    (statsStore.selectedAssignments JsArg.undefined).map
        (fun rows => (rows.length, completedCount rows)) = some (40, 23) ∧
    (getAssignmentStatsSummary statsStore JsArg.undefined).map
        (fun stats => stats.completionRate) = some 57 ∧
    roundPercent 23 40 = 58 := by
  decide

/-! ### Checklist access -/

theorem truthyStr_eq_false_iff (d : Option String) (h : d ≠ some "") :
    truthyStr d = false ↔ d = none := by
  cases d with
  | none => simp [truthyStr]
  | some v =>
    have hv : v ≠ "" := fun e => h (by rw [e])
    simp [truthyStr, hv]

theorem findStruktur_mem {st : Store} {id : Int} {s : StrukturPerusahaan}
    (h : st.findStruktur id = some s) : s ∈ st.strukturs :=
  List.mem_of_find?_eq_some h

theorem hasAssignment_iff (st : Store) (user : Identity) (cid : Int)
    (hwf : st.NoEmptyDivisi) :
    (st.checklistStrukturs cid).any (fun struktur =>
        some struktur.direktorat == user.direktorat &&
        some struktur.subdirektorat == user.subdirektorat &&
        (!truthyStr struktur.divisi || struktur.divisi == user.divisi)) = true ↔
      ∃ a ∈ st.assignments, a.checklistId = cid ∧
        ∃ s, st.findStruktur a.strukturId = some s ∧ UnitCovers s user := by
  simp only [List.any_eq_true, Store.checklistStrukturs, List.mem_filterMap, List.mem_filter,
    UnitCovers]
  constructor
  · rintro ⟨s, ⟨a, ⟨ha, hcid⟩, hs⟩, hcond⟩
    refine ⟨a, ha, by simpa using hcid, s, hs, ?_⟩
    have hne := hwf s (findStruktur_mem hs)
    simp only [Bool.and_eq_true, Bool.or_eq_true, beq_iff_eq, Bool.not_eq_true'] at hcond
    obtain ⟨⟨h1, h2⟩, h3⟩ := hcond
    refine ⟨h1, h2, ?_⟩
    rcases h3 with h3 | h3
    · exact Or.inr ((truthyStr_eq_false_iff _ hne).1 h3)
    · exact Or.inl h3
  · rintro ⟨a, ha, hcid, s, hs, h1, h2, h3⟩
    refine ⟨s, ⟨a, ⟨ha, by simpa using hcid⟩, hs⟩, ?_⟩
    have hne := hwf s (findStruktur_mem hs)
    simp only [Bool.and_eq_true, Bool.or_eq_true, beq_iff_eq, Bool.not_eq_true']
    refine ⟨⟨h1, h2⟩, ?_⟩
    rcases h3 with h3 | h3
    · exact Or.inr h3
    · exact Or.inl ((truthyStr_eq_false_iff _ hne).2 h3)

theorem orNull_ne_empty (d : Option String) : orNull d ≠ some "" := by
  unfold orNull
  cases d with
  | none => simp [truthyStr]
  | some v =>
    by_cases hv : v = ""
    · simp [truthyStr, hv]
    · simp [truthyStr, hv]

theorem postStrukturHandler_cases (st : Store) (body : StrukturBody) (gen : Generated) :
    (postStrukturHandler st body gen).1 = st ∨
    ∃ tahun, (postStrukturHandler st body gen).1 =
      { st with strukturs := st.strukturs ++
          [{ id := gen.id, tahun := tahun, direktorat := body.direktorat.getD "",
             subdirektorat := body.subdirektorat.getD "", divisi := orNull body.divisi }] } := by
  unfold postStrukturHandler
  repeat' split
  all_goals first
    | exact Or.inl rfl
    | exact Or.inr ⟨_, rfl⟩

theorem putStrukturHandler_cases (st : Store) (strukturId : Option Int) (body : StrukturBody) :
    (putStrukturHandler st strukturId body).1 = st ∨
    ∃ id tahun, (putStrukturHandler st strukturId body).1 =
      { st with strukturs := st.strukturs.map (fun s =>
          if s.id == id then
            { s with tahun := tahun, direktorat := body.direktorat.getD "",
                     subdirektorat := body.subdirektorat.getD "",
                     divisi := orNull body.divisi }
          else s) } := by
  unfold putStrukturHandler
  repeat' split
  all_goals first
    | exact Or.inl rfl
    | exact Or.inr ⟨_, _, rfl⟩

/-- The create route keeps the store free of empty-string divisions. -/
theorem postStruktur_noEmptyDivisi (st : Store) (user : Identity) (body : StrukturBody)
    (gen : Generated) (h : st.NoEmptyDivisi) :
    (postStruktur st user body gen).1.NoEmptyDivisi := by
  unfold postStruktur requireAdmin
  split
  · exact h
  · rcases postStrukturHandler_cases st body gen with hc | ⟨tahun, hc⟩
    · rw [hc]; exact h
    · rw [hc]
      intro s hs
      rcases List.mem_append.1 hs with hs | hs
      · exact h s hs
      · rw [List.mem_singleton.1 hs]
        exact orNull_ne_empty _

/-- The update route keeps the store free of empty-string divisions. -/
theorem putStruktur_noEmptyDivisi (st : Store) (user : Identity) (strukturId : Option Int)
    (body : StrukturBody) (h : st.NoEmptyDivisi) :
    (putStruktur st user strukturId body).1.NoEmptyDivisi := by
  unfold putStruktur requireAdmin
  split
  · exact h
  · rcases putStrukturHandler_cases st strukturId body with hc | ⟨id, tahun, hc⟩
    · rw [hc]; exact h
    · rw [hc]
      intro s hs
      obtain ⟨s0, hs0, rfl⟩ := List.mem_map.1 hs
      split
      · exact orNull_ne_empty _
      · exact h s0 hs0

/-- C2: for an existing checklist item, `requireChecklistAccess` lets an
`ADMIN` pass; a non-admin passes exactly when some assignment of the item has
a unit with the identity's directorate and sub-directorate and a division
equal to the identity's or unset; otherwise the answer is 403. -/
theorem requireChecklistAccess_iff (st : Store) (user : Identity) (cid : Int)
    (c : ChecklistGCG) (hc : st.findChecklist cid = some c) (h0 : cid ≠ 0)
    (hwf : st.NoEmptyDivisi) :
    (user.role = "ADMIN" → requireChecklistAccess st user (some cid) = none) ∧
    (user.role ≠ "ADMIN" →
      (requireChecklistAccess st user (some cid) = none ↔
        ∃ a ∈ st.assignments, a.checklistId = cid ∧
          ∃ s, st.findStruktur a.strukturId = some s ∧ UnitCovers s user) ∧
      (requireChecklistAccess st user (some cid) ≠ none →
        requireChecklistAccess st user (some cid) =
          some { status := 403, message := "Access denied to this checklist item" })) := by
  have key := hasAssignment_iff st user cid hwf
  refine ⟨fun hadmin => ?_, fun hna => ?_⟩
  · simp [requireChecklistAccess, hc, h0, hadmin]
  · simp only [requireChecklistAccess, hc, h0, hna, if_false]
    by_cases hany : (st.checklistStrukturs cid).any (fun struktur =>
        some struktur.direktorat == user.direktorat &&
        some struktur.subdirektorat == user.subdirektorat &&
        (!truthyStr struktur.divisi || struktur.divisi == user.divisi)) = true
    · have hex := key.1 hany
      simp [hany, hex]
    · have hex : ¬ ∃ a ∈ st.assignments, a.checklistId = cid ∧
          ∃ s, st.findStruktur a.strukturId = some s ∧ UnitCovers s user :=
        fun h => hany (key.2 h)
      simp only [Bool.not_eq_true] at hany
      simp [hany, hex]

/-- Witness for C2 on the sample store: Citra (division Div B) reaches
checklist item 1 through the unit without division, and Dewi is refused on
checklist item 2, whose unit has division Div A. -/
theorem requireChecklistAccess_iff_witness :
    demoStore.NoEmptyDivisi ∧
    requireChecklistAccess demoStore citraUser.identity (some 1) = none ∧
    requireChecklistAccess demoStore dewiUser.identity (some 2) =
      some { status := 403, message := "Access denied to this checklist item" } :=
  have hwf : demoStore.NoEmptyDivisi := by
    unfold Store.NoEmptyDivisi
    decide
  ⟨hwf,
   ((requireChecklistAccess_iff demoStore citraUser.identity 1
      { id := 1, aspek := "A1", deskripsi := "Pedoman", tahun := 2024 }
      (by decide) (by decide) hwf).2 (by decide)).1.2
     ⟨{ id := 1, checklistId := 1, strukturId := 1, assignedBy := 1, status := "PENDING",
        dueDate := none, notes := none, assignedAt := 1700000000000 },
      by decide, rfl,
      { id := 1, tahun := 2024, direktorat := "Dir X", subdirektorat := "SubDir Y",
        divisi := none },
      by decide, rfl, rfl, Or.inr rfl⟩,
   ((requireChecklistAccess_iff demoStore dewiUser.identity 2
      { id := 2, aspek := "A1", deskripsi := "Laporan", tahun := 2024 }
      (by decide) (by decide) hwf).2 (by decide)).2 (by decide)⟩

/-! ### Assignment status -/

theorem findUserStruktur_spec {st : Store} {tahun : Int} {user : Identity}
    {u : StrukturPerusahaan} (h : st.findUserStruktur tahun user = some u) :
    u ∈ st.strukturs ∧ u.tahun = tahun ∧ some u.direktorat = user.direktorat ∧
      some u.subdirektorat = user.subdirektorat ∧ u.divisi = user.divisi := by
  unfold Store.findUserStruktur at h
  have hm := List.mem_of_find?_eq_some h
  have hp := List.find?_some h
  simp only [Bool.and_eq_true, beq_iff_eq] at hp
  exact ⟨hm, hp.1.1.1, hp.1.1.2, hp.1.2, hp.2⟩

/-- C3: on an existing assignment with a non-empty status, an `ADMIN` is
always allowed; a non-admin is allowed exactly when the unit found for the
assignment unit's year and the identity's directorate, sub-directorate and
division exists and has the id referenced by the assignment; a refused request
is answered 403 and leaves the store as it was. -/
theorem patchAssignmentStatus_allowed_iff (st : Store) (user : Identity) (id : Int)
    (status : String) (a : Assignment) (s : StrukturPerusahaan)
    (ha : st.findAssignment id = some a) (hs : st.findStruktur a.strukturId = some s)
    (hstatus : status ≠ "") :
    (user.role = "ADMIN" →
      patchAssignmentStatus st user (some id) (some status) =
        (st.updateAssignment id (fun r => { r with status := status }),
         { status := 200, message := "Assignment status updated successfully" })) ∧
    (user.role ≠ "ADMIN" →
      ((∃ u, st.findUserStruktur s.tahun user = some u ∧ u.id = a.strukturId) →
        patchAssignmentStatus st user (some id) (some status) =
          (st.updateAssignment id (fun r => { r with status := status }),
           { status := 200, message := "Assignment status updated successfully" })) ∧
      ((¬ ∃ u, st.findUserStruktur s.tahun user = some u ∧ u.id = a.strukturId) →
        patchAssignmentStatus st user (some id) (some status) =
          (st, { status := 403,
                 message := "Access denied. You can only update assignments for your organizational structure." })) ∧
      (∀ u, st.findUserStruktur s.tahun user = some u →
        u.tahun = s.tahun ∧ some u.direktorat = user.direktorat ∧
        some u.subdirektorat = user.subdirektorat ∧ u.divisi = user.divisi)) := by
  have ht : truthyStr (some status) = true := by simp [truthyStr, hstatus]
  refine ⟨fun hadmin => ?_, fun hna => ⟨?_, ?_, ?_⟩⟩
  · simp [patchAssignmentStatus, ht, ha, hs, hadmin]
  · rintro ⟨u, hu, hid⟩
    simp [patchAssignmentStatus, ht, ha, hs, hna, hu, hid]
  · intro hno
    cases hu : st.findUserStruktur s.tahun user with
    | none => simp [patchAssignmentStatus, ht, ha, hs, hna, hu]
    | some u =>
      have hid : u.id ≠ a.strukturId := fun e => hno ⟨u, hu, e⟩
      simp [patchAssignmentStatus, ht, ha, hs, hna, hu, hid]
  · intro u hu
    exact (findUserStruktur_spec hu).2

/-- Witness for C3 on the sample store: Budi, whose unit tuple resolves to
unit 1, completes assignment 1; Citra, whose tuple (with division Div B)
resolves to no unit of 2024, is refused. -/
theorem patchAssignmentStatus_allowed_iff_witness :
    patchAssignmentStatus demoStore budiUser.identity (some 1) (some "COMPLETED") =
      (demoStore.updateAssignment 1 (fun r => { r with status := "COMPLETED" }),
       { status := 200, message := "Assignment status updated successfully" }) ∧
    patchAssignmentStatus demoStore citraUser.identity (some 1) (some "COMPLETED") =
      (demoStore,
       { status := 403,
         message := "Access denied. You can only update assignments for your organizational structure." }) :=
  ⟨((patchAssignmentStatus_allowed_iff demoStore budiUser.identity 1 "COMPLETED"
      { id := 1, checklistId := 1, strukturId := 1, assignedBy := 1, status := "PENDING",
        dueDate := none, notes := none, assignedAt := 1700000000000 }
      { id := 1, tahun := 2024, direktorat := "Dir X", subdirektorat := "SubDir Y",
        divisi := none }
      (by decide) (by decide) (by decide)).2 (by decide)).1
      ⟨{ id := 1, tahun := 2024, direktorat := "Dir X", subdirektorat := "SubDir Y",
         divisi := none }, by decide, rfl⟩,
   ((patchAssignmentStatus_allowed_iff demoStore citraUser.identity 1 "COMPLETED"
      { id := 1, checklistId := 1, strukturId := 1, assignedBy := 1, status := "PENDING",
        dueDate := none, notes := none, assignedAt := 1700000000000 }
      { id := 1, tahun := 2024, direktorat := "Dir X", subdirektorat := "SubDir Y",
        divisi := none }
      (by decide) (by decide) (by decide)).2 (by decide)).2.1
      (by
        rintro ⟨u, hu, _⟩
        have hnone : demoStore.findUserStruktur 2024 citraUser.identity = none := by decide
        rw [hnone] at hu
        cases hu)⟩

/-! ### Assignment creation -/

/-- C4: for an administrator, creating an assignment for an existing
checklist item and an existing unit of different years is answered 400 and
leaves the store as it was; and whenever the route answers 201 exactly one
assignment row was added, whose checklist item and unit have the same year. -/
theorem postAssignment_years (st : Store) (user : Identity) (body : AssignmentCreateBody)
    (gen : Generated) :
    (∀ (checklistId strukturId : Int) (c : ChecklistGCG) (s : StrukturPerusahaan),
      user.role = "ADMIN" →
      body.checklistId.parseInt = some checklistId →
      body.strukturId.parseInt = some strukturId →
      st.findChecklist checklistId = some c → st.findStruktur strukturId = some s →
      c.tahun ≠ s.tahun →
      (postAssignment st user body gen).1 = st ∧
      (postAssignment st user body gen).2.status = 400) ∧
    ((postAssignment st user body gen).2.status = 201 →
      ∃ (a : Assignment) (c : ChecklistGCG) (s : StrukturPerusahaan),
        (postAssignment st user body gen).1 =
          { st with assignments := st.assignments ++ [a] } ∧
        (postAssignment st user body gen).1.findChecklist a.checklistId = some c ∧
        (postAssignment st user body gen).1.findStruktur a.strukturId = some s ∧
        c.tahun = s.tahun) := by
  constructor
  · intro checklistId strukturId c s hadmin hcid hsid hc hs hne
    unfold postAssignment requireAdmin postAssignmentHandler
    simp only [hadmin, ne_eq, not_true_eq_false, if_false, hcid, hsid, hc, hs, hne,
      not_false_eq_true, if_true]
    split
    · exact ⟨rfl, rfl⟩
    · split
      · exact ⟨rfl, rfl⟩
      · exact ⟨rfl, rfl⟩
  · unfold postAssignment requireAdmin postAssignmentHandler
    intro h
    split at h
    · simp at h
    · split at h
      · simp at h
      · split at h
        · simp at h
        · split at h
          · simp at h
          · rename_i checklistId hcid
            split at h
            · simp at h
            · rename_i c hc
              split at h
              · simp at h
              · rename_i strukturId hsid
                split at h
                · simp at h
                · rename_i s hs
                  split at h
                  · simp at h
                  · rename_i hyear
                    split at h
                    · simp at h
                    · split at h
                      · simp at h
                      · have hy : c.tahun = s.tahun := by simpa using hyear
                        refine ⟨{ id := gen.id, checklistId := checklistId,
                                  strukturId := strukturId, assignedBy := user.id,
                                  status := gen.status, dueDate := body.dueDate.join,
                                  notes := orNull body.notes, assignedAt := gen.now },
                                c, s, ?_, ?_, ?_, hy⟩
                        · simp_all
                        · simp_all [Store.findChecklist]
                        · simp_all [Store.findStruktur]

/-- Witness for C4 on the sample store: checklist item 1 (2024) with unit 3
(2025) is refused with 400 and no change, and checklist item 2 with unit 1
(both 2024) is created with equal years. -/
theorem postAssignment_years_witness :
    ((postAssignment demoStore adminUser.identity
        { checklistId := JsArg.ofInt 1, strukturId := JsArg.ofInt 3, dueDate := none,
          notes := none } demoGen).1 = demoStore ∧
     (postAssignment demoStore adminUser.identity
        { checklistId := JsArg.ofInt 1, strukturId := JsArg.ofInt 3, dueDate := none,
          notes := none } demoGen).2.status = 400) ∧
    (∃ (a : Assignment) (c : ChecklistGCG) (s : StrukturPerusahaan),
      (postAssignment demoStore adminUser.identity
        { checklistId := JsArg.ofInt 2, strukturId := JsArg.ofInt 1, dueDate := none,
          notes := none } demoGen).1 =
          { demoStore with assignments := demoStore.assignments ++ [a] } ∧
      (postAssignment demoStore adminUser.identity
        { checklistId := JsArg.ofInt 2, strukturId := JsArg.ofInt 1, dueDate := none,
          notes := none } demoGen).1.findChecklist a.checklistId = some c ∧
      (postAssignment demoStore adminUser.identity
        { checklistId := JsArg.ofInt 2, strukturId := JsArg.ofInt 1, dueDate := none,
          notes := none } demoGen).1.findStruktur a.strukturId = some s ∧
      c.tahun = s.tahun) :=
  ⟨(postAssignment_years demoStore adminUser.identity
      { checklistId := JsArg.ofInt 1, strukturId := JsArg.ofInt 3, dueDate := none,
        notes := none } demoGen).1 1 3
      { id := 1, aspek := "A1", deskripsi := "Pedoman", tahun := 2024 }
      { id := 3, tahun := 2025, direktorat := "Dir X", subdirektorat := "SubDir Y",
        divisi := none }
      (by decide) (by decide) (by decide) (by decide) (by decide) (by decide),
   (postAssignment_years demoStore adminUser.identity
      { checklistId := JsArg.ofInt 2, strukturId := JsArg.ofInt 1, dueDate := none,
        notes := none } demoGen).2 (by decide)⟩

/-! ### The year invariant under updates -/

/-- C5 (failing input): the sample store satisfies the year invariant; the
administrator moves unit 1, which carries assignment 1, to the year 2025, the
route answers 200 and assignment 1 then links a checklist item of 2024 to a
unit of 2025.  The same happens when checklist item 1 is moved to 2025. -/
theorem yearsAgree_broken_by_update :
    demoStore.yearsAgree = true ∧
    (putStruktur demoStore adminUser.identity (some 1)
      { tahun := JsArg.ofInt 2025, direktorat := some "Dir X",
        subdirektorat := some "SubDir Y", divisi := some "Div C" }).2.status = 200 ∧
    (putStruktur demoStore adminUser.identity (some 1)
      { tahun := JsArg.ofInt 2025, direktorat := some "Dir X",
        subdirektorat := some "SubDir Y", divisi := some "Div C" }).1.yearsAgree = false ∧
    (putChecklist demoStore adminUser.identity (some 1)
      { aspek := some "A1", deskripsi := some "Pedoman", tahun := JsArg.ofInt 2025 }).2.status
      = 200 ∧
    (putChecklist demoStore adminUser.identity (some 1)
      { aspek := some "A1", deskripsi := some "Pedoman", tahun := JsArg.ofInt 2025 }).1.yearsAgree
      = false := by
  decide

/-! ### Routes that keep the year invariant -/

theorem yearsAgree_iff (st : Store) :
    st.yearsAgree = true ↔
      ∀ a ∈ st.assignments, ∃ c s, st.findChecklist a.checklistId = some c ∧
        st.findStruktur a.strukturId = some s ∧ c.tahun = s.tahun := by
  unfold Store.yearsAgree
  rw [List.all_eq_true]
  constructor
  · intro h a ha
    have := h a ha
    cases hc : st.findChecklist a.checklistId with
    | none => simp [hc] at this
    | some c =>
      cases hs : st.findStruktur a.strukturId with
      | none => simp [hc, hs] at this
      | some s =>
        simp only [hc, hs, beq_iff_eq] at this
        exact ⟨c, s, rfl, rfl, this⟩
  · intro h a ha
    obtain ⟨c, s, hc, hs, hy⟩ := h a ha
    simp [hc, hs, hy]

theorem find?_key_append {α : Type} (p : α → Bool) (l l2 : List α) (x : α)
    (h : l.find? p = some x) : (l ++ l2).find? p = some x := by
  rw [List.find?_append, h]
  rfl

theorem find?_key_map {α : Type} (key : α → Int) (f : α → α) (hf : ∀ x, key (f x) = key x)
    (l : List α) (i : Int) :
    (l.map f).find? (fun x => key x == i) = (l.find? (fun x => key x == i)).map f := by
  induction l with
  | nil => rfl
  | cons a l ih =>
    simp only [List.map_cons, List.find?_cons, hf]
    cases h : (key a == i)
    · simpa using ih
    · simp

theorem find?_key_filter_ne {α : Type} (key : α → Int) (l : List α) (i id : Int)
    (h : i ≠ id) :
    (l.filter (fun x => !(key x == id))).find? (fun x => key x == i) =
      l.find? (fun x => key x == i) := by
  induction l with
  | nil => rfl
  | cons a l ih =>
    rw [List.filter_cons]
    by_cases ha : key a = id
    · have hai : (key a == i) = false := by
        simp only [beq_eq_false_iff_ne, ne_eq]
        exact fun e => h (e.symm.trans ha)
      have h1 : (!(key a == id)) = false := by simp [ha]
      rw [h1]
      simp only [Bool.false_eq_true, if_false, List.find?_cons, hai]
      exact ih
    · have h1 : (!(key a == id)) = true := by simp [ha]
      rw [h1]
      simp only [if_true, List.find?_cons]
      rw [ih]

theorem find?_key_eq {α : Type} (key : α → Int) (l : List α) (i : Int) (x : α)
    (h : l.find? (fun x => key x == i) = some x) : key x = i := by
  have := List.find?_some h
  simpa using this

theorem yearsAgree_transfer (st st2 : Store) (h : st.yearsAgree = true)
    (hsub : ∀ a ∈ st2.assignments, ∃ a0 ∈ st.assignments,
      a0.checklistId = a.checklistId ∧ a0.strukturId = a.strukturId)
    (hc : ∀ a0 ∈ st.assignments, ∀ c, st.findChecklist a0.checklistId = some c →
      ∃ c2, st2.findChecklist a0.checklistId = some c2 ∧ c2.tahun = c.tahun)
    (hs : ∀ a0 ∈ st.assignments, ∀ s, st.findStruktur a0.strukturId = some s →
      ∃ s2, st2.findStruktur a0.strukturId = some s2 ∧ s2.tahun = s.tahun) :
    st2.yearsAgree = true := by
  rw [yearsAgree_iff] at h ⊢
  intro a ha
  obtain ⟨a0, ha0, hcid, hsid⟩ := hsub a ha
  obtain ⟨c, s, hfc, hfs, hy⟩ := h a0 ha0
  obtain ⟨c2, hc2, hyc⟩ := hc a0 ha0 c hfc
  obtain ⟨s2, hs2, hys⟩ := hs a0 ha0 s hfs
  refine ⟨c2, s2, ?_, ?_, ?_⟩
  · rw [← hcid]; exact hc2
  · rw [← hsid]; exact hs2
  · rw [hyc, hys]; exact hy

theorem postChecklistHandler_cases (st : Store) (body : ChecklistBody) (gen : Generated) :
    (postChecklistHandler st body gen).1 = st ∨
    ∃ row, (postChecklistHandler st body gen).1 =
      { st with checklists := st.checklists ++ [row] } := by
  unfold postChecklistHandler
  repeat' split
  all_goals first
    | exact Or.inl rfl
    | exact Or.inr ⟨_, rfl⟩

theorem putChecklistHandler_cases (st : Store) (checklistId : Option Int)
    (body : ChecklistBody) :
    (putChecklistHandler st checklistId body).1 = st ∨
    ∃ id tahun, checklistId = some id ∧ body.tahun.parseInt = some tahun ∧
      (putChecklistHandler st checklistId body).1 =
        { st with checklists := st.checklists.map (fun c =>
            if c.id == id then
              { c with aspek := body.aspek.getD "", deskripsi := body.deskripsi.getD "",
                       tahun := tahun }
            else c) } := by
  unfold putChecklistHandler
  repeat' split
  all_goals first
    | exact Or.inl rfl
    | exact Or.inr ⟨_, _, rfl, by assumption, rfl⟩

theorem deleteChecklistHandler_cases (st : Store) (checklistId : Option Int) :
    (deleteChecklistHandler st checklistId).1 = st ∨
    ∃ id, (∀ a ∈ st.assignments, a.checklistId ≠ id) ∧
      (deleteChecklistHandler st checklistId).1 =
        { st with checklists := st.checklists.filter (fun c => !(c.id == id)) } := by
  unfold deleteChecklistHandler
  split
  · exact Or.inl rfl
  · rename_i id
    split
    · exact Or.inl rfl
    · dsimp only
      split
      · exact Or.inl rfl
      · rename_i hany
        refine Or.inr ⟨id, ?_, rfl⟩
        intro a ha hid
        apply hany
        rw [any_pos_iff]
        refine ⟨_, List.mem_cons_of_mem _ (List.mem_singleton.2 rfl), ?_⟩
        have hmem : a ∈ st.assignments.filter (fun a => a.checklistId == id) :=
          List.mem_filter.2 ⟨ha, by simpa using hid⟩
        exact fun h0 => by
          rw [List.length_eq_zero] at h0
          rw [h0] at hmem
          exact absurd hmem (List.not_mem_nil _)

theorem deleteStrukturHandler_cases (st : Store) (strukturId : Option Int) :
    (deleteStrukturHandler st strukturId).1 = st ∨
    ∃ id, (∀ a ∈ st.assignments, a.strukturId ≠ id) ∧
      (deleteStrukturHandler st strukturId).1 =
        { st with strukturs := st.strukturs.filter (fun s => !(s.id == id)) } := by
  unfold deleteStrukturHandler
  split
  · exact Or.inl rfl
  · rename_i id
    split
    · exact Or.inl rfl
    · dsimp only
      split
      · exact Or.inl rfl
      · rename_i hpos
        refine Or.inr ⟨id, ?_, rfl⟩
        intro a ha hid
        apply hpos
        have hmem : a ∈ st.assignments.filter (fun a => a.strukturId == id) :=
          List.mem_filter.2 ⟨ha, by simpa using hid⟩
        exact List.length_pos_of_mem hmem

theorem putStrukturHandler_cases2 (st : Store) (strukturId : Option Int)
    (body : StrukturBody) :
    (putStrukturHandler st strukturId body).1 = st ∨
    ∃ id tahun, strukturId = some id ∧ body.tahun.parseInt = some tahun ∧
      (putStrukturHandler st strukturId body).1 =
        { st with strukturs := st.strukturs.map (fun s =>
            if s.id == id then
              { s with tahun := tahun, direktorat := body.direktorat.getD "",
                       subdirektorat := body.subdirektorat.getD "",
                       divisi := orNull body.divisi }
            else s) } := by
  unfold putStrukturHandler
  repeat' split
  all_goals first
    | exact Or.inl rfl
    | exact Or.inr ⟨_, _, rfl, by assumption, rfl⟩

theorem postAssignmentHandler_cases (st : Store) (user : Identity)
    (body : AssignmentCreateBody) (gen : Generated) :
    (postAssignmentHandler st user body gen).1 = st ∨
    ∃ a c s, st.findChecklist a.checklistId = some c ∧
      st.findStruktur a.strukturId = some s ∧ c.tahun = s.tahun ∧
      (postAssignmentHandler st user body gen).1 =
        { st with assignments := st.assignments ++ [a] } := by
  unfold postAssignmentHandler
  repeat' split
  all_goals first
    | exact Or.inl rfl
    | exact Or.inr ⟨_, _, _, by assumption, by assumption, by simp_all, rfl⟩

theorem putAssignmentHandler_cases (st : Store) (assignmentId : Option Int)
    (body : AssignmentUpdateBody) :
    (putAssignmentHandler st assignmentId body).1 = st ∨
    ∃ id f, (putAssignmentHandler st assignmentId body).1 = st.updateAssignment id f ∧
      ∀ a, (f a).checklistId = a.checklistId ∧ (f a).strukturId = a.strukturId := by
  unfold putAssignmentHandler
  repeat' split
  all_goals first
    | exact Or.inl rfl
    | exact Or.inr ⟨_, _, rfl, fun _ => ⟨rfl, rfl⟩⟩

theorem deleteAssignmentHandler_cases (st : Store) (assignmentId : Option Int) :
    (deleteAssignmentHandler st assignmentId).1 = st ∨
    ∃ id, (deleteAssignmentHandler st assignmentId).1 =
      { st with assignments := st.assignments.filter (fun a => !(a.id == id)) } := by
  unfold deleteAssignmentHandler
  repeat' split
  all_goals first
    | exact Or.inl rfl
    | exact Or.inr ⟨_, rfl⟩

theorem patchAssignmentStatus_cases (st : Store) (user : Identity)
    (assignmentId : Option Int) (status : Option String) :
    (patchAssignmentStatus st user assignmentId status).1 = st ∨
    ∃ id f, (patchAssignmentStatus st user assignmentId status).1 = st.updateAssignment id f ∧
      ∀ a, (f a).checklistId = a.checklistId ∧ (f a).strukturId = a.strukturId := by
  unfold patchAssignmentStatus
  repeat' split
  all_goals try dsimp only
  all_goals repeat' split
  all_goals first
    | exact Or.inl rfl
    | exact Or.inr ⟨_, _, rfl, fun _ => ⟨rfl, rfl⟩⟩

theorem requireAdmin_cases (user : Identity) (st : Store) (next : Store × Response) :
    (requireAdmin user st next).1 = st ∨ requireAdmin user st next = next := by
  unfold requireAdmin
  split
  · exact Or.inl rfl
  · exact Or.inr rfl

theorem yearsAgree_append_checklist (st : Store) (row : ChecklistGCG)
    (h : st.yearsAgree = true) :
    Store.yearsAgree { st with checklists := st.checklists ++ [row] } = true := by
  refine yearsAgree_transfer st _ h (fun a ha => ⟨a, ha, rfl, rfl⟩) ?_
    (fun a0 _ s hs => ⟨s, hs, rfl⟩)
  intro a0 _ c hc
  exact ⟨c, find?_key_append _ _ _ _ hc, rfl⟩

theorem yearsAgree_append_struktur (st : Store) (row : StrukturPerusahaan)
    (h : st.yearsAgree = true) :
    Store.yearsAgree { st with strukturs := st.strukturs ++ [row] } = true := by
  refine yearsAgree_transfer st _ h (fun a ha => ⟨a, ha, rfl, rfl⟩)
    (fun a0 _ c hc => ⟨c, hc, rfl⟩) ?_
  intro a0 _ s hs
  exact ⟨s, find?_key_append _ _ _ _ hs, rfl⟩

theorem yearsAgree_filter_checklist (st : Store) (id : Int)
    (hno : ∀ a ∈ st.assignments, a.checklistId ≠ id) (h : st.yearsAgree = true) :
    Store.yearsAgree
      { st with checklists := st.checklists.filter (fun c => !(c.id == id)) } = true := by
  refine yearsAgree_transfer st _ h (fun a ha => ⟨a, ha, rfl, rfl⟩) ?_
    (fun a0 _ s hs => ⟨s, hs, rfl⟩)
  intro a0 ha0 c hc
  refine ⟨c, ?_, rfl⟩
  have := find?_key_filter_ne (fun c : ChecklistGCG => c.id) st.checklists a0.checklistId id
    (hno a0 ha0)
  exact this.trans hc

theorem yearsAgree_filter_struktur (st : Store) (id : Int)
    (hno : ∀ a ∈ st.assignments, a.strukturId ≠ id) (h : st.yearsAgree = true) :
    Store.yearsAgree
      { st with strukturs := st.strukturs.filter (fun s => !(s.id == id)) } = true := by
  refine yearsAgree_transfer st _ h (fun a ha => ⟨a, ha, rfl, rfl⟩)
    (fun a0 _ c hc => ⟨c, hc, rfl⟩) ?_
  intro a0 ha0 s hs
  refine ⟨s, ?_, rfl⟩
  have := find?_key_filter_ne (fun s : StrukturPerusahaan => s.id) st.strukturs a0.strukturId id
    (hno a0 ha0)
  exact this.trans hs

theorem yearsAgree_map_checklist (st : Store) (id tahun : Int) (aspek deskripsi : String)
    (hk : (st.findChecklist id).map (fun c => c.tahun) = some tahun ∨
      ∀ a ∈ st.assignments, a.checklistId ≠ id)
    (h : st.yearsAgree = true) :
    Store.yearsAgree
      { st with checklists := st.checklists.map (fun c =>
          if c.id == id then { c with aspek := aspek, deskripsi := deskripsi, tahun := tahun }
          else c) } = true := by
  refine yearsAgree_transfer st _ h (fun a ha => ⟨a, ha, rfl, rfl⟩) ?_
    (fun a0 _ s hs => ⟨s, hs, rfl⟩)
  intro a0 ha0 c hc
  have hmap := find?_key_map (fun c : ChecklistGCG => c.id)
    (fun c => if c.id == id then
      { c with aspek := aspek, deskripsi := deskripsi, tahun := tahun } else c)
    (by intro x; dsimp only; split <;> rfl) st.checklists a0.checklistId
  have hcid : c.id = a0.checklistId :=
    find?_key_eq (fun c : ChecklistGCG => c.id) st.checklists a0.checklistId c hc
  have hc1 : st.checklists.find? (fun x => x.id == a0.checklistId) = some c := hc
  rw [hc1] at hmap
  refine ⟨_, hmap, ?_⟩
  by_cases hid : c.id = id
  · rcases hk with hk | hk
    · have hc2 : st.findChecklist id = some c := by
        rw [← hid, hcid]; exact hc
      rw [hc2] at hk
      have : c.tahun = tahun := by simpa using hk
      simp [hid, this]
    · exact absurd (hcid.symm.trans hid) (hk a0 ha0)
  · simp [hid]

theorem yearsAgree_map_struktur (st : Store) (id tahun : Int)
    (direktorat subdirektorat : String) (divisi : Option String)
    (hk : (st.findStruktur id).map (fun s => s.tahun) = some tahun ∨
      ∀ a ∈ st.assignments, a.strukturId ≠ id)
    (h : st.yearsAgree = true) :
    Store.yearsAgree
      { st with strukturs := st.strukturs.map (fun s =>
          if s.id == id then
            { s with tahun := tahun, direktorat := direktorat, subdirektorat := subdirektorat,
                     divisi := divisi }
          else s) } = true := by
  refine yearsAgree_transfer st _ h (fun a ha => ⟨a, ha, rfl, rfl⟩)
    (fun a0 _ c hc => ⟨c, hc, rfl⟩) ?_
  intro a0 ha0 s hs
  have hmap := find?_key_map (fun s : StrukturPerusahaan => s.id)
    (fun s => if s.id == id then
      { s with tahun := tahun, direktorat := direktorat, subdirektorat := subdirektorat,
               divisi := divisi } else s)
    (by intro x; dsimp only; split <;> rfl) st.strukturs a0.strukturId
  have hsid : s.id = a0.strukturId :=
    find?_key_eq (fun s : StrukturPerusahaan => s.id) st.strukturs a0.strukturId s hs
  have hs1 : st.strukturs.find? (fun x => x.id == a0.strukturId) = some s := hs
  rw [hs1] at hmap
  refine ⟨_, hmap, ?_⟩
  by_cases hid : s.id = id
  · rcases hk with hk | hk
    · have hs2 : st.findStruktur id = some s := by
        rw [← hid, hsid]; exact hs
      rw [hs2] at hk
      have : s.tahun = tahun := by simpa using hk
      simp [hid, this]
    · exact absurd (hsid.symm.trans hid) (hk a0 ha0)
  · simp [hid]

theorem yearsAgree_append_assignment (st : Store) (a : Assignment) (c : ChecklistGCG)
    (s : StrukturPerusahaan) (hc : st.findChecklist a.checklistId = some c)
    (hs : st.findStruktur a.strukturId = some s) (hy : c.tahun = s.tahun)
    (h : st.yearsAgree = true) :
    Store.yearsAgree { st with assignments := st.assignments ++ [a] } = true := by
  rw [yearsAgree_iff] at h ⊢
  intro b hb
  rcases List.mem_append.1 hb with hb | hb
  · exact h b hb
  · rw [List.mem_singleton.1 hb]
    exact ⟨c, s, hc, hs, hy⟩

theorem yearsAgree_updateAssignment (st : Store) (id : Int) (f : Assignment → Assignment)
    (hf : ∀ a, (f a).checklistId = a.checklistId ∧ (f a).strukturId = a.strukturId)
    (h : st.yearsAgree = true) : (st.updateAssignment id f).yearsAgree = true := by
  refine yearsAgree_transfer st _ h ?_ (fun a0 _ c hc => ⟨c, hc, rfl⟩)
    (fun a0 _ s hs => ⟨s, hs, rfl⟩)
  intro a ha
  obtain ⟨a0, ha0, rfl⟩ := List.mem_map.1 ha
  refine ⟨a0, ha0, ?_⟩
  split
  · exact ⟨(hf a0).1.symm, (hf a0).2.symm⟩
  · exact ⟨rfl, rfl⟩

theorem yearsAgree_filter_assignment (st : Store) (id : Int) (h : st.yearsAgree = true) :
    Store.yearsAgree
      { st with assignments := st.assignments.filter (fun a => !(a.id == id)) } = true := by
  refine yearsAgree_transfer st _ h ?_ (fun a0 _ c hc => ⟨c, hc, rfl⟩)
    (fun a0 _ s hs => ⟨s, hs, rfl⟩)
  intro a ha
  exact ⟨a, (List.mem_filter.1 ha).1, rfl, rfl⟩

/-- Every route that writes checklist items, organizational units or
assignments keeps the year invariant, provided an update does not move a
record that has assignments to another year. -/
theorem handle_yearsAgree (st : Store) (user : Identity) (req : Request)
    (h : st.yearsAgree = true) (hk : req.keepsYears st) :
    (handle st user req).1.yearsAgree = true := by
  cases req with
  | postChecklist body gen =>
    rcases requireAdmin_cases user st (postChecklistHandler st body gen) with e | e
    · exact (congrArg Store.yearsAgree e).trans h
    · show (postChecklist st user body gen).1.yearsAgree = true
      unfold postChecklist
      rw [e]
      rcases postChecklistHandler_cases st body gen with e2 | ⟨row, e2⟩
      · rw [e2]; exact h
      · rw [e2]; exact yearsAgree_append_checklist st row h
  | putChecklist id body =>
    rcases requireAdmin_cases user st (putChecklistHandler st id body) with e | e
    · exact (congrArg Store.yearsAgree e).trans h
    · show (putChecklist st user id body).1.yearsAgree = true
      unfold putChecklist
      rw [e]
      rcases putChecklistHandler_cases st id body with e2 | ⟨i, tahun, hid, ht, e2⟩
      · rw [e2]; exact h
      · rw [e2]
        subst hid
        refine yearsAgree_map_checklist st i tahun _ _ ?_ h
        have hk2 : (st.findChecklist i).map (fun c => c.tahun) = body.tahun.parseInt ∨
            ∀ a ∈ st.assignments, a.checklistId ≠ i := hk
        rw [ht] at hk2
        exact hk2
  | deleteChecklist id =>
    rcases requireAdmin_cases user st (deleteChecklistHandler st id) with e | e
    · exact (congrArg Store.yearsAgree e).trans h
    · show (deleteChecklist st user id).1.yearsAgree = true
      unfold deleteChecklist
      rw [e]
      rcases deleteChecklistHandler_cases st id with e2 | ⟨i, hno, e2⟩
      · rw [e2]; exact h
      · rw [e2]; exact yearsAgree_filter_checklist st i hno h
  | postStruktur body gen =>
    rcases requireAdmin_cases user st (postStrukturHandler st body gen) with e | e
    · exact (congrArg Store.yearsAgree e).trans h
    · show (postStruktur st user body gen).1.yearsAgree = true
      unfold postStruktur
      rw [e]
      rcases postStrukturHandler_cases st body gen with e2 | ⟨tahun, e2⟩
      · rw [e2]; exact h
      · rw [e2]; exact yearsAgree_append_struktur st _ h
  | putStruktur id body =>
    rcases requireAdmin_cases user st (putStrukturHandler st id body) with e | e
    · exact (congrArg Store.yearsAgree e).trans h
    · show (putStruktur st user id body).1.yearsAgree = true
      unfold putStruktur
      rw [e]
      rcases putStrukturHandler_cases2 st id body with e2 | ⟨i, tahun, hid, ht, e2⟩
      · rw [e2]; exact h
      · rw [e2]
        subst hid
        refine yearsAgree_map_struktur st i tahun _ _ _ ?_ h
        have hk2 : (st.findStruktur i).map (fun s => s.tahun) = body.tahun.parseInt ∨
            ∀ a ∈ st.assignments, a.strukturId ≠ i := hk
        rw [ht] at hk2
        exact hk2
  | deleteStruktur id =>
    rcases requireAdmin_cases user st (deleteStrukturHandler st id) with e | e
    · exact (congrArg Store.yearsAgree e).trans h
    · show (deleteStruktur st user id).1.yearsAgree = true
      unfold deleteStruktur
      rw [e]
      rcases deleteStrukturHandler_cases st id with e2 | ⟨i, hno, e2⟩
      · rw [e2]; exact h
      · rw [e2]; exact yearsAgree_filter_struktur st i hno h
  | postAssignment body gen =>
    rcases requireAdmin_cases user st (postAssignmentHandler st user body gen) with e | e
    · exact (congrArg Store.yearsAgree e).trans h
    · show (postAssignment st user body gen).1.yearsAgree = true
      unfold postAssignment
      rw [e]
      rcases postAssignmentHandler_cases st user body gen with e2 | ⟨a, c, s, hc, hs, hy, e2⟩
      · rw [e2]; exact h
      · rw [e2]; exact yearsAgree_append_assignment st a c s hc hs hy h
  | putAssignment id body =>
    rcases requireAdmin_cases user st (putAssignmentHandler st id body) with e | e
    · exact (congrArg Store.yearsAgree e).trans h
    · show (putAssignment st user id body).1.yearsAgree = true
      unfold putAssignment
      rw [e]
      rcases putAssignmentHandler_cases st id body with e2 | ⟨i, f, e2, hf⟩
      · rw [e2]; exact h
      · rw [e2]; exact yearsAgree_updateAssignment st i f hf h
  | deleteAssignment id =>
    rcases requireAdmin_cases user st (deleteAssignmentHandler st id) with e | e
    · exact (congrArg Store.yearsAgree e).trans h
    · show (deleteAssignment st user id).1.yearsAgree = true
      unfold deleteAssignment
      rw [e]
      rcases deleteAssignmentHandler_cases st id with e2 | ⟨i, e2⟩
      · rw [e2]; exact h
      · rw [e2]; exact yearsAgree_filter_assignment st i h
  | patchAssignmentStatus id status =>
    show (patchAssignmentStatus st user id status).1.yearsAgree = true
    rcases patchAssignmentStatus_cases st user id status with e2 | ⟨i, f, e2, hf⟩
    · rw [e2]; exact h
    · rw [e2]; exact yearsAgree_updateAssignment st i f hf h

/-- The year invariant survives every sequence of requests in which no
update moves a record that has assignments to another year. -/
theorem runRequests_yearsAgree (reqs : List (Identity × Request)) :
    ∀ st : Store, st.yearsAgree = true → KeepYears st reqs →
      (runRequests st reqs).yearsAgree = true := by
  induction reqs with
  | nil => intro st h _; exact h
  | cons r rest ih =>
    intro st h hk
    obtain ⟨user, req⟩ := r
    exact ih _ (handle_yearsAgree st user req h hk.1) hk.2

/-! ### Aspects and checklist items -/

theorem postAspectHandler_created (st : Store) (body : AspectBody) (gen : Generated)
    (h : (postAspectHandler st body gen).2.status = 201) :
    ∃ tahun, body.tahun.parseInt = some tahun ∧ truthyStr body.nama = true ∧
      (st.findYear tahun).isSome = true ∧
      (postAspectHandler st body gen).1 =
        { st with aspects := st.aspects ++
            [{ id := gen.id, nama := body.nama.getD "", tahun := tahun }] } := by
  unfold postAspectHandler at h ⊢
  split at h
  · simp at h
  · rename_i hreq
    split at h
    · simp at h
    · split at h
      · simp at h
      · rename_i tahun htahun
        split at h
        · simp at h
        · rename_i y hy
          split at h
          · simp at h
          · refine ⟨tahun, by assumption, ?_, ?_, ?_⟩
            · simp only [Bool.or_eq_true, Bool.not_eq_true', not_or, Bool.not_eq_false] at hreq
              exact hreq.1
            · simp [hy]
            · simp_all

theorem find?_append_singleton_self {α : Type} (p : α → Bool) (l : List α) (x : α)
    (hx : p x = true) : ((l ++ [x]).find? p).isSome = true := by
  simp [List.find?_isSome, hx]

/-- C6: once `POST /api/aspects` has answered 201 for a name and a year,
`POST /api/checklist` with that name, a non-empty description and a year
value parsing to the same year answers 201 and appends the checklist row; and
a checklist request whose aspect name and year match no aspect is answered
with a client error and leaves the store as it was. -/
theorem postChecklist_aspect_required (st : Store) (user : Identity) (gen : Generated) :
    (∀ (aspect : AspectBody) (gen2 : Generated) (deskripsi : String) (tahun2 : JsArg)
        (year : Int),
      (postAspect st user aspect gen).2.status = 201 →
      aspect.tahun.parseInt = some year →
      deskripsi ≠ "" → tahun2.truthy = true → tahun2.isNaN = false →
      tahun2.parseInt = some year →
      postChecklist (postAspect st user aspect gen).1 user
          { aspek := aspect.nama, deskripsi := some deskripsi, tahun := tahun2 } gen2 =
        ({ (postAspect st user aspect gen).1 with
            checklists := (postAspect st user aspect gen).1.checklists ++
              [{ id := gen2.id, aspek := aspect.nama.getD "", deskripsi := deskripsi,
                 tahun := year }] },
         { status := 201, message := "Checklist item created successfully" })) ∧
    (∀ (body : ChecklistBody) (year : Int),
      body.tahun.parseInt = some year →
      (∀ a ∈ st.aspects, ¬ (a.nama = body.aspek.getD "" ∧ a.tahun = year)) →
      (postChecklist st user body gen).1 = st ∧
      ((postChecklist st user body gen).2.status = 400 ∨
       (postChecklist st user body gen).2.status = 403)) := by
  constructor
  · intro aspect gen2 deskripsi tahun2 year h201 hyear hdesk htruthy hnan hparse
    have hadmin : user.role = "ADMIN" := by
      by_contra hna
      simp [postAspect, requireAdmin, hna] at h201
    have hEq : postAspect st user aspect gen = postAspectHandler st aspect gen := by
      simp [postAspect, requireAdmin, hadmin]
    rw [hEq] at h201 ⊢
    obtain ⟨tahun, ht, hnama, hy, hst⟩ := postAspectHandler_created st aspect gen h201
    have hty : tahun = year := by
      rw [ht] at hyear
      exact Option.some.inj hyear
    subst hty
    rw [hst]
    have hd : truthyStr (some deskripsi) = true := by simp [truthyStr, hdesk]
    obtain ⟨y, hy2⟩ := Option.isSome_iff_exists.1 hy
    have hfind := find?_append_singleton_self
      (fun a : Aspek => a.nama == aspect.nama.getD "" && a.tahun == tahun) st.aspects
      { id := gen.id, nama := aspect.nama.getD "", tahun := tahun } (by simp)
    obtain ⟨a, ha⟩ := Option.isSome_iff_exists.1 hfind
    have hfy : Store.findYear { st with aspects := st.aspects ++
        [{ id := gen.id, nama := aspect.nama.getD "", tahun := tahun }] } tahun = some y := hy2
    unfold postChecklist requireAdmin postChecklistHandler
    dsimp only
    simp only [hadmin, ne_eq, not_true_eq_false, if_false, hnama, hd, htruthy, hnan, hparse,
      Bool.not_true, Bool.or_self, Bool.false_eq_true, hfy, ha, Option.getD_some]
  · intro body year hparse hno
    by_cases hadmin : user.role = "ADMIN"
    · have hnone : st.aspects.find?
          (fun a => a.nama == body.aspek.getD "" && a.tahun == year) = none := by
        rw [List.find?_eq_none]
        intro a ha
        have := hno a ha
        simpa using this
      unfold postChecklist requireAdmin postChecklistHandler
      simp only [hadmin, ne_eq, not_true_eq_false, if_false, hparse, hnone]
      split
      · exact ⟨rfl, Or.inl rfl⟩
      · split
        · exact ⟨rfl, Or.inl rfl⟩
        · split
          · exact ⟨rfl, Or.inl rfl⟩
          · exact ⟨rfl, Or.inl rfl⟩
    · simp [postChecklist, requireAdmin, hadmin]

/-- Witness for C6 on the sample store: the aspect A2 is created for 2024 and
a checklist item under it is then created; a checklist item under the unknown
aspect A9 is refused with no change. -/
theorem postChecklist_aspect_required_witness :
    postChecklist (postAspect demoStore adminUser.identity
          { nama := some "A2", tahun := JsArg.ofInt 2024 } demoGen).1 adminUser.identity
        { aspek := some "A2", deskripsi := some "Dokumen", tahun := JsArg.ofInt 2024 }
        { id := 11, now := 1700000000200, status := "PENDING" } =
      ({ (postAspect demoStore adminUser.identity
            { nama := some "A2", tahun := JsArg.ofInt 2024 } demoGen).1 with
          checklists := (postAspect demoStore adminUser.identity
            { nama := some "A2", tahun := JsArg.ofInt 2024 } demoGen).1.checklists ++
              [{ id := 11, aspek := "A2", deskripsi := "Dokumen", tahun := 2024 }] },
       { status := 201, message := "Checklist item created successfully" }) ∧
    ((postChecklist demoStore adminUser.identity
        { aspek := some "A9", deskripsi := some "Dokumen", tahun := JsArg.ofInt 2024 }
        demoGen).1 = demoStore ∧
     ((postChecklist demoStore adminUser.identity
        { aspek := some "A9", deskripsi := some "Dokumen", tahun := JsArg.ofInt 2024 }
        demoGen).2.status = 400 ∨
      (postChecklist demoStore adminUser.identity
        { aspek := some "A9", deskripsi := some "Dokumen", tahun := JsArg.ofInt 2024 }
        demoGen).2.status = 403)) :=
  ⟨(postChecklist_aspect_required demoStore adminUser.identity demoGen).1
      { nama := some "A2", tahun := JsArg.ofInt 2024 }
      { id := 11, now := 1700000000200, status := "PENDING" } "Dokumen" (JsArg.ofInt 2024) 2024
      (by decide) (by decide) (by decide) (by decide) (by decide) (by decide),
   (postChecklist_aspect_required demoStore adminUser.identity demoGen).2
      { aspek := some "A9", deskripsi := some "Dokumen", tahun := JsArg.ofInt 2024 } 2024
      (by decide) (by decide)⟩

/-! ### Deleting a year -/

/-- C7: for an administrator, deleting an existing year removes it exactly
when it has no aspect, no checklist item and no organizational unit; with any
of the three counts nonzero the answer is 400 and the store is unchanged; a
year number that is not in the store is answered 404. -/
theorem deleteYear_iff (st : Store) (user : Identity) (tahun : Int)
    (hadmin : user.role = "ADMIN") :
    (∀ y, st.findYear tahun = some y →
      (((st.aspects.filter (fun a => a.tahun == tahun)).length = 0 ∧
        (st.checklists.filter (fun c => c.tahun == tahun)).length = 0 ∧
        (st.strukturs.filter (fun s => s.tahun == tahun)).length = 0) →
        deleteYear st user (some tahun) =
          ({ st with years := st.years.filter (fun y => !(y.tahun == tahun)) },
           { status := 200, message := "Year deleted successfully" }) ∧
        (deleteYear st user (some tahun)).1.findYear tahun = none) ∧
      (¬ ((st.aspects.filter (fun a => a.tahun == tahun)).length = 0 ∧
          (st.checklists.filter (fun c => c.tahun == tahun)).length = 0 ∧
          (st.strukturs.filter (fun s => s.tahun == tahun)).length = 0) →
        deleteYear st user (some tahun) =
          (st, { status := 400,
                 message := "Cannot delete year with existing data. Please delete related data first." }))) ∧
    (st.findYear tahun = none →
      deleteYear st user (some tahun) = (st, { status := 404, message := "Year not found" })) := by
  refine ⟨fun y hy => ⟨fun hzero => ?_, fun hnz => ?_⟩, fun hnone => ?_⟩
  · obtain ⟨h1, h2, h3⟩ := hzero
    have hres : deleteYear st user (some tahun) =
        ({ st with years := st.years.filter (fun y => !(y.tahun == tahun)) },
         { status := 200, message := "Year deleted successfully" }) := by
      simp [deleteYear, requireAdmin, hadmin, deleteYearHandler, hy, h1, h2, h3]
    refine ⟨hres, ?_⟩
    rw [hres]
    exact find?_filter_not (fun y : Year => y.tahun == tahun) st.years
  · have hany : [ (st.aspects.filter (fun a => a.tahun == tahun)).length,
          (st.checklists.filter (fun c => c.tahun == tahun)).length,
          (st.strukturs.filter (fun s => s.tahun == tahun)).length ].any
            (fun count => decide (count > 0)) = true := by
      rw [any_pos_iff]
      by_contra hcon
      apply hnz
      simp only [List.mem_cons, List.mem_singleton, not_exists, not_and, not_not] at hcon
      exact ⟨hcon _ (Or.inl rfl), hcon _ (Or.inr (Or.inl rfl)),
        hcon _ (Or.inr (Or.inr (by simp)))⟩
    unfold deleteYear requireAdmin deleteYearHandler
    simp only [hadmin, ne_eq, not_true_eq_false, if_false, hy, hany, if_true]
  · simp [deleteYear, requireAdmin, hadmin, deleteYearHandler, hnone]

/-- Witness for C7 on the sample store: the year 2026 has no children and is
removed, the year 2024 has children and stays, the year 1999 is unknown. -/
theorem deleteYear_iff_witness :
    (deleteYear demoStore adminUser.identity (some 2026)).1.findYear 2026 = none ∧
    deleteYear demoStore adminUser.identity (some 2024) =
      (demoStore, { status := 400,
                    message := "Cannot delete year with existing data. Please delete related data first." }) ∧
    deleteYear demoStore adminUser.identity (some 1999) =
      (demoStore, { status := 404, message := "Year not found" }) :=
  ⟨(((deleteYear_iff demoStore adminUser.identity 2026 (by decide)).1
      { tahun := 2026, nama := "Tahun Buku 2026", deskripsi := "Tahun buku 2026",
        isActive := true } (by decide)).1 (by decide)).2,
   ((deleteYear_iff demoStore adminUser.identity 2024 (by decide)).1
      { tahun := 2024, nama := "Tahun Buku 2024", deskripsi := "Tahun buku 2024",
        isActive := true } (by decide)).2 (by decide),
   (deleteYear_iff demoStore adminUser.identity 1999 (by decide)).2 (by decide)⟩

/-! ### Deleting a user -/

theorem deleteUser_blocked_or_done (st : Store) (user : Identity) (id : Int) (u : User)
    (hadmin : user.role = "ADMIN") (hu : st.findUser id = some u) (hself : user.id ≠ id) :
    deleteUser st user (some id) =
      if (st.fileUploads.filter (fun f => f.uploadedBy == id)).length = 0 ∧
          (st.assignments.filter (fun a => a.assignedBy == id)).length = 0 then
        ({ st with users := st.users.filter (fun u => !(u.id == id)) },
         { status := 200, message := "User deleted successfully" })
      else
        (st, { status := 400,
               message := "Cannot delete user with existing data. Please reassign or delete related data first." }) := by
  unfold deleteUser requireAdmin deleteUserHandler
  simp only [hadmin, ne_eq, not_true_eq_false, if_false, hu, hself]
  by_cases hz : (st.fileUploads.filter (fun f => f.uploadedBy == id)).length = 0 ∧
      (st.assignments.filter (fun a => a.assignedBy == id)).length = 0
  · obtain ⟨h1, h2⟩ := hz
    simp [h1, h2]
  · have hany : [ (st.fileUploads.filter (fun f => f.uploadedBy == id)).length,
          (st.assignments.filter (fun a => a.assignedBy == id)).length ].any
            (fun count => decide (count > 0)) = true := by
      rw [any_pos_iff]
      by_contra hcon
      apply hz
      simp only [List.mem_cons, List.mem_singleton, not_exists, not_and, not_not] at hcon
      exact ⟨hcon _ (Or.inl rfl), hcon _ (Or.inr (by simp))⟩
    simp only [hany, if_true, hz, if_false]

theorem deleteUser_done (st : Store) (user : Identity) (id : Int) (u : User)
    (hadmin : user.role = "ADMIN") (hu : st.findUser id = some u) (hself : user.id ≠ id)
    (h1 : (st.fileUploads.filter (fun f => f.uploadedBy == id)).length = 0)
    (h2 : (st.assignments.filter (fun a => a.assignedBy == id)).length = 0) :
    deleteUser st user (some id) =
      ({ st with users := st.users.filter (fun u => !(u.id == id)) },
       { status := 200, message := "User deleted successfully" }) := by
  have hres := deleteUser_blocked_or_done st user id u hadmin hu hself
  rw [if_pos ⟨h1, h2⟩] at hres
  exact hres

/-- C8: `DELETE /api/users/:id` by an administrator removes the target
exactly when it exists, is not the caller and has no file record and no
assignment of its own; in every other case the store is unchanged.  A user
owning exactly one file record is refused with 400, and is removed once that
file record has been deleted. -/
theorem deleteUser_iff (st : Store) (user : Identity) (id : Int)
    (hadmin : user.role = "ADMIN") :
    (((st.findUser id).isSome = true ∧ user.id ≠ id ∧
        (st.fileUploads.filter (fun f => f.uploadedBy == id)).length = 0 ∧
        (st.assignments.filter (fun a => a.assignedBy == id)).length = 0) →
      deleteUser st user (some id) =
        ({ st with users := st.users.filter (fun u => !(u.id == id)) },
         { status := 200, message := "User deleted successfully" }) ∧
      (deleteUser st user (some id)).1.findUser id = none) ∧
    (¬ ((st.findUser id).isSome = true ∧ user.id ≠ id ∧
        (st.fileUploads.filter (fun f => f.uploadedBy == id)).length = 0 ∧
        (st.assignments.filter (fun a => a.assignedBy == id)).length = 0) →
      (deleteUser st user (some id)).1 = st ∧
      ((deleteUser st user (some id)).2.status = 400 ∨
       (deleteUser st user (some id)).2.status = 404)) ∧
    (∀ (u : User) (f : FileUpload) (unlinkThrows : Bool),
      st.findUser id = some u → user.id ≠ id →
      st.fileUploads.filter (fun f => f.uploadedBy == id) = [f] →
      st.findFile f.id = some f →
      (st.assignments.filter (fun a => a.assignedBy == id)).length = 0 →
      (deleteUser st user (some id)).1 = st ∧
      (deleteUser st user (some id)).2.status = 400 ∧
      (deleteFile st user (some f.id) unlinkThrows).2.status = 200 ∧
      (deleteUser (deleteFile st user (some f.id) unlinkThrows).1 user (some id)).2.status = 200 ∧
      (deleteUser (deleteFile st user (some f.id) unlinkThrows).1 user (some id)).1.findUser id
        = none) := by
  refine ⟨?_, ?_, ?_⟩
  · rintro ⟨hex, hself, h1, h2⟩
    obtain ⟨u, hu⟩ := Option.isSome_iff_exists.1 hex
    have hres := deleteUser_done st user id u hadmin hu hself h1 h2
    refine ⟨hres, ?_⟩
    rw [hres]
    exact find?_filter_not (fun u : User => u.id == id) st.users
  · intro hnot
    cases hu : st.findUser id with
    | none => simp [deleteUser, requireAdmin, hadmin, deleteUserHandler, hu]
    | some u =>
      by_cases hself : user.id = id
      · simp [deleteUser, requireAdmin, hadmin, deleteUserHandler, hu, hself]
      · have hres := deleteUser_blocked_or_done st user id u hadmin hu hself
        have hz : ¬ ((st.fileUploads.filter (fun f => f.uploadedBy == id)).length = 0 ∧
            (st.assignments.filter (fun a => a.assignedBy == id)).length = 0) := by
          intro hz
          exact hnot ⟨by simp [hu], hself, hz.1, hz.2⟩
        rw [if_neg hz] at hres
        rw [hres]
        exact ⟨rfl, Or.inl rfl⟩
  · intro u f unlinkThrows hu hself hfiles hfind hassign
    have hres := deleteUser_blocked_or_done st user id u hadmin hu hself
    have hz : ¬ ((st.fileUploads.filter (fun f => f.uploadedBy == id)).length = 0 ∧
        (st.assignments.filter (fun a => a.assignedBy == id)).length = 0) := by
      rw [hfiles]
      simp
    rw [if_neg hz] at hres
    have hfmem : f ∈ st.fileUploads.filter (fun f => f.uploadedBy == id) := by
      rw [hfiles]
      exact List.mem_singleton.2 rfl
    have hup : f.uploadedBy = id := by
      have := (List.mem_filter.1 hfmem).2
      simpa using this
    have howner : st.findUser f.uploadedBy = some u := by rw [hup]; exact hu
    have hdel : deleteFile st user (some f.id) unlinkThrows =
        ({ st with
            disk := if f.filePath ∈ st.disk ∧ unlinkThrows = false then
                st.disk.filter (fun path => !(path == f.filePath))
              else st.disk,
            fileUploads := st.fileUploads.filter (fun g => !(g.id == f.id)) },
         { status := 200, message := "File deleted successfully" }) := by
      simp [deleteFile, deleteFileRequest, deleteDenied, hfind, hadmin]
    have hfiles2 : ((st.fileUploads.filter (fun g => !(g.id == f.id))).filter
        (fun g => g.uploadedBy == id)).length = 0 := by
      rw [List.filter_filter]
      have hcomm : st.fileUploads.filter (fun a => (a.uploadedBy == id && !(a.id == f.id))) =
          (st.fileUploads.filter (fun g => g.uploadedBy == id)).filter
            (fun g => !(g.id == f.id)) := by
        rw [List.filter_filter]
        congr 1
        funext a
        exact Bool.and_comm _ _
      rw [hcomm, hfiles]
      simp
    refine ⟨by rw [hres], by rw [hres], by rw [hdel], ?_, ?_⟩
    all_goals
      rw [hdel]
      have hres2 := deleteUser_done
        { st with
            disk := if f.filePath ∈ st.disk ∧ unlinkThrows = false then
                st.disk.filter (fun path => !(path == f.filePath))
              else st.disk,
            fileUploads := st.fileUploads.filter (fun g => !(g.id == f.id)) }
        user id u hadmin hu hself hfiles2 hassign
      rw [hres2]
    · exact find?_filter_not (fun u : User => u.id == id) st.users

/-- Witness for C8 on the sample store: Citra owns file record 1 and cannot
be deleted; after the administrator deletes that file record she can. -/
theorem deleteUser_iff_witness :
    (deleteUser demoStore adminUser.identity (some 3)).1 = demoStore ∧
    (deleteUser demoStore adminUser.identity (some 3)).2.status = 400 ∧
    (deleteFile demoStore adminUser.identity (some 1) false).2.status = 200 ∧
    (deleteUser (deleteFile demoStore adminUser.identity (some 1) false).1
      adminUser.identity (some 3)).2.status = 200 ∧
    (deleteUser (deleteFile demoStore adminUser.identity (some 1) false).1
      adminUser.identity (some 3)).1.findUser 3 = none :=
  (deleteUser_iff demoStore adminUser.identity 3 (by decide)).2.2 citraUser
    { id := 1, fileName := "file-1.pdf", originalName := "pedoman.pdf",
      filePath := "uploads/file-1.pdf", fileSize := 1024, mimeType := "application/pdf",
      checklistId := 1, tahun := 2024, uploadedBy := 3, uploadDate := 1700000000002 }
    false (by decide) (by decide) (by decide) (by decide) (by decide)

/-! ### Password change -/

theorem find?_map_id (f : User → User) (hf : ∀ u, (f u).id = u.id) (l : List User) (i : Int) :
    (l.map f).find? (fun u => u.id == i) = (l.find? (fun u => u.id == i)).map f := by
  induction l with
  | nil => rfl
  | cons a l ih =>
    simp only [List.map_cons, List.find?_cons, hf]
    cases h : (a.id == i)
    · simpa using ih
    · simp

/-- C10: `change-password` replaces the stored hash of the caller by the hash
of the new password exactly when both fields are supplied, the current
password matches the stored hash and the new password meets the strength
policy; then no other user row changes.  In every other case the answer is 400
and the store is unchanged. -/
theorem postChangePassword_iff (bcrypt : Bcrypt) (st : Store) (user : Identity)
    (currentPassword newPassword : Option String) (row : User)
    (hrow : st.findUser user.id = some row) :
    ((truthyStr currentPassword = true ∧ truthyStr newPassword = true ∧
        bcrypt.compare (currentPassword.getD "") row.password = true ∧
        6 ≤ jsLength (newPassword.getD "") ∧ 2 ≤ classesPresent (newPassword.getD "")) →
      (postChangePassword bcrypt st user currentPassword newPassword).2 =
        { status := 200, message := "Password changed successfully" } ∧
      (postChangePassword bcrypt st user currentPassword newPassword).1 =
        { st with users := st.users.map (fun u =>
            if u.id == user.id then { u with password := bcrypt.hash (newPassword.getD "") }
            else u) } ∧
      (postChangePassword bcrypt st user currentPassword newPassword).1.findUser user.id =
        some { row with password := bcrypt.hash (newPassword.getD "") } ∧
      (∀ i, i ≠ user.id →
        (postChangePassword bcrypt st user currentPassword newPassword).1.findUser i =
          st.findUser i)) ∧
    (¬ (truthyStr currentPassword = true ∧ truthyStr newPassword = true ∧
        bcrypt.compare (currentPassword.getD "") row.password = true ∧
        6 ≤ jsLength (newPassword.getD "") ∧ 2 ≤ classesPresent (newPassword.getD "")) →
      (postChangePassword bcrypt st user currentPassword newPassword).1 = st ∧
      (postChangePassword bcrypt st user currentPassword newPassword).2.status = 400) := by
  constructor
  · rintro ⟨hc, hn, hcmp, hlen, hcls⟩
    have hvalid : (validatePassword (newPassword.getD "")).valid = true :=
      (validatePassword_valid_iff _).2 ⟨hlen, hcls⟩
    have hres : postChangePassword bcrypt st user currentPassword newPassword =
        ({ st with users := st.users.map (fun u =>
            if u.id == user.id then { u with password := bcrypt.hash (newPassword.getD "") }
            else u) },
         { status := 200, message := "Password changed successfully" }) := by
      simp [postChangePassword, hc, hn, hrow, hcmp, hvalid]
    have hid : ∀ u : User, (if u.id == user.id then
        { u with password := bcrypt.hash (newPassword.getD "") } else u).id = u.id := by
      intro u
      split <;> rfl
    have hfind : ∀ i, Store.findUser { st with users := st.users.map (fun u =>
            if u.id == user.id then { u with password := bcrypt.hash (newPassword.getD "") }
            else u) } i =
        (st.findUser i).map (fun u =>
            if u.id == user.id then { u with password := bcrypt.hash (newPassword.getD "") }
            else u) := by
      intro i
      exact find?_map_id _ hid st.users i
    rw [hres]
    refine ⟨rfl, rfl, ?_, ?_⟩
    · rw [hfind, hrow]
      have hrid : row.id = user.id := by
        have := List.find?_some hrow
        simpa using this
      simp [hrid]
    · intro i hi
      rw [hfind]
      cases hu : st.findUser i with
      | none => rfl
      | some u =>
        have huid : u.id = i := by
          have := List.find?_some hu
          simpa using this
        have hne : u.id ≠ user.id := by rw [huid]; exact hi
        simp [hne]
  · intro hnot
    unfold postChangePassword
    split
    · exact ⟨rfl, rfl⟩
    · rename_i hreq
      simp only [Bool.or_eq_true, Bool.not_eq_true', not_or, Bool.not_eq_false] at hreq
      simp only [hrow]
      split
      · exact ⟨rfl, rfl⟩
      · rename_i hcmp
        simp only [Bool.not_eq_true', Bool.not_eq_false] at hcmp
        split
        · exact ⟨rfl, rfl⟩
        · rename_i hval
          simp only [Bool.not_eq_true', Bool.not_eq_false] at hval
          exact absurd ⟨hreq.1, hreq.2, hcmp, (validatePassword_valid_iff _).1 hval⟩ hnot

/-- Witness for C10 on the sample store: Budi changes his password with the
right current password and a new password of three classes; with a wrong
current password nothing changes. -/
theorem postChangePassword_iff_witness :
    ((postChangePassword demoBcrypt demoStore budiUser.identity (some "budi")
        (some "Budi2024")).2 = { status := 200, message := "Password changed successfully" } ∧
     (postChangePassword demoBcrypt demoStore budiUser.identity (some "budi")
        (some "Budi2024")).1.findUser 2 = some { budiUser with password := "hash-Budi2024" }) ∧
    ((postChangePassword demoBcrypt demoStore budiUser.identity (some "wrong")
        (some "Budi2024")).1 = demoStore ∧
     (postChangePassword demoBcrypt demoStore budiUser.identity (some "wrong")
        (some "Budi2024")).2.status = 400) :=
  ⟨⟨((postChangePassword_iff demoBcrypt demoStore budiUser.identity (some "budi")
        (some "Budi2024") budiUser (by decide)).1 (by decide)).1,
    ((postChangePassword_iff demoBcrypt demoStore budiUser.identity (some "budi")
        (some "Budi2024") budiUser (by decide)).1 (by decide)).2.2.1⟩,
   (postChangePassword_iff demoBcrypt demoStore budiUser.identity (some "wrong")
      (some "Budi2024") budiUser (by decide)).2 (by decide)⟩

/-! ### Login failures -/

/-- C11: a login attempt that fails because no user has the submitted name
and a login attempt that fails because the password does not match the found
user get the same answer, status 401 with the body `Invalid credentials`. -/
theorem postLogin_failures_identical (bcrypt : Bcrypt) (generateToken : Int → String)
    (st1 st2 : Store) (username1 password1 username2 password2 : String) (row : User)
    (hu1 : username1 ≠ "") (hp1 : password1 ≠ "") (hu2 : username2 ≠ "") (hp2 : password2 ≠ "")
    (habsent : st1.findUserByLogin username1 = none)
    (hfound : st2.findUserByLogin username2 = some row)
    (hmismatch : bcrypt.compare password2 row.password = false) :
    postLogin bcrypt generateToken st1 (some username1) (some password1) =
      postLogin bcrypt generateToken st2 (some username2) (some password2) ∧
    postLogin bcrypt generateToken st1 (some username1) (some password1) =
      { status := 401, error := some "Invalid credentials", message := none, user := none,
        token := none } := by
  have h1 : postLogin bcrypt generateToken st1 (some username1) (some password1) =
      { status := 401, error := some "Invalid credentials", message := none, user := none,
        token := none } := by
    simp [postLogin, truthyStr, hu1, hp1, habsent]
  have h2 : postLogin bcrypt generateToken st2 (some username2) (some password2) =
      { status := 401, error := some "Invalid credentials", message := none, user := none,
        token := none } := by
    simp [postLogin, truthyStr, hu2, hp2, hfound, hmismatch]
  exact ⟨h1.trans h2.symm, h1⟩

/-- Witness for C11 on the sample store: the unknown name `eko` and the known
name `budi` with a wrong password get the same answer. -/
theorem postLogin_failures_identical_witness :
    postLogin demoBcrypt demoToken demoStore (some "eko") (some "rahasia") =
      postLogin demoBcrypt demoToken demoStore (some "budi") (some "salah") ∧
    postLogin demoBcrypt demoToken demoStore (some "eko") (some "rahasia") =
      { status := 401, error := some "Invalid credentials", message := none, user := none,
        token := none } :=
  postLogin_failures_identical demoBcrypt demoToken demoStore demoStore "eko" "rahasia" "budi"
    "salah" budiUser (by decide) (by decide) (by decide) (by decide) (by decide) (by decide)
    (by decide)

/-! ### Viewing and editing users -/

theorem findUser_unique {st : Store} (hu : st.UniqueUserIds) {id : Int} {e u : User}
    (he : st.findUser id = some e) (hmem : u ∈ st.users) (hid : u.id = id) : u = e := by
  have hemem : e ∈ st.users := List.mem_of_find?_eq_some he
  have heid : e.id = id := by
    have := List.find?_some he
    simpa using this
  exact List.inj_on_of_nodup_map hu hmem hemem (hid.trans heid.symm)

theorem map_congr_roles (users : List User) (f : User → User)
    (hf : ∀ u ∈ users, (f u).id = u.id ∧ (f u).role = u.role) :
    (users.map f).map (fun u => (u.id, u.role)) = users.map (fun u => (u.id, u.role)) := by
  rw [List.map_map]
  apply List.map_congr_left
  intro u hu
  simp only [Function.comp_apply, (hf u hu).1, (hf u hu).2]

theorem putUser_cases (st : Store) (user : Identity) (userId : Option Int)
    (body : UserUpdateBody) :
    (putUser st user userId body).1 = st ∨
    ∃ id existingUser, userId = some id ∧ st.findUser id = some existingUser ∧
      ¬ (truthyStr body.role = true ∧ user.role ≠ "ADMIN") ∧
      (putUser st user userId body).1 =
        { st with users := st.users.map (fun u =>
            if u.id == id then
              { u with
                nama := if truthyStr body.nama then body.nama.getD "" else existingUser.nama
                email := if truthyStr body.email then body.email.getD ""
                  else existingUser.email
                direktorat := match body.direktorat with
                  | some v => v
                  | none => existingUser.direktorat
                subdirektorat := match body.subdirektorat with
                  | some v => v
                  | none => existingUser.subdirektorat
                divisi := match body.divisi with
                  | some v => v
                  | none => existingUser.divisi
                role := if truthyStr body.role then body.role.getD ""
                  else existingUser.role }
            else u) } := by
  unfold putUser
  split
  · exact Or.inl rfl
  · split
    · exact Or.inl rfl
    · rename_i hrole
      split
      · exact Or.inl rfl
      · rename_i id
        split
        · exact Or.inl rfl
        · rename_i existingUser hex
          split
          · exact Or.inl rfl
          · exact Or.inr ⟨_, _, rfl, by assumption, by assumption, rfl⟩

theorem putUser_message (st : Store) (user : Identity) (targetId : Int)
    (body : UserUpdateBody) (hc : ¬ (user.role ≠ "ADMIN" ∧ user.id ≠ targetId)) :
    (putUser st user (some targetId) body).2.message ≠ "Access denied" := by
  have hc2 : ¬ (user.role ≠ "ADMIN" ∧ some user.id ≠ some targetId) := by
    intro ⟨h1, h2⟩
    exact hc ⟨h1, fun e => h2 (by rw [e])⟩
  unfold putUser
  rw [if_neg hc2]
  split
  · simp
  · split
    · simp
    · split
      · simp
      · split
        · simp
        · simp

/-- C12: `GET /api/users/:id` and `PUT /api/users/:id` answer 403 `Access
denied` exactly when the caller is neither `ADMIN` nor the target; and a
request of a non-admin caller to `PUT /api/users/:id` or to
`PUT /api/users/profile/me` leaves the role of every user row as it was. -/
theorem user_view_edit_access (st : Store) (user : Identity) :
    (∀ targetId : Int,
      getUser st user (some targetId) = { status := 403, message := "Access denied" } ↔
        (user.role ≠ "ADMIN" ∧ user.id ≠ targetId)) ∧
    (∀ (targetId : Int) (body : UserUpdateBody),
      putUser st user (some targetId) body =
          (st, { status := 403, message := "Access denied" }) ↔
        (user.role ≠ "ADMIN" ∧ user.id ≠ targetId)) ∧
    (user.role ≠ "ADMIN" → st.UniqueUserIds →
      ∀ (userId : Option Int) (body : UserUpdateBody),
        (putUser st user userId body).1.userRoles = st.userRoles) ∧
    (user.role ≠ "ADMIN" →
      ∀ body : ProfileBody, (putProfileMe st user body).1.userRoles = st.userRoles) := by
  refine ⟨?_, ?_, ?_, ?_⟩
  · intro targetId
    constructor
    · intro h
      by_contra hcon
      have hc : ¬ (user.role ≠ "ADMIN" ∧ some user.id ≠ some targetId) := by
        intro ⟨h1, h2⟩
        exact hcon ⟨h1, fun e => h2 (by rw [e])⟩
      unfold getUser at h
      rw [if_neg hc] at h
      dsimp only at h
      split at h <;> simp at h
    · rintro ⟨h1, h2⟩
      have hc : user.role ≠ "ADMIN" ∧ some user.id ≠ some targetId :=
        ⟨h1, fun e => h2 (Option.some.inj e)⟩
      unfold getUser
      rw [if_pos hc]
  · intro targetId body
    constructor
    · intro h
      by_contra hcon
      apply putUser_message st user targetId body hcon
      rw [h]
    · rintro ⟨h1, h2⟩
      have hc : user.role ≠ "ADMIN" ∧ some user.id ≠ some targetId :=
        ⟨h1, fun e => h2 (Option.some.inj e)⟩
      unfold putUser
      rw [if_pos hc]
  · intro hna huniq userId body
    rcases putUser_cases st user userId body with e | ⟨id, existingUser, _, hex, hrole, e⟩
    · rw [e]
    · rw [e]
      have hrole2 : truthyStr body.role = false := by
        cases hb : truthyStr body.role
        · rfl
        · exact absurd ⟨hb, hna⟩ hrole
      unfold Store.userRoles
      dsimp only
      apply map_congr_roles
      intro u hu
      by_cases hid : u.id = id
      · have hue : u = existingUser := findUser_unique huniq hex hu hid
        have hb : (u.id == id) = true := by simp [hid]
        rw [if_pos hb]
        dsimp only
        rw [hrole2, hue]
        exact ⟨rfl, rfl⟩
      · have hb : ¬ (u.id == id) = true := by simp [hid]
        rw [if_neg hb]
        exact ⟨rfl, rfl⟩
  · intro _ body
    unfold putProfileMe
    split
    · rfl
    · split
      · rfl
      · unfold Store.userRoles
        dsimp only
        apply map_congr_roles
        intro u _
        split <;> exact ⟨rfl, rfl⟩

/-- Witness for C12 on the sample store: Citra may not view Budi, and her
own update without a role leaves every role as it was. -/
theorem user_view_edit_access_witness :
    getUser demoStore citraUser.identity (some 2) =
      { status := 403, message := "Access denied" } ∧
    (putUser demoStore citraUser.identity (some 3)
      { nama := some "Citra Dewi", email := none, direktorat := none, subdirektorat := none,
        divisi := some (some "Div C"), role := none }).1.userRoles = demoStore.userRoles :=
  ⟨((user_view_edit_access demoStore citraUser.identity).1 2).2 ⟨by decide, by decide⟩,
   (user_view_edit_access demoStore citraUser.identity).2.2.1 (by decide)
     (by unfold Store.UniqueUserIds; decide) (some 3)
     { nama := some "Citra Dewi", email := none, direktorat := none, subdirektorat := none,
       divisi := some (some "Div C"), role := none }⟩

/-! ### Uniqueness of organizational units -/

theorem postStrukturHandler_created (st : Store) (body : StrukturBody) (gen : Generated) :
    (postStrukturHandler st body gen).1 = st ∨
    ∃ tahun, st.strukturs.find? (fun s =>
        s.tahun == tahun && s.direktorat == body.direktorat.getD "" &&
        s.subdirektorat == body.subdirektorat.getD "" && s.divisi == orNull body.divisi) = none ∧
      (postStrukturHandler st body gen).1 =
        { st with strukturs := st.strukturs ++
            [{ id := gen.id, tahun := tahun, direktorat := body.direktorat.getD "",
               subdirektorat := body.subdirektorat.getD "", divisi := orNull body.divisi }] } := by
  unfold postStrukturHandler
  repeat' split
  all_goals first
    | exact Or.inl rfl
    | exact Or.inr ⟨_, by assumption, rfl⟩

theorem putStrukturHandler_updated (st : Store) (strukturId : Option Int)
    (body : StrukturBody) :
    (putStrukturHandler st strukturId body).1 = st ∨
    ∃ id tahun, st.strukturs.find? (fun s =>
        s.tahun == tahun && s.direktorat == body.direktorat.getD "" &&
        s.subdirektorat == body.subdirektorat.getD "" &&
        s.divisi == orNull body.divisi && s.id != id) = none ∧
      (putStrukturHandler st strukturId body).1 =
        { st with strukturs := st.strukturs.map (fun s =>
            if s.id == id then
              { s with tahun := tahun, direktorat := body.direktorat.getD "",
                       subdirektorat := body.subdirektorat.getD "",
                       divisi := orNull body.divisi }
            else s) } := by
  unfold putStrukturHandler
  repeat' split
  all_goals first
    | exact Or.inl rfl
    | exact Or.inr ⟨_, _, by assumption, rfl⟩

theorem tuple_eq_iff (s : StrukturPerusahaan) (tahun : Int) (direktorat subdirektorat : String)
    (divisi : Option String) :
    (s.tahun == tahun && s.direktorat == direktorat && s.subdirektorat == subdirektorat &&
        s.divisi == divisi) = true ↔
      s.tuple = (tahun, direktorat, subdirektorat, divisi) := by
  simp [StrukturPerusahaan.tuple, and_assoc]

theorem unique_append_struktur (st : Store) (row : StrukturPerusahaan)
    (hids : st.UniqueStrukturIds) (htup : st.UniqueStrukturTuples)
    (hfresh : row.id ∉ st.strukturs.map (fun s => s.id))
    (hnone : st.strukturs.find? (fun s =>
        s.tahun == row.tahun && s.direktorat == row.direktorat &&
        s.subdirektorat == row.subdirektorat && s.divisi == row.divisi) = none) :
    Store.UniqueStrukturIds { st with strukturs := st.strukturs ++ [row] } ∧
    Store.UniqueStrukturTuples { st with strukturs := st.strukturs ++ [row] } := by
  unfold Store.UniqueStrukturIds Store.UniqueStrukturTuples at *
  dsimp only
  rw [List.map_append, List.map_append]
  constructor
  · rw [List.nodup_append]
    refine ⟨hids, by simp, ?_⟩
    intro a ha1 ha2
    rw [List.map_singleton, List.mem_singleton] at ha2
    rw [ha2] at ha1
    exact hfresh ha1
  · rw [List.nodup_append]
    refine ⟨htup, by simp, ?_⟩
    intro a ha1 ha2
    rw [List.map_singleton, List.mem_singleton] at ha2
    obtain ⟨s, hs, hst⟩ := List.mem_map.1 ha1
    rw [List.find?_eq_none] at hnone
    apply hnone s hs
    rw [tuple_eq_iff]
    rw [hst, ha2]
    rfl

theorem unique_map_struktur (st : Store) (id tahun : Int) (direktorat subdirektorat : String)
    (divisi : Option String)
    (hids : st.UniqueStrukturIds) (htup : st.UniqueStrukturTuples)
    (hnone : st.strukturs.find? (fun s =>
        s.tahun == tahun && s.direktorat == direktorat &&
        s.subdirektorat == subdirektorat && s.divisi == divisi && s.id != id) = none) :
    Store.UniqueStrukturIds
      { st with strukturs := st.strukturs.map (fun s =>
          if s.id == id then
            { s with tahun := tahun, direktorat := direktorat, subdirektorat := subdirektorat,
                     divisi := divisi }
          else s) } ∧
    Store.UniqueStrukturTuples
      { st with strukturs := st.strukturs.map (fun s =>
          if s.id == id then
            { s with tahun := tahun, direktorat := direktorat, subdirektorat := subdirektorat,
                     divisi := divisi }
          else s) } := by
  unfold Store.UniqueStrukturIds Store.UniqueStrukturTuples at *
  dsimp only
  rw [List.map_map, List.map_map]
  have hnd : st.strukturs.Nodup := List.Nodup.of_map _ hids
  rw [List.find?_eq_none] at hnone
  constructor
  · have heq : ((fun s : StrukturPerusahaan => s.id) ∘ fun s =>
        if s.id == id then
          { s with tahun := tahun, direktorat := direktorat, subdirektorat := subdirektorat,
                   divisi := divisi }
        else s) = fun s => s.id := by
      funext s
      simp only [Function.comp_apply]
      split <;> rfl
    rw [heq]
    exact hids
  · apply List.Nodup.map_on _ hnd
    intro x hx y hy hxy
    simp only [Function.comp_apply] at hxy
    by_cases hxi : x.id = id
    · by_cases hyi : y.id = id
      · exact List.inj_on_of_nodup_map hids hx hy (hxi.trans hyi.symm)
      · exfalso
        have hxb : (x.id == id) = true := by simp [hxi]
        have hyb : ¬ (y.id == id) = true := by simp [hyi]
        rw [if_pos hxb, if_neg hyb] at hxy
        apply hnone y hy
        have ht : y.tuple = (tahun, direktorat, subdirektorat, divisi) := hxy.symm
        have := (tuple_eq_iff y tahun direktorat subdirektorat divisi).2 ht
        simp only [Bool.and_eq_true, bne_iff_ne, ne_eq]
        exact ⟨by simpa using this, hyi⟩
    · by_cases hyi : y.id = id
      · exfalso
        have hxb : ¬ (x.id == id) = true := by simp [hxi]
        have hyb : (y.id == id) = true := by simp [hyi]
        rw [if_neg hxb, if_pos hyb] at hxy
        apply hnone x hx
        have ht : x.tuple = (tahun, direktorat, subdirektorat, divisi) := hxy
        have := (tuple_eq_iff x tahun direktorat subdirektorat divisi).2 ht
        simp only [Bool.and_eq_true, bne_iff_ne, ne_eq]
        exact ⟨by simpa using this, hxi⟩
      · have hxb : ¬ (x.id == id) = true := by simp [hxi]
        have hyb : ¬ (y.id == id) = true := by simp [hyi]
        rw [if_neg hxb, if_neg hyb] at hxy
        exact List.inj_on_of_nodup_map htup hx hy hxy

theorem unique_filter_struktur (st : Store) (id : Int)
    (hids : st.UniqueStrukturIds) (htup : st.UniqueStrukturTuples) :
    Store.UniqueStrukturIds
      { st with strukturs := st.strukturs.filter (fun s => !(s.id == id)) } ∧
    Store.UniqueStrukturTuples
      { st with strukturs := st.strukturs.filter (fun s => !(s.id == id)) } := by
  unfold Store.UniqueStrukturIds Store.UniqueStrukturTuples at *
  dsimp only
  exact ⟨hids.sublist (List.Sublist.map _ (List.filter_sublist _)),
    htup.sublist (List.Sublist.map _ (List.filter_sublist _))⟩

theorem requireAdmin_strukturs (user : Identity) (st : Store) (next : Store × Response)
    (h : next.1.strukturs = st.strukturs) :
    (requireAdmin user st next).1.strukturs = st.strukturs := by
  rcases requireAdmin_cases user st next with e | e
  · rw [e]
  · rw [e]; exact h

theorem requireAdmin_assignments (user : Identity) (st : Store) (next : Store × Response)
    (h : next.1.assignments = st.assignments) :
    (requireAdmin user st next).1.assignments = st.assignments := by
  rcases requireAdmin_cases user st next with e | e
  · rw [e]
  · rw [e]; exact h

theorem handle_strukturs_unchanged (st : Store) (user : Identity) (req : Request)
    (hreq : ∀ body gen, req ≠ .postStruktur body gen)
    (hput : ∀ id body, req ≠ .putStruktur id body)
    (hdel : ∀ id, req ≠ .deleteStruktur id) :
    (handle st user req).1.strukturs = st.strukturs := by
  cases req with
  | postChecklist body gen =>
    apply requireAdmin_strukturs
    rcases postChecklistHandler_cases st body gen with e | ⟨row, e⟩ <;> rw [e]
  | putChecklist id body =>
    apply requireAdmin_strukturs
    rcases putChecklistHandler_cases st id body with e | ⟨i, t, _, _, e⟩ <;> rw [e]
  | deleteChecklist id =>
    apply requireAdmin_strukturs
    rcases deleteChecklistHandler_cases st id with e | ⟨i, _, e⟩ <;> rw [e]
  | postStruktur body gen => exact absurd rfl (hreq body gen)
  | putStruktur id body => exact absurd rfl (hput id body)
  | deleteStruktur id => exact absurd rfl (hdel id)
  | postAssignment body gen =>
    apply requireAdmin_strukturs
    rcases postAssignmentHandler_cases st user body gen with e | ⟨a, c, s2, _, _, _, e⟩ <;>
      rw [e]
  | putAssignment id body =>
    apply requireAdmin_strukturs
    rcases putAssignmentHandler_cases st id body with e | ⟨i, f, e, _⟩ <;> rw [e]
    rfl
  | deleteAssignment id =>
    apply requireAdmin_strukturs
    rcases deleteAssignmentHandler_cases st id with e | ⟨i, e⟩ <;> rw [e]
  | patchAssignmentStatus id status =>
    show (patchAssignmentStatus st user id status).1.strukturs = st.strukturs
    rcases patchAssignmentStatus_cases st user id status with e | ⟨i, f, e, _⟩ <;> rw [e]
    rfl

/-- Every request keeps unit ids and unit tuples unique, provided a created
unit gets an unused id. -/
theorem handle_unique_struktur (st : Store) (user : Identity) (req : Request)
    (hids : st.UniqueStrukturIds) (htup : st.UniqueStrukturTuples)
    (hfresh : req.freshStrukturId st) :
    (handle st user req).1.UniqueStrukturIds ∧ (handle st user req).1.UniqueStrukturTuples := by
  have hother : (handle st user req).1.strukturs = st.strukturs →
      (handle st user req).1.UniqueStrukturIds ∧
        (handle st user req).1.UniqueStrukturTuples := by
    intro e
    unfold Store.UniqueStrukturIds Store.UniqueStrukturTuples
    rw [e]
    exact ⟨hids, htup⟩
  cases req with
  | postStruktur body gen =>
    show (postStruktur st user body gen).1.UniqueStrukturIds ∧
      (postStruktur st user body gen).1.UniqueStrukturTuples
    unfold postStruktur
    rcases requireAdmin_cases user st (postStrukturHandler st body gen) with e | e
    · exact hother (congrArg Store.strukturs e)
    · rw [e]
      rcases postStrukturHandler_created st body gen with e2 | ⟨tahun, hnone, e2⟩
      · rw [e2]; exact ⟨hids, htup⟩
      · rw [e2]
        exact unique_append_struktur st _ hids htup hfresh hnone
  | putStruktur id body =>
    show (putStruktur st user id body).1.UniqueStrukturIds ∧
      (putStruktur st user id body).1.UniqueStrukturTuples
    unfold putStruktur
    rcases requireAdmin_cases user st (putStrukturHandler st id body) with e | e
    · exact hother (congrArg Store.strukturs e)
    · rw [e]
      rcases putStrukturHandler_updated st id body with e2 | ⟨i, tahun, hnone, e2⟩
      · rw [e2]; exact ⟨hids, htup⟩
      · rw [e2]
        exact unique_map_struktur st i tahun _ _ _ hids htup hnone
  | deleteStruktur id =>
    show (deleteStruktur st user id).1.UniqueStrukturIds ∧
      (deleteStruktur st user id).1.UniqueStrukturTuples
    unfold deleteStruktur
    rcases requireAdmin_cases user st (deleteStrukturHandler st id) with e | e
    · exact hother (congrArg Store.strukturs e)
    · rw [e]
      rcases deleteStrukturHandler_cases st id with e2 | ⟨i, _, e2⟩
      · rw [e2]; exact ⟨hids, htup⟩
      · rw [e2]
        exact unique_filter_struktur st i hids htup
  | postChecklist body gen =>
    exact hother (handle_strukturs_unchanged st user _ (by simp) (by simp) (by simp))
  | putChecklist id body =>
    exact hother (handle_strukturs_unchanged st user _ (by simp) (by simp) (by simp))
  | deleteChecklist id =>
    exact hother (handle_strukturs_unchanged st user _ (by simp) (by simp) (by simp))
  | postAssignment body gen =>
    exact hother (handle_strukturs_unchanged st user _ (by simp) (by simp) (by simp))
  | putAssignment id body =>
    exact hother (handle_strukturs_unchanged st user _ (by simp) (by simp) (by simp))
  | deleteAssignment id =>
    exact hother (handle_strukturs_unchanged st user _ (by simp) (by simp) (by simp))
  | patchAssignmentStatus id status =>
    exact hother (handle_strukturs_unchanged st user _ (by simp) (by simp) (by simp))

theorem handle_noEmptyDivisi (st : Store) (user : Identity) (req : Request)
    (h : st.NoEmptyDivisi) : (handle st user req).1.NoEmptyDivisi := by
  have hother : (handle st user req).1.strukturs = st.strukturs →
      (handle st user req).1.NoEmptyDivisi := by
    intro e
    unfold Store.NoEmptyDivisi
    rw [e]
    exact h
  cases req with
  | postStruktur body gen => exact postStruktur_noEmptyDivisi st user body gen h
  | putStruktur id body => exact putStruktur_noEmptyDivisi st user id body h
  | deleteStruktur id =>
    show (deleteStruktur st user id).1.NoEmptyDivisi
    unfold deleteStruktur
    rcases requireAdmin_cases user st (deleteStrukturHandler st id) with e | e
    · rw [e]; exact h
    · rw [e]
      rcases deleteStrukturHandler_cases st id with e2 | ⟨i, _, e2⟩
      · rw [e2]; exact h
      · rw [e2]
        intro s hs
        exact h s (List.mem_filter.1 hs).1
  | postChecklist body gen =>
    exact hother (handle_strukturs_unchanged st user _ (by simp) (by simp) (by simp))
  | putChecklist id body =>
    exact hother (handle_strukturs_unchanged st user _ (by simp) (by simp) (by simp))
  | deleteChecklist id =>
    exact hother (handle_strukturs_unchanged st user _ (by simp) (by simp) (by simp))
  | postAssignment body gen =>
    exact hother (handle_strukturs_unchanged st user _ (by simp) (by simp) (by simp))
  | putAssignment id body =>
    exact hother (handle_strukturs_unchanged st user _ (by simp) (by simp) (by simp))
  | deleteAssignment id =>
    exact hother (handle_strukturs_unchanged st user _ (by simp) (by simp) (by simp))
  | patchAssignmentStatus id status =>
    exact hother (handle_strukturs_unchanged st user _ (by simp) (by simp) (by simp))

theorem runRequests_unique_struktur (reqs : List (Identity × Request)) :
    ∀ st : Store, st.UniqueStrukturIds → st.UniqueStrukturTuples → st.NoEmptyDivisi →
      FreshStrukturIds st reqs →
      (runRequests st reqs).UniqueStrukturIds ∧ (runRequests st reqs).UniqueStrukturTuples ∧
        (runRequests st reqs).NoEmptyDivisi := by
  induction reqs with
  | nil => intro st h1 h2 h3 _; exact ⟨h1, h2, h3⟩
  | cons r rest ih =>
    intro st h1 h2 h3 hf
    obtain ⟨user, req⟩ := r
    have hstep := handle_unique_struktur st user req h1 h2 hf.1
    exact ih _ hstep.1 hstep.2 (handle_noEmptyDivisi st user req h3) hf.2

theorem orNull_of_ne_empty (d : Option String) (h : d ≠ some "") : orNull d = d := by
  unfold orNull
  cases d with
  | none => simp [truthyStr]
  | some v =>
    have hv : v ≠ "" := fun e => h (by rw [e])
    simp [truthyStr, hv]

theorem postStruktur_duplicate (st : Store) (user : Identity) (body : StrukturBody)
    (gen : Generated) (tahun : Int) (s : StrukturPerusahaan)
    (hparse : body.tahun.parseInt = some tahun) (hs : s ∈ st.strukturs)
    (htuple : s.tuple =
      (tahun, body.direktorat.getD "", body.subdirektorat.getD "", orNull body.divisi)) :
    (postStruktur st user body gen).1 = st ∧
    ((postStruktur st user body gen).2.status = 400 ∨
     (postStruktur st user body gen).2.status = 403) := by
  have hsome : (st.strukturs.find? (fun s =>
      s.tahun == tahun && s.direktorat == body.direktorat.getD "" &&
      s.subdirektorat == body.subdirektorat.getD "" &&
      s.divisi == orNull body.divisi)).isSome = true := by
    rw [List.find?_isSome]
    exact ⟨s, hs, (tuple_eq_iff s _ _ _ _).2 htuple⟩
  obtain ⟨x, hx⟩ := Option.isSome_iff_exists.1 hsome
  unfold postStruktur requireAdmin postStrukturHandler
  simp only [hparse, hx]
  repeat' split
  all_goals first
    | exact ⟨rfl, Or.inl rfl⟩
    | exact ⟨rfl, Or.inr rfl⟩

theorem putStruktur_duplicate (st : Store) (user : Identity) (id : Int) (body : StrukturBody)
    (tahun : Int) (s : StrukturPerusahaan)
    (hparse : body.tahun.parseInt = some tahun) (hs : s ∈ st.strukturs) (hid : s.id ≠ id)
    (htuple : s.tuple =
      (tahun, body.direktorat.getD "", body.subdirektorat.getD "", orNull body.divisi)) :
    (putStruktur st user (some id) body).1 = st ∧
    ((putStruktur st user (some id) body).2.status = 400 ∨
     (putStruktur st user (some id) body).2.status = 403 ∨
     (putStruktur st user (some id) body).2.status = 404) := by
  have hsome : (st.strukturs.find? (fun s =>
      s.tahun == tahun && s.direktorat == body.direktorat.getD "" &&
      s.subdirektorat == body.subdirektorat.getD "" &&
      s.divisi == orNull body.divisi && s.id != id)).isSome = true := by
    rw [List.find?_isSome]
    refine ⟨s, hs, ?_⟩
    have := (tuple_eq_iff s _ _ _ _).2 htuple
    simp only [Bool.and_eq_true, bne_iff_ne, ne_eq]
    exact ⟨by simpa using this, hid⟩
  obtain ⟨x, hx⟩ := Option.isSome_iff_exists.1 hsome
  unfold putStruktur requireAdmin putStrukturHandler
  simp only [hparse, hx]
  repeat' split
  all_goals first
    | exact ⟨rfl, Or.inl rfl⟩
    | exact ⟨rfl, Or.inr (Or.inl rfl)⟩
    | exact ⟨rfl, Or.inr (Or.inr rfl)⟩

theorem putStruktur_own_tuple (st : Store) (user : Identity) (id : Int)
    (s : StrukturPerusahaan) (y : Year) (tahun : JsArg)
    (hadmin : user.role = "ADMIN") (htup : st.UniqueStrukturTuples)
    (hfind : st.findStruktur id = some s)
    (hdir : s.direktorat ≠ "") (hsub : s.subdirektorat ≠ "") (hdiv : s.divisi ≠ some "")
    (htruthy : tahun.truthy = true) (hnan : tahun.isNaN = false)
    (hparse : tahun.parseInt = some s.tahun) (hyear : st.findYear s.tahun = some y) :
    (putStruktur st user (some id)
      { tahun := tahun, direktorat := some s.direktorat,
        subdirektorat := some s.subdirektorat, divisi := s.divisi }).2.status = 200 := by
  have hsid : s.id = id := by
    have := List.find?_some hfind
    simpa using this
  have hsmem : s ∈ st.strukturs := List.mem_of_find?_eq_some hfind
  have hnone : st.strukturs.find? (fun x =>
      x.tahun == s.tahun && x.direktorat == s.direktorat &&
      x.subdirektorat == s.subdirektorat && x.divisi == s.divisi && x.id != id) = none := by
    rw [List.find?_eq_none]
    intro x hx hcon
    simp only [Bool.and_eq_true, bne_iff_ne, ne_eq] at hcon
    obtain ⟨ht, hne⟩ := hcon
    have hxt : x.tuple = s.tuple := by
      have := (tuple_eq_iff x s.tahun s.direktorat s.subdirektorat s.divisi).1
        (by simpa using ht)
      exact this
    have hxs : x = s := List.inj_on_of_nodup_map htup hx hsmem hxt
    exact hne (by rw [hxs]; exact hsid)
  have hd : truthyStr (some s.direktorat) = true := by simp [truthyStr, hdir]
  have hsb : truthyStr (some s.subdirektorat) = true := by simp [truthyStr, hsub]
  unfold putStruktur requireAdmin putStrukturHandler
  simp only [hadmin, ne_eq, not_true_eq_false, if_false, hfind, htruthy, hd, hsb, hnan, hparse,
    hyear, Bool.not_true, Bool.or_self, Bool.false_eq_true, Option.getD_some,
    orNull_of_ne_empty s.divisi hdiv, hnone]

/-- C13: every sequence of requests served one at a time keeps the tuples
(year, directorate, sub-directorate, division) of the organizational units
pairwise different and stores no empty division, given that each created unit
gets an unused id; a create or an update whose tuple is already taken by
another unit is answered with a client error and changes nothing; and an
update that keeps the own tuple of the unit is accepted. -/
theorem struktur_tuples_unique (st : Store) (user : Identity) :
    (∀ reqs : List (Identity × Request),
      st.UniqueStrukturIds → st.UniqueStrukturTuples → st.NoEmptyDivisi →
      FreshStrukturIds st reqs →
      (runRequests st reqs).UniqueStrukturTuples ∧ (runRequests st reqs).NoEmptyDivisi) ∧
    (∀ (body : StrukturBody) (gen : Generated) (tahun : Int) (s : StrukturPerusahaan),
      body.tahun.parseInt = some tahun → s ∈ st.strukturs →
      s.tuple = (tahun, body.direktorat.getD "", body.subdirektorat.getD "",
        orNull body.divisi) →
      (postStruktur st user body gen).1 = st ∧
      ((postStruktur st user body gen).2.status = 400 ∨
       (postStruktur st user body gen).2.status = 403)) ∧
    (∀ (id : Int) (body : StrukturBody) (tahun : Int) (s : StrukturPerusahaan),
      body.tahun.parseInt = some tahun → s ∈ st.strukturs → s.id ≠ id →
      s.tuple = (tahun, body.direktorat.getD "", body.subdirektorat.getD "",
        orNull body.divisi) →
      (putStruktur st user (some id) body).1 = st ∧
      ((putStruktur st user (some id) body).2.status = 400 ∨
       (putStruktur st user (some id) body).2.status = 403 ∨
       (putStruktur st user (some id) body).2.status = 404)) ∧
    (∀ (id : Int) (s : StrukturPerusahaan) (y : Year) (tahun : JsArg),
      user.role = "ADMIN" → st.UniqueStrukturTuples → st.findStruktur id = some s →
      s.direktorat ≠ "" → s.subdirektorat ≠ "" → s.divisi ≠ some "" →
      tahun.truthy = true → tahun.isNaN = false → tahun.parseInt = some s.tahun →
      st.findYear s.tahun = some y →
      (putStruktur st user (some id)
        { tahun := tahun, direktorat := some s.direktorat,
          subdirektorat := some s.subdirektorat, divisi := s.divisi }).2.status = 200) :=
  ⟨fun reqs h1 h2 h3 hf => (runRequests_unique_struktur reqs st h1 h2 h3 hf).2,
   fun body gen tahun s hp hs ht => postStruktur_duplicate st user body gen tahun s hp hs ht,
   fun id body tahun s hp hs hid ht => putStruktur_duplicate st user id body tahun s hp hs hid ht,
   fun id s y tahun hadmin htup hfind hdir hsub hdiv htr hnan hp hy =>
     putStruktur_own_tuple st user id s y tahun hadmin htup hfind hdir hsub hdiv htr hnan hp hy⟩

/-- Witness for C13 on the sample store: after a new unit and an update the
tuples are still pairwise different; a second unit (2024, Dir X, SubDir Y, no
division) is refused; unit 2 may be updated to its own tuple. -/
theorem struktur_tuples_unique_witness :
    ((runRequests demoStore
        [(adminUser.identity, Request.postStruktur
            { tahun := JsArg.ofInt 2024, direktorat := some "Dir X",
              subdirektorat := some "SubDir Q", divisi := some "" } demoGen),
         (adminUser.identity, Request.putStruktur (some 2)
            { tahun := JsArg.ofInt 2024, direktorat := some "Dir X",
              subdirektorat := some "SubDir Y", divisi := none })]).UniqueStrukturTuples ∧
     (runRequests demoStore
        [(adminUser.identity, Request.postStruktur
            { tahun := JsArg.ofInt 2024, direktorat := some "Dir X",
              subdirektorat := some "SubDir Q", divisi := some "" } demoGen),
         (adminUser.identity, Request.putStruktur (some 2)
            { tahun := JsArg.ofInt 2024, direktorat := some "Dir X",
              subdirektorat := some "SubDir Y", divisi := none })]).NoEmptyDivisi) ∧
    ((postStruktur demoStore adminUser.identity
        { tahun := JsArg.ofInt 2024, direktorat := some "Dir X",
          subdirektorat := some "SubDir Y", divisi := some "" } demoGen).1 = demoStore ∧
     ((postStruktur demoStore adminUser.identity
        { tahun := JsArg.ofInt 2024, direktorat := some "Dir X",
          subdirektorat := some "SubDir Y", divisi := some "" } demoGen).2.status = 400 ∨
      (postStruktur demoStore adminUser.identity
        { tahun := JsArg.ofInt 2024, direktorat := some "Dir X",
          subdirektorat := some "SubDir Y", divisi := some "" } demoGen).2.status = 403)) ∧
    (putStruktur demoStore adminUser.identity (some 2)
      { tahun := JsArg.ofInt 2024, direktorat := some "Dir X",
        subdirektorat := some "SubDir Z", divisi := some "Div A" }).2.status = 200 :=
  ⟨(struktur_tuples_unique demoStore adminUser.identity).1 _
      (by unfold Store.UniqueStrukturIds; decide)
      (by unfold Store.UniqueStrukturTuples; decide)
      (by unfold Store.NoEmptyDivisi; decide)
      ⟨by
        show demoGen.id ∉ demoStore.strukturs.map (fun s => s.id)
        decide, trivial, trivial⟩,
   (struktur_tuples_unique demoStore adminUser.identity).2.1
      { tahun := JsArg.ofInt 2024, direktorat := some "Dir X",
        subdirektorat := some "SubDir Y", divisi := some "" } demoGen 2024
      { id := 1, tahun := 2024, direktorat := "Dir X", subdirektorat := "SubDir Y",
        divisi := none }
      (by decide) (by decide) (by decide),
   (struktur_tuples_unique demoStore adminUser.identity).2.2.2 2
      { id := 2, tahun := 2024, direktorat := "Dir X", subdirektorat := "SubDir Z",
        divisi := some "Div A" }
      { tahun := 2024, nama := "Tahun Buku 2024", deskripsi := "Tahun buku 2024",
        isActive := true }
      (JsArg.ofInt 2024)
      (by decide) (by unfold Store.UniqueStrukturTuples; decide) (by decide) (by decide)
      (by decide) (by decide) (by decide) (by decide) (by decide) (by decide)⟩

/-! ### Uniqueness of assignments -/

theorem postAssignmentHandler_created (st : Store) (user : Identity)
    (body : AssignmentCreateBody) (gen : Generated) :
    (postAssignmentHandler st user body gen).1 = st ∨
    ∃ a, st.assignments.find?
        (fun x => x.checklistId == a.checklistId && x.strukturId == a.strukturId) = none ∧
      (postAssignmentHandler st user body gen).1 =
        { st with assignments := st.assignments ++ [a] } := by
  unfold postAssignmentHandler
  repeat' split
  all_goals first
    | exact Or.inl rfl
    | exact Or.inr ⟨_, by assumption, rfl⟩

theorem updateAssignment_links (st : Store) (id : Int) (f : Assignment → Assignment)
    (hid : ∀ a, (f a).id = a.id)
    (hf : ∀ a, (f a).checklistId = a.checklistId ∧ (f a).strukturId = a.strukturId) :
    (st.updateAssignment id f).assignmentLinks = st.assignmentLinks := by
  unfold Store.updateAssignment Store.assignmentLinks
  dsimp only
  rw [List.map_map]
  apply List.map_congr_left
  intro a _
  simp only [Function.comp_apply]
  split
  · rw [hid, (hf a).1, (hf a).2]
  · rfl

theorem pairs_of_links (st st2 : Store) (h : st2.assignmentLinks = st.assignmentLinks) :
    st2.assignments.map (fun a => a.pair) = st.assignments.map (fun a => a.pair) := by
  have h2 := congrArg (List.map (fun t : Int × Int × Int => (t.2.1, t.2.2))) h
  unfold Store.assignmentLinks at h2
  rw [List.map_map, List.map_map] at h2
  exact h2

theorem putAssignmentHandler_links (st : Store) (assignmentId : Option Int)
    (body : AssignmentUpdateBody) :
    (putAssignmentHandler st assignmentId body).1.assignmentLinks = st.assignmentLinks := by
  unfold putAssignmentHandler
  repeat' split
  all_goals first
    | rfl
    | exact updateAssignment_links st _ _ (fun _ => rfl) (fun _ => ⟨rfl, rfl⟩)

theorem patchAssignmentStatus_links (st : Store) (user : Identity)
    (assignmentId : Option Int) (status : Option String) :
    (patchAssignmentStatus st user assignmentId status).1.assignmentLinks =
      st.assignmentLinks := by
  unfold patchAssignmentStatus
  repeat' split
  all_goals try dsimp only
  all_goals repeat' split
  all_goals first
    | rfl
    | exact updateAssignment_links st _ _ (fun _ => rfl) (fun _ => ⟨rfl, rfl⟩)

theorem handle_unique_pairs (st : Store) (user : Identity) (req : Request)
    (h : st.UniqueAssignmentPairs) : (handle st user req).1.UniqueAssignmentPairs := by
  have hother : (handle st user req).1.assignments = st.assignments →
      (handle st user req).1.UniqueAssignmentPairs := by
    intro e
    unfold Store.UniqueAssignmentPairs
    rw [e]
    exact h
  have hlinks : (handle st user req).1.assignmentLinks = st.assignmentLinks →
      (handle st user req).1.UniqueAssignmentPairs := by
    intro e
    unfold Store.UniqueAssignmentPairs
    rw [pairs_of_links st _ e]
    exact h
  cases req with
  | postChecklist body gen =>
    apply hother
    apply requireAdmin_assignments
    rcases postChecklistHandler_cases st body gen with e | ⟨row, e⟩ <;> rw [e]
  | putChecklist id body =>
    apply hother
    apply requireAdmin_assignments
    rcases putChecklistHandler_cases st id body with e | ⟨i, t, _, _, e⟩ <;> rw [e]
  | deleteChecklist id =>
    apply hother
    apply requireAdmin_assignments
    rcases deleteChecklistHandler_cases st id with e | ⟨i, _, e⟩ <;> rw [e]
  | postStruktur body gen =>
    apply hother
    apply requireAdmin_assignments
    rcases postStrukturHandler_cases st body gen with e | ⟨t, e⟩ <;> rw [e]
  | putStruktur id body =>
    apply hother
    apply requireAdmin_assignments
    rcases putStrukturHandler_cases st id body with e | ⟨i, t, e⟩ <;> rw [e]
  | deleteStruktur id =>
    apply hother
    apply requireAdmin_assignments
    rcases deleteStrukturHandler_cases st id with e | ⟨i, _, e⟩ <;> rw [e]
  | postAssignment body gen =>
    show (postAssignment st user body gen).1.UniqueAssignmentPairs
    unfold postAssignment
    rcases requireAdmin_cases user st (postAssignmentHandler st user body gen) with e | e
    · unfold Store.UniqueAssignmentPairs
      rw [e]; exact h
    · rw [e]
      rcases postAssignmentHandler_created st user body gen with e2 | ⟨a, hnone, e2⟩
      · rw [e2]; exact h
      · rw [e2]
        unfold Store.UniqueAssignmentPairs at h ⊢
        dsimp only
        rw [List.map_append, List.nodup_append]
        refine ⟨h, by simp, ?_⟩
        intro p hp1 hp2
        rw [List.map_singleton, List.mem_singleton] at hp2
        obtain ⟨x, hx, hxp⟩ := List.mem_map.1 hp1
        rw [List.find?_eq_none] at hnone
        apply hnone x hx
        have hpair : x.pair = a.pair := hxp.trans hp2
        have h1 : x.checklistId = a.checklistId := congrArg Prod.fst hpair
        have h2 : x.strukturId = a.strukturId := congrArg Prod.snd hpair
        simp [h1, h2]
  | putAssignment id body =>
    show (putAssignment st user id body).1.UniqueAssignmentPairs
    unfold putAssignment
    rcases requireAdmin_cases user st (putAssignmentHandler st id body) with e | e
    · unfold Store.UniqueAssignmentPairs
      rw [e]; exact h
    · rw [e]
      unfold Store.UniqueAssignmentPairs
      rw [pairs_of_links st _ (putAssignmentHandler_links st id body)]
      exact h
  | deleteAssignment id =>
    show (deleteAssignment st user id).1.UniqueAssignmentPairs
    unfold deleteAssignment
    rcases requireAdmin_cases user st (deleteAssignmentHandler st id) with e | e
    · unfold Store.UniqueAssignmentPairs
      rw [e]; exact h
    · rw [e]
      rcases deleteAssignmentHandler_cases st id with e2 | ⟨i, e2⟩
      · rw [e2]; exact h
      · rw [e2]
        unfold Store.UniqueAssignmentPairs at h ⊢
        exact h.sublist (List.Sublist.map _ (List.filter_sublist _))
  | patchAssignmentStatus id status =>
    exact hlinks (patchAssignmentStatus_links st user id status)

theorem runRequests_unique_pairs (reqs : List (Identity × Request)) :
    ∀ st : Store, st.UniqueAssignmentPairs → (runRequests st reqs).UniqueAssignmentPairs := by
  induction reqs with
  | nil => intro st h; exact h
  | cons r rest ih =>
    intro st h
    obtain ⟨user, req⟩ := r
    exact ih _ (handle_unique_pairs st user req h)

theorem postAssignment_duplicate (st : Store) (user : Identity) (body : AssignmentCreateBody)
    (gen : Generated) (checklistId strukturId : Int) (a : Assignment)
    (hc : body.checklistId.parseInt = some checklistId)
    (hs : body.strukturId.parseInt = some strukturId)
    (ha : a ∈ st.assignments) (hpair : a.pair = (checklistId, strukturId)) :
    (postAssignment st user body gen).1 = st ∧
    ((postAssignment st user body gen).2.status = 400 ∨
     (postAssignment st user body gen).2.status = 403) := by
  have hsome : (st.assignments.find?
      (fun x => x.checklistId == checklistId && x.strukturId == strukturId)).isSome = true := by
    rw [List.find?_isSome]
    have h1 : a.checklistId = checklistId := congrArg Prod.fst hpair
    have h2 : a.strukturId = strukturId := congrArg Prod.snd hpair
    exact ⟨a, ha, by simp [h1, h2]⟩
  obtain ⟨x, hx⟩ := Option.isSome_iff_exists.1 hsome
  unfold postAssignment requireAdmin postAssignmentHandler
  simp only [hc, hs, hx]
  repeat' split
  all_goals first
    | exact ⟨rfl, Or.inl rfl⟩
    | exact ⟨rfl, Or.inr rfl⟩

/-- C14: every sequence of requests served one at a time keeps the pairs
(checklist item id, unit id) of the assignments pairwise different; creating
an assignment for a pair that exists is answered with a client error and adds
no row; and neither the update nor the status route changes the id, the
checklist item id or the unit id of any assignment. -/
theorem assignment_pairs_unique (st : Store) (user : Identity) :
    (∀ reqs : List (Identity × Request),
      st.UniqueAssignmentPairs → (runRequests st reqs).UniqueAssignmentPairs) ∧
    (∀ (body : AssignmentCreateBody) (gen : Generated) (checklistId strukturId : Int)
        (a : Assignment),
      body.checklistId.parseInt = some checklistId →
      body.strukturId.parseInt = some strukturId →
      a ∈ st.assignments → a.pair = (checklistId, strukturId) →
      (postAssignment st user body gen).1 = st ∧
      ((postAssignment st user body gen).2.status = 400 ∨
       (postAssignment st user body gen).2.status = 403)) ∧
    (∀ (assignmentId : Option Int) (body : AssignmentUpdateBody),
      (putAssignment st user assignmentId body).1.assignmentLinks = st.assignmentLinks) ∧
    (∀ (assignmentId : Option Int) (status : Option String),
      (patchAssignmentStatus st user assignmentId status).1.assignmentLinks =
        st.assignmentLinks) := by
  refine ⟨fun reqs h => runRequests_unique_pairs reqs st h,
    fun body gen c s a hc hs ha hp => postAssignment_duplicate st user body gen c s a hc hs ha hp,
    fun assignmentId body => ?_,
    fun assignmentId status => patchAssignmentStatus_links st user assignmentId status⟩
  unfold putAssignment
  rcases requireAdmin_cases user st (putAssignmentHandler st assignmentId body) with e | e
  · unfold Store.assignmentLinks
    rw [e]
  · rw [e]
    exact putAssignmentHandler_links st assignmentId body

/-- Witness for C14 on the sample store: after a status change and a new
assignment the pairs are still pairwise different, and a second assignment of
checklist item 1 to unit 1 is refused. -/
theorem assignment_pairs_unique_witness :
    (runRequests demoStore
      [(budiUser.identity, Request.patchAssignmentStatus (some 1) (some "COMPLETED")),
       (adminUser.identity, Request.postAssignment
          { checklistId := JsArg.ofInt 2, strukturId := JsArg.ofInt 1, dueDate := none,
            notes := none } demoGen)]).UniqueAssignmentPairs ∧
    ((postAssignment demoStore adminUser.identity
        { checklistId := JsArg.ofInt 1, strukturId := JsArg.ofInt 1, dueDate := none,
          notes := none } demoGen).1 = demoStore ∧
     ((postAssignment demoStore adminUser.identity
        { checklistId := JsArg.ofInt 1, strukturId := JsArg.ofInt 1, dueDate := none,
          notes := none } demoGen).2.status = 400 ∨
      (postAssignment demoStore adminUser.identity
        { checklistId := JsArg.ofInt 1, strukturId := JsArg.ofInt 1, dueDate := none,
          notes := none } demoGen).2.status = 403)) :=
  ⟨(assignment_pairs_unique demoStore adminUser.identity).1 _
      (by unfold Store.UniqueAssignmentPairs; decide),
   (assignment_pairs_unique demoStore adminUser.identity).2.1
      { checklistId := JsArg.ofInt 1, strukturId := JsArg.ofInt 1, dueDate := none,
        notes := none } demoGen 1 1
      { id := 1, checklistId := 1, strukturId := 1, assignedBy := 1, status := "PENDING",
        dueDate := none, notes := none, assignedAt := 1700000000000 }
      (by decide) (by decide) (by decide) (by decide)⟩

/-! ### Deleting a file record -/

/-- C15: on an existing file record, `DELETE /api/files/:id` answers 403
exactly when the caller is neither `ADMIN` nor the uploader, and then neither
the rows nor the stored contents change; every other caller gets 200 and the
record is removed. -/
theorem deleteFile_permission (st : Store) (user : Identity) (id : Int) (f : FileUpload)
    (owner : User) (unlinkThrows : Bool) (hf : st.findFile id = some f)
    (ho : st.findUser f.uploadedBy = some owner) :
    ((deleteFile st user (some id) unlinkThrows).2.status = 403 ↔
      (user.role ≠ "ADMIN" ∧ user.id ≠ f.uploadedBy)) ∧
    ((user.role ≠ "ADMIN" ∧ user.id ≠ f.uploadedBy) →
      deleteFile st user (some id) unlinkThrows =
        (st, { status := 403,
               message := "Access denied. You can only delete your own files." })) ∧
    (¬ (user.role ≠ "ADMIN" ∧ user.id ≠ f.uploadedBy) →
      (deleteFile st user (some id) unlinkThrows).2.status = 200 ∧
      (deleteFile st user (some id) unlinkThrows).1.findFile id = none) := by
  have hoid : owner.id = f.uploadedBy := by
    have := List.find?_some ho
    simpa using this
  have hdenied : (user.role ≠ "ADMIN" ∧ user.id ≠ f.uploadedBy) →
      deleteFile st user (some id) unlinkThrows =
        (st, { status := 403,
               message := "Access denied. You can only delete your own files." }) := by
    intro h
    have h2 : user.role ≠ "ADMIN" ∧ user.id ≠ owner.id := by rw [hoid]; exact h
    have hd : deleteDenied st user f = some true := by
      simp [deleteDenied, ho, h2.1, h2.2]
    unfold deleteFile deleteFileRequest
    simp only [hf, hd]
  have hallowed : ¬ (user.role ≠ "ADMIN" ∧ user.id ≠ f.uploadedBy) →
      deleteFile st user (some id) unlinkThrows =
        ({ st with
            disk := if f.filePath ∈ st.disk ∧ unlinkThrows = false then
                st.disk.filter (fun path => !(path == f.filePath))
              else st.disk,
            fileUploads := st.fileUploads.filter (fun g => !(g.id == id)) },
         { status := 200, message := "File deleted successfully" }) := by
    intro h
    have h2 : ¬ (user.role ≠ "ADMIN" ∧ user.id ≠ owner.id) := by rw [hoid]; exact h
    have hd : deleteDenied st user f = some false := by
      by_cases hr : user.role ≠ "ADMIN"
      · have hid : user.id = owner.id := by
          by_contra hne
          exact h2 ⟨hr, hne⟩
        simp [deleteDenied, hr, ho, hid]
      · simp [deleteDenied, hr]
    unfold deleteFile deleteFileRequest
    simp only [hf, hd, Bool.false_eq_true, if_false]
  refine ⟨⟨fun h403 => ?_, fun h => by rw [hdenied h]⟩, hdenied, fun h => ?_⟩
  · by_contra hcon
    rw [hallowed hcon] at h403
    simp at h403
  · rw [hallowed h]
    exact ⟨rfl, find?_filter_not (fun g : FileUpload => g.id == id) st.fileUploads⟩

/-- Witness for C15 on the sample store: Budi may not delete the file record
of Citra, and Citra may delete her own. -/
theorem deleteFile_permission_witness :
    deleteFile demoStore budiUser.identity (some 1) false =
      (demoStore, { status := 403,
                    message := "Access denied. You can only delete your own files." }) ∧
    ((deleteFile demoStore citraUser.identity (some 1) false).2.status = 200 ∧
     (deleteFile demoStore citraUser.identity (some 1) false).1.findFile 1 = none) :=
  ⟨(deleteFile_permission demoStore budiUser.identity 1
      { id := 1, fileName := "file-1.pdf", originalName := "pedoman.pdf",
        filePath := "uploads/file-1.pdf", fileSize := 1024, mimeType := "application/pdf",
        checklistId := 1, tahun := 2024, uploadedBy := 3, uploadDate := 1700000000002 }
      citraUser false (by decide) (by decide)).2.1 ⟨by decide, by decide⟩,
   (deleteFile_permission demoStore citraUser.identity 1
      { id := 1, fileName := "file-1.pdf", originalName := "pedoman.pdf",
        filePath := "uploads/file-1.pdf", fileSize := 1024, mimeType := "application/pdf",
        checklistId := 1, tahun := 2024, uploadedBy := 3, uploadDate := 1700000000002 }
      citraUser false (by decide) (by decide)).2.2 (by decide)⟩

/-! ### Admin-only routes -/

/-- C16: `requireAdmin` hands the request on exactly when the role is
`ADMIN`; for any other role it answers 403 whatever the handler would do, so
a request of a non-admin to an admin-only route leaves the store as it was. -/
theorem requireAdmin_guard (st : Store) (user : Identity) :
    (user.role = "ADMIN" → ∀ next : Store × Response, requireAdmin user st next = next) ∧
    (user.role ≠ "ADMIN" → ∀ next : Store × Response,
      requireAdmin user st next = (st, { status := 403, message := "Admin access required" })) ∧
    (user.role ≠ "ADMIN" → ∀ (bcrypt : Bcrypt) (req : AdminRequest),
      handleAdmin bcrypt st user req =
        (st, { status := 403, message := "Admin access required" })) := by
  refine ⟨fun h next => ?_, fun h next => ?_, fun h bcrypt req => ?_⟩
  · simp [requireAdmin, h]
  · simp [requireAdmin, h]
  · cases req <;>
      simp [handleAdmin, postYear, putYear, deleteYear, postAspect, putAspect, deleteAspect,
        postChecklist, putChecklist, deleteChecklist, postStruktur, putStruktur, deleteStruktur,
        postAssignment, putAssignment, deleteAssignment, postRegister, getUsers, deleteUser,
        requireAdmin, h]

/-- Witness for C16 on the sample store: Citra, a plain user, cannot create
the year 2027 nor delete Dewi, and the administrator creates the year. -/
theorem requireAdmin_guard_witness :
    handleAdmin demoBcrypt demoStore citraUser.identity
        (AdminRequest.postYear
          { tahun := YearArg.ofInt 2027, nama := none, deskripsi := none } true) =
      (demoStore, { status := 403, message := "Admin access required" }) ∧
    handleAdmin demoBcrypt demoStore citraUser.identity (AdminRequest.deleteUser (some 4)) =
      (demoStore, { status := 403, message := "Admin access required" }) ∧
    requireAdmin adminUser.identity demoStore
        (postYearHandler demoStore
          { tahun := YearArg.ofInt 2027, nama := none, deskripsi := none } true) =
      postYearHandler demoStore
        { tahun := YearArg.ofInt 2027, nama := none, deskripsi := none } true :=
  ⟨(requireAdmin_guard demoStore citraUser.identity).2.2 (by decide) demoBcrypt _,
   (requireAdmin_guard demoStore citraUser.identity).2.2 (by decide) demoBcrypt _,
   (requireAdmin_guard demoStore adminUser.identity).1 (by decide) _⟩

/-! ### Uploads -/

theorem invalidType_handled (maxFileSize : Nat) :
    uploadErrorMiddleware maxFileSize
        (.other "Invalid file type. Only documents and images are allowed.") =
      some { status := 400,
             message := "Invalid file type. Only documents and images are allowed." } := by
  have h : includes "Invalid file type. Only documents and images are allowed.".toList
      "Invalid file type".toList = true := by decide
  unfold uploadErrorMiddleware
  dsimp only
  rw [if_pos h]

theorem postUploadHandler_cases (st : Store) (user : Identity) (file : UploadedFile)
    (body : UploadBody) (gen : Generated) (createThrows : Bool) :
    postUploadHandler st user (some file) body gen createThrows = uploadCleanup st file ∨
    (postUploadHandler st user (some file) body gen createThrows).2.status ≠ 500 := by
  unfold postUploadHandler
  dsimp only
  repeat' split
  all_goals first
    | exact Or.inl rfl
    | exact Or.inr (by simp)

/-- C17: when the upload handler has a stored file, the request passes the
checks and `prisma.fileUpload.create` throws, the file is unlinked, no file
record is added and the answer is 500; and whenever the handler, or the whole
upload route, answers 500 the stored file is gone and the file records are as
before. -/
theorem postUpload_rollback (st : Store) (user : Identity) (file : UploadedFile)
    (body : UploadBody) (gen : Generated) :
    (∀ (checklistId : Int) (checklist : ChecklistGCG),
      body.checklistId.truthy = true → body.tahun.truthy = true →
      body.checklistId.isNaN = false → body.tahun.isNaN = false →
      body.checklistId.parseInt = some checklistId →
      st.findChecklist checklistId = some checklist →
      body.tahun.parseInt = some checklist.tahun →
      postUploadHandler st user (some file) body gen true =
        ({ st with disk := st.disk.filter (fun path => !(path == file.path)) },
         { status := 500, message := "Failed to upload file" })) ∧
    (∀ createThrows : Bool,
      (postUploadHandler st user (some file) body gen createThrows).2.status = 500 →
      file.path ∉ (postUploadHandler st user (some file) body gen createThrows).1.disk ∧
      (postUploadHandler st user (some file) body gen createThrows).1.fileUploads =
        st.fileUploads) ∧
    (∀ (part : FilePart) (env : UploadEnv),
      (postUpload st user (some part) body gen env).2.status = 500 →
      env.path ∉ (postUpload st user (some part) body gen env).1.disk ∧
      (postUpload st user (some part) body gen env).1.fileUploads = st.fileUploads) := by
  refine ⟨?_, ?_, ?_⟩
  · intro checklistId checklist h1 h2 h3 h4 h5 h6 h7
    simp [postUploadHandler, h1, h2, h3, h4, h5, h6, h7, uploadCleanup]
  rotate_left
  · intro part env h
    unfold postUpload at h ⊢
    dsimp only at h ⊢
    cases hff : fileFilter part.mimetype with
    | some message =>
      exfalso
      have hm : message = "Invalid file type. Only documents and images are allowed." := by
        unfold fileFilter at hff
        split at hff
        · cases hff
        · exact (Option.some.inj hff).symm
      rw [hff, hm] at h
      dsimp only at h
      rw [invalidType_handled] at h
      simp at h
    | none =>
      rw [hff] at h
      simp only [hff]
      by_cases hsize : part.size ≥ env.maxFileSize
      · exfalso
        rw [if_pos hsize] at h
        simp [uploadErrorMiddleware] at h
      · rw [if_neg hsize] at h ⊢
        rcases postUploadHandler_cases { st with disk := st.disk ++ [env.path] } user
          { filename := env.filename, originalname := part.originalname, path := env.path,
            size := part.size, mimetype := part.mimetype } body gen env.createThrows
          with e | e
        · rw [e]
          refine ⟨?_, rfl⟩
          unfold uploadCleanup
          intro hmem
          have := (List.mem_filter.1 hmem).2
          simp at this
        · exact absurd h e
  · intro createThrows h
    have hclean : file.path ∉ (uploadCleanup st file).1.disk ∧
        (uploadCleanup st file).1.fileUploads = st.fileUploads := by
      refine ⟨?_, rfl⟩
      unfold uploadCleanup
      intro hmem
      have := (List.mem_filter.1 hmem).2
      simp at this
    rcases postUploadHandler_cases st user file body gen createThrows with e | e
    · rw [e]; exact hclean
    · exact absurd h e

/-- Witness for C17 on the sample store: the file `uploads/file-9.pdf` has
been stored for checklist item 1 of 2024 and the record creation throws. -/
theorem postUpload_rollback_witness :
    postUploadHandler { demoStore with disk := demoStore.disk ++ ["uploads/file-9.pdf"] }
        citraUser.identity
        (some { filename := "file-9.pdf", originalname := "laporan.pdf",
                path := "uploads/file-9.pdf", size := 2048, mimetype := "application/pdf" })
        { checklistId := JsArg.ofInt 1, tahun := JsArg.ofInt 2024 } demoGen true =
      ({ demoStore with
          disk := (demoStore.disk ++ ["uploads/file-9.pdf"]).filter
            (fun path => !(path == "uploads/file-9.pdf")) },
       { status := 500, message := "Failed to upload file" }) :=
  (postUpload_rollback { demoStore with disk := demoStore.disk ++ ["uploads/file-9.pdf"] }
      citraUser.identity
      { filename := "file-9.pdf", originalname := "laporan.pdf",
        path := "uploads/file-9.pdf", size := 2048, mimetype := "application/pdf" }
      { checklistId := JsArg.ofInt 1, tahun := JsArg.ofInt 2024 } demoGen).1 1
    { id := 1, aspek := "A1", deskripsi := "Pedoman", tahun := 2024 }
    (by decide) (by decide) (by decide) (by decide) (by decide) (by decide) (by decide)

/-- C18: `fileFilter` accepts a file exactly when its MIME type is one of the
nine allow-listed types; any other type is refused with the `Invalid file type`
error, which the error middleware of the router answers with 400, and the
store (file records and stored files) is as before. -/
theorem fileFilter_allow_list (mimetype : String) :
    (fileFilter mimetype = none ↔
      (mimetype = "application/pdf" ∨ mimetype = "application/msword" ∨
       mimetype = "application/vnd.openxmlformats-officedocument.wordprocessingml.document" ∨
       mimetype = "application/vnd.ms-excel" ∨
       mimetype = "application/vnd.openxmlformats-officedocument.spreadsheetml.sheet" ∨
       mimetype = "text/plain" ∨ mimetype = "image/jpeg" ∨ mimetype = "image/png" ∨
       mimetype = "image/gif")) ∧
    (fileFilter mimetype ≠ none →
      fileFilter mimetype =
        some "Invalid file type. Only documents and images are allowed." ∧
      ∀ (st : Store) (user : Identity) (part : FilePart) (body : UploadBody)
          (gen : Generated) (env : UploadEnv),
        part.mimetype = mimetype →
        postUpload st user (some part) body gen env =
          (st, { status := 400,
                 message := "Invalid file type. Only documents and images are allowed." })) := by
  have hiff : fileFilter mimetype = none ↔ mimetype ∈ allowedTypes := by
    unfold fileFilter
    split <;> simp [*]
  constructor
  · rw [hiff]
    simp [allowedTypes]
  · intro hne
    have hnot : mimetype ∉ allowedTypes := fun h => hne (hiff.2 h)
    have hrej : fileFilter mimetype =
        some "Invalid file type. Only documents and images are allowed." := by
      unfold fileFilter
      rw [if_neg hnot]
    refine ⟨hrej, ?_⟩
    intro st user part body gen env hm
    unfold postUpload
    simp only [hm, hrej, invalidType_handled, Option.getD_some]

/-- Witness for C18: a ZIP archive is refused with 400 and the sample store
is unchanged. -/
theorem fileFilter_allow_list_witness :
    fileFilter "application/zip" =
      some "Invalid file type. Only documents and images are allowed." ∧
    postUpload demoStore citraUser.identity
        (some { originalname := "arsip.zip", mimetype := "application/zip", size := 4096 })
        { checklistId := JsArg.ofInt 1, tahun := JsArg.ofInt 2024 } demoGen
        { maxFileSize := 10485760, filename := "file-9.zip", path := "uploads/file-9.zip",
          createThrows := false } =
      (demoStore, { status := 400,
                    message := "Invalid file type. Only documents and images are allowed." }) :=
  ⟨((fileFilter_allow_list "application/zip").2 (by decide)).1,
   ((fileFilter_allow_list "application/zip").2 (by decide)).2 demoStore citraUser.identity
      { originalname := "arsip.zip", mimetype := "application/zip", size := 4096 }
      { checklistId := JsArg.ofInt 1, tahun := JsArg.ofInt 2024 } demoGen
      { maxFileSize := 10485760, filename := "file-9.zip", path := "uploads/file-9.zip",
        createThrows := false } rfl⟩

/-! ### Deleting a file record: row and content -/

/-- C19 (counterexample): on the sample store the administrator deletes file
record 1 while `fs.unlinkSync` throws; the answer is 200, the row is gone and
the content `uploads/file-1.pdf` is still stored, so the deletion was not
all-or-nothing. -/
theorem deleteFile_not_atomic :
    (deleteFile demoStore adminUser.identity (some 1) true).2.status = 200 ∧
    (deleteFile demoStore adminUser.identity (some 1) true).1.findFile 1 = none ∧
    "uploads/file-1.pdf" ∈ (deleteFile demoStore adminUser.identity (some 1) true).1.disk ∧
    ¬ FileDeleteAtomic (deleteFile demoStore adminUser.identity (some 1) true).1 demoFile := by
  unfold FileDeleteAtomic
  decide

theorem deleteDenied_cases (st : Store) (user : Identity) (f : FileUpload) :
    deleteDenied st user f = none ∨ deleteDenied st user f = some true ∨
      deleteDenied st user f = some false := by
  cases h : deleteDenied st user f with
  | none => exact Or.inl rfl
  | some b => cases b <;> simp

theorem deleteFileRequest_cases (st : Store) (user : Identity) (fileId : Option Int)
    (unlinkThrows deleteThrows : Bool) :
    ((deleteFileRequest st user fileId unlinkThrows deleteThrows).1 = st ∧
      ((deleteFileRequest st user fileId unlinkThrows deleteThrows).2.status = 400 ∨
       (deleteFileRequest st user fileId unlinkThrows deleteThrows).2.status = 403 ∨
       (deleteFileRequest st user fileId unlinkThrows deleteThrows).2.status = 404 ∨
       (deleteFileRequest st user fileId unlinkThrows deleteThrows).2.status = 500)) ∨
    ∃ id f, fileId = some id ∧ st.findFile id = some f ∧
      deleteDenied st user f = some false ∧
      ((deleteThrows = true ∧
        deleteFileRequest st user fileId unlinkThrows deleteThrows =
          ({ st with
              disk := if f.filePath ∈ st.disk ∧ unlinkThrows = false then
                  st.disk.filter (fun path => !(path == f.filePath))
                else st.disk },
           { status := 500, message := "Failed to delete file" })) ∨
       (deleteThrows = false ∧
        deleteFileRequest st user fileId unlinkThrows deleteThrows =
          ({ st with
              disk := if f.filePath ∈ st.disk ∧ unlinkThrows = false then
                  st.disk.filter (fun path => !(path == f.filePath))
                else st.disk,
              fileUploads := st.fileUploads.filter (fun g => !(g.id == id)) },
           { status := 200, message := "File deleted successfully" }))) := by
  cases fileId with
  | none => exact Or.inl ⟨rfl, Or.inl rfl⟩
  | some id =>
    cases hf : st.findFile id with
    | none =>
      refine Or.inl ?_
      simp [deleteFileRequest, hf]
    | some f =>
      rcases deleteDenied_cases st user f with hd | hd | hd
      · refine Or.inl ?_
        simp [deleteFileRequest, hf, hd]
      · refine Or.inl ?_
        simp [deleteFileRequest, hf, hd]
      · refine Or.inr ⟨id, f, rfl, hf, hd, ?_⟩
        cases deleteThrows with
        | true =>
          refine Or.inl ⟨rfl, ?_⟩
          simp only [deleteFileRequest, hf, hd, if_true]
        | false =>
          refine Or.inr ⟨rfl, ?_⟩
          simp only [deleteFileRequest, hf, hd, Bool.false_eq_true, if_false]

theorem unlinked_not_mem (disk : List String) (path : String) (unlinkThrows : Bool)
    (h : unlinkThrows = false) :
    path ∉ (if path ∈ disk ∧ unlinkThrows = false then
        disk.filter (fun other => !(other == path))
      else disk) := by
  by_cases hmem : path ∈ disk
  · rw [if_pos ⟨hmem, h⟩]
    intro hin
    have := (List.mem_filter.1 hin).2
    simp at this
  · have hc : ¬ (path ∈ disk ∧ unlinkThrows = false) := fun h => hmem h.1
    rw [if_neg hc]
    exact hmem

/-- What the route does when `prisma.fileUpload.delete` throws on a permitted
request: the answer is 500 and the row stays, while the content has already
been unlinked unless `fs.unlinkSync` threw as well. -/
theorem deleteFileRequest_delete_throws (st : Store) (user : Identity) (id : Int)
    (f : FileUpload) (unlinkThrows : Bool) (hf : st.findFile id = some f)
    (hd : deleteDenied st user f = some false) :
    (deleteFileRequest st user (some id) unlinkThrows true).2.status = 500 ∧
    (deleteFileRequest st user (some id) unlinkThrows true).1.findFile id = some f ∧
    (unlinkThrows = false →
      f.filePath ∉ (deleteFileRequest st user (some id) unlinkThrows true).1.disk) ∧
    (unlinkThrows = true →
      (deleteFileRequest st user (some id) unlinkThrows true).1 = st) := by
  have e : deleteFileRequest st user (some id) unlinkThrows true =
      ({ st with
          disk := if f.filePath ∈ st.disk ∧ unlinkThrows = false then
              st.disk.filter (fun path => !(path == f.filePath))
            else st.disk },
       { status := 500, message := "Failed to delete file" }) := by
    simp only [deleteFileRequest, hf, hd, if_true]
  rw [e]
  refine ⟨rfl, hf, fun hth => unlinked_not_mem _ _ _ hth, fun hth => ?_⟩
  have hc : ¬ (f.filePath ∈ st.disk ∧ unlinkThrows = false) := by
    rw [hth]
    simp
  dsimp only
  rw [if_neg hc]

/-- C19 (amended): `DELETE /api/files/:id` answers 400, 403, 404, 500 or 200.
With 400, 403 or 404 neither the rows nor the stored contents change.  With
200 the row is removed; with it the content is removed when `fs.unlinkSync`
does not throw, and stays when it throws, which the handler logs and ignores. -/
theorem deleteFile_outcomes (st : Store) (user : Identity) (fileId : Option Int)
    (unlinkThrows deleteThrows : Bool) :
    ((deleteFileRequest st user fileId unlinkThrows deleteThrows).2.status = 400 ∨
      (deleteFileRequest st user fileId unlinkThrows deleteThrows).2.status = 403 ∨
      (deleteFileRequest st user fileId unlinkThrows deleteThrows).2.status = 404 ∨
      (deleteFileRequest st user fileId unlinkThrows deleteThrows).2.status = 500 ∨
      (deleteFileRequest st user fileId unlinkThrows deleteThrows).2.status = 200) ∧
    (((deleteFileRequest st user fileId unlinkThrows deleteThrows).2.status = 400 ∨
        (deleteFileRequest st user fileId unlinkThrows deleteThrows).2.status = 403 ∨
        (deleteFileRequest st user fileId unlinkThrows deleteThrows).2.status = 404) →
      (deleteFileRequest st user fileId unlinkThrows deleteThrows).1 = st) ∧
    ((deleteFileRequest st user fileId unlinkThrows deleteThrows).2.status = 200 →
      ∃ id f, fileId = some id ∧ st.findFile id = some f ∧
        (deleteFileRequest st user fileId unlinkThrows deleteThrows).1.findFile id = none ∧
        (unlinkThrows = false →
          f.filePath ∉ (deleteFileRequest st user fileId unlinkThrows deleteThrows).1.disk) ∧
        (unlinkThrows = true →
          (deleteFileRequest st user fileId unlinkThrows deleteThrows).1.disk = st.disk)) := by
  rcases deleteFileRequest_cases st user fileId unlinkThrows deleteThrows with
    ⟨e, hs⟩ | ⟨id, f, hid, hf, _, ⟨_, e⟩ | ⟨_, e⟩⟩
  · refine ⟨?_, fun _ => e, fun h => ?_⟩
    · rcases hs with h | h | h | h
      · exact Or.inl h
      · exact Or.inr (Or.inl h)
      · exact Or.inr (Or.inr (Or.inl h))
      · exact Or.inr (Or.inr (Or.inr (Or.inl h)))
    · rcases hs with h2 | h2 | h2 | h2 <;> rw [h2] at h <;> cases h
  · rw [e]
    refine ⟨Or.inr (Or.inr (Or.inr (Or.inl rfl))), fun h => ?_, fun h => ?_⟩
    · rcases h with h | h | h <;> cases h
    · cases h
  · rw [e]
    refine ⟨Or.inr (Or.inr (Or.inr (Or.inr rfl))), fun h => ?_,
      fun _ => ⟨id, f, hid, hf, ?_, ?_, ?_⟩⟩
    · rcases h with h | h | h <;> cases h
    · exact find?_filter_not (fun g : FileUpload => g.id == id) st.fileUploads
    · intro hth
      exact unlinked_not_mem _ _ _ hth
    · intro hth
      dsimp only
      have hc : ¬ (f.filePath ∈ st.disk ∧ unlinkThrows = false) := by
        rw [hth]
        simp
      rw [if_neg hc]

/-- Witness for C19 (amended) on the sample store: the refused request of
Budi changes nothing, and with a working unlink the administrator removes both
the row and the content of file record 1. -/
theorem deleteFile_outcomes_witness :
    (deleteFileRequest demoStore budiUser.identity (some 1) false false).1 = demoStore ∧
    ∃ id f, (some 1 : Option Int) = some id ∧ demoStore.findFile id = some f ∧
      (deleteFileRequest demoStore adminUser.identity (some 1) false false).1.findFile id =
        none ∧
      ((false : Bool) = false →
        f.filePath ∉
          (deleteFileRequest demoStore adminUser.identity (some 1) false false).1.disk) ∧
      ((false : Bool) = true →
        (deleteFileRequest demoStore adminUser.identity (some 1) false false).1.disk =
          demoStore.disk) :=
  ⟨(deleteFile_outcomes demoStore budiUser.identity (some 1) false false).2.1
      (Or.inr (Or.inl (by decide))),
   (deleteFile_outcomes demoStore adminUser.identity (some 1) false false).2.2 (by decide)⟩

/-! ### Blocked deletions and their messages -/

/-- C20 (counterexample): on the sample store the year 2024 has one aspect,
two checklist items and two organizational units; its deletion is blocked
with 400, and the text of the response contains none of the numbers 1, 2 and
5.  The same holds for checklist item 1 (one file record, one assignment) and
for the user Citra (one file record). -/
theorem blocked_delete_without_count :
    ((demoStore.aspects.filter (fun a => a.tahun == 2024)).length = 1 ∧
     (demoStore.checklists.filter (fun c => c.tahun == 2024)).length = 2 ∧
     (demoStore.strukturs.filter (fun s => s.tahun == 2024)).length = 2 ∧
     (deleteYear demoStore adminUser.identity (some 2024)).2.status = 400 ∧
     reportsCount (deleteYear demoStore adminUser.identity (some 2024)).2 1 = false ∧
     reportsCount (deleteYear demoStore adminUser.identity (some 2024)).2 2 = false ∧
     reportsCount (deleteYear demoStore adminUser.identity (some 2024)).2 5 = false) ∧
    ((deleteChecklist demoStore adminUser.identity (some 1)).2.status = 400 ∧
     reportsCount (deleteChecklist demoStore adminUser.identity (some 1)).2 1 = false ∧
     reportsCount (deleteChecklist demoStore adminUser.identity (some 1)).2 2 = false) ∧
    ((deleteUser demoStore adminUser.identity (some 3)).2.status = 400 ∧
     reportsCount (deleteUser demoStore adminUser.identity (some 3)).2 1 = false) := by
  decide

theorem any_pos_of_mem (counts : List Nat) (n : Nat) (hn : n ∈ counts) (hpos : 0 < n) :
    counts.any (fun count => decide (count > 0)) = true := by
  rw [any_pos_iff]
  exact ⟨n, hn, Nat.pos_iff_ne_zero.1 hpos⟩

/-- C20 (amended): a blocked deletion of an aspect or of an organizational
unit is answered 400 with a text that carries the number of dependent
checklist items, respectively assignments; a blocked deletion of a year, of a
checklist item or of a user is answered 400 with a fixed text.  The store is
unchanged in every case. -/
theorem blocked_delete_messages (st : Store) (user : Identity)
    (hadmin : user.role = "ADMIN") :
    (∀ (id : Int) (a : Aspek), st.aspects.find? (fun x => x.id == id) = some a →
      0 < (st.checklists.filter (fun c => c.aspek == a.nama && c.tahun == a.tahun)).length →
      deleteAspect st user (some id) =
        (st, { status := 400,
               message := "Cannot delete aspect. It has " ++
                 toString (st.checklists.filter
                   (fun c => c.aspek == a.nama && c.tahun == a.tahun)).length ++
                 " related checklist items. Please delete or reassign checklist items first." })) ∧
    (∀ (id : Int) (s : StrukturPerusahaan), st.findStruktur id = some s →
      0 < (st.assignments.filter (fun a => a.strukturId == id)).length →
      deleteStruktur st user (some id) =
        (st, { status := 400,
               message := "Cannot delete organizational structure. It has " ++
                 toString (st.assignments.filter (fun a => a.strukturId == id)).length ++
                 " related assignments. Please reassign or delete assignments first." })) ∧
    (∀ (tahun : Int) (y : Year), st.findYear tahun = some y →
      (0 < (st.aspects.filter (fun a => a.tahun == tahun)).length ∨
       0 < (st.checklists.filter (fun c => c.tahun == tahun)).length ∨
       0 < (st.strukturs.filter (fun s => s.tahun == tahun)).length) →
      deleteYear st user (some tahun) =
        (st, { status := 400,
               message := "Cannot delete year with existing data. Please delete related data first." })) ∧
    (∀ (id : Int) (c : ChecklistGCG), st.findChecklist id = some c →
      (0 < (st.fileUploads.filter (fun f => f.checklistId == id)).length ∨
       0 < (st.assignments.filter (fun a => a.checklistId == id)).length) →
      deleteChecklist st user (some id) =
        (st, { status := 400,
               message := "Cannot delete checklist item with existing files or assignments. Please delete related data first." })) ∧
    (∀ (id : Int) (u : User), st.findUser id = some u → user.id ≠ id →
      (0 < (st.fileUploads.filter (fun f => f.uploadedBy == id)).length ∨
       0 < (st.assignments.filter (fun a => a.assignedBy == id)).length) →
      deleteUser st user (some id) =
        (st, { status := 400,
               message := "Cannot delete user with existing data. Please reassign or delete related data first." })) := by
  refine ⟨?_, ?_, ?_, ?_, ?_⟩
  · intro id a ha hpos
    unfold deleteAspect requireAdmin deleteAspectHandler
    simp only [hadmin, ne_eq, not_true_eq_false, if_false, ha]
    rw [if_pos hpos]
  · intro id s hs hpos
    unfold deleteStruktur requireAdmin deleteStrukturHandler
    simp only [hadmin, ne_eq, not_true_eq_false, if_false, hs]
    rw [if_pos hpos]
  · intro tahun y hy hpos
    have hany := any_pos_iff
      [ (st.aspects.filter (fun a => a.tahun == tahun)).length,
        (st.checklists.filter (fun c => c.tahun == tahun)).length,
        (st.strukturs.filter (fun s => s.tahun == tahun)).length ]
    have hany2 : [ (st.aspects.filter (fun a => a.tahun == tahun)).length,
        (st.checklists.filter (fun c => c.tahun == tahun)).length,
        (st.strukturs.filter (fun s => s.tahun == tahun)).length ].any
          (fun count => decide (count > 0)) = true := by
      rcases hpos with h | h | h
      · exact any_pos_of_mem _ _ (by simp) h
      · exact any_pos_of_mem _ _ (by simp) h
      · exact any_pos_of_mem _ _ (by simp) h
    unfold deleteYear requireAdmin deleteYearHandler
    simp only [hadmin, ne_eq, not_true_eq_false, if_false, hy, hany2, if_true]
  · intro id c hc hpos
    have hany2 : [ (st.fileUploads.filter (fun f => f.checklistId == id)).length,
        (st.assignments.filter (fun a => a.checklistId == id)).length ].any
          (fun count => decide (count > 0)) = true := by
      rcases hpos with h | h
      · exact any_pos_of_mem _ _ (by simp) h
      · exact any_pos_of_mem _ _ (by simp) h
    unfold deleteChecklist requireAdmin deleteChecklistHandler
    simp only [hadmin, ne_eq, not_true_eq_false, if_false, hc, hany2, if_true]
  · intro id u hu hself hpos
    have hany2 : [ (st.fileUploads.filter (fun f => f.uploadedBy == id)).length,
        (st.assignments.filter (fun a => a.assignedBy == id)).length ].any
          (fun count => decide (count > 0)) = true := by
      rcases hpos with h | h
      · exact any_pos_of_mem _ _ (by simp) h
      · exact any_pos_of_mem _ _ (by simp) h
    unfold deleteUser requireAdmin deleteUserHandler
    simp only [hadmin, ne_eq, not_true_eq_false, if_false, hu, hself, hany2, if_true]

/-- Witness for C20 (amended) on the sample store: unit 1 has one assignment
and the aspect A1 of 2024 has two checklist items; both deletions are blocked
with the number in the text. -/
theorem blocked_delete_messages_witness :
    deleteStruktur demoStore adminUser.identity (some 1) =
      (demoStore, { status := 400,
                    message := "Cannot delete organizational structure. It has 1 related assignments. Please reassign or delete assignments first." }) ∧
    deleteAspect demoStore adminUser.identity (some 1) =
      (demoStore, { status := 400,
                    message := "Cannot delete aspect. It has 2 related checklist items. Please delete or reassign checklist items first." }) :=
  ⟨(blocked_delete_messages demoStore adminUser.identity (by decide)).2.1 1
      { id := 1, tahun := 2024, direktorat := "Dir X", subdirektorat := "SubDir Y",
        divisi := none } (by decide) (by decide),
   (blocked_delete_messages demoStore adminUser.identity (by decide)).1 1
      { id := 1, nama := "A1", tahun := 2024 } (by decide) (by decide)⟩

/-! ### Counting by group -/

theorem groupCount_mem {α : Type} [DecidableEq α] (keys : List α) (k : α) (n : Nat) :
    (k, n) ∈ groupCount keys ↔ k ∈ keys ∧ n = keys.count k := by
  unfold groupCount
  simp only [List.mem_map, List.mem_dedup, Prod.mk.injEq]
  constructor
  · rintro ⟨a, ha, rfl, rfl⟩
    exact ⟨ha, rfl⟩
  · rintro ⟨hk, rfl⟩
    exact ⟨k, hk, rfl, rfl⟩

theorem groupCount_keys {α : Type} [DecidableEq α] (keys : List α) :
    (groupCount keys).map Prod.fst = keys.dedup := by
  unfold groupCount
  simp [List.map_map, Function.comp_def]

theorem groupCount_counts_sum {α : Type} [DecidableEq α] (keys : List α) :
    ((groupCount keys).map Prod.snd).sum = keys.length := by
  unfold groupCount
  simp only [List.map_map, Function.comp_def]
  exact List.sum_map_count_dedup_eq_length keys

theorem groupCount_length {α : Type} [DecidableEq α] (keys : List α) :
    (groupCount keys).length = keys.toFinset.card := by
  unfold groupCount
  rw [List.length_map, List.card_toFinset]

theorem groupCount_filter_sum {α : Type} [DecidableEq α] (keys : List α) (p : α → Bool) :
    (((groupCount keys).filter (fun d => p d.1)).map Prod.snd).sum = keys.countP p := by
  unfold groupCount
  rw [List.filter_map, List.map_map]
  simp only [Function.comp_def]
  exact List.sum_map_count_dedup_filter_eq_countP p keys

theorem filter_dedup {α : Type} [DecidableEq α] (p : α → Bool) (l : List α) :
    l.dedup.filter p = (l.filter p).dedup := by
  induction l with
  | nil => rfl
  | cons a l ih =>
    by_cases h : a ∈ l
    · rw [List.dedup_cons_of_mem h, ih]
      by_cases hp : p a = true
      · rw [List.filter_cons_of_pos hp]
        rw [List.dedup_cons_of_mem (List.mem_filter.2 ⟨h, hp⟩)]
      · rw [List.filter_cons_of_neg hp]
    · rw [List.dedup_cons_of_not_mem h]
      by_cases hp : p a = true
      · rw [List.filter_cons_of_pos hp, List.filter_cons_of_pos hp]
        rw [List.dedup_cons_of_not_mem (fun hm => h (List.mem_filter.1 hm).1), ih]
      · rw [List.filter_cons_of_neg hp, List.filter_cons_of_neg hp, ih]

theorem groupCount_filter_length {α : Type} [DecidableEq α] (keys : List α) (p : α → Bool) :
    ((groupCount keys).filter (fun d => p d.1)).length =
      (keys.toFinset.filter (fun k => p k = true)).card := by
  unfold groupCount
  rw [List.filter_map, List.length_map]
  simp only [Function.comp_def]
  rw [← List.toFinset_filter, List.card_toFinset]
  exact congrArg List.length (filter_dedup p keys)

theorem count_map_eq_countP {α β : Type} [DecidableEq β] (f : α → β) (rows : List α) (k : β) :
    (rows.map f).count k = rows.countP (fun s => decide (f s = k)) := by
  induction rows with
  | nil => rfl
  | cons a l ih =>
    by_cases h : f a = k
    · simp [List.count_cons, List.countP_cons, h, ih]
    · simp [List.count_cons, List.countP_cons, h, ih]

/-! ### By-month breakdowns -/

/-- What the two summaries compute under the name `byMonth`: one entry per
distinct instant of assignment, with the number of rows of that very instant. -/
theorem byMonth_entries (rows : List Assignment) (t n : Nat) :
    (t, n) ∈ (assignmentStats rows).byMonth ↔
      t ∈ rows.map (fun a => a.assignedAt) ∧
      n = rows.countP (fun a => decide (a.assignedAt = t)) := by
  unfold assignmentStats
  simp only [groupCount_mem, count_map_eq_countP]

/-- One entry per distinct instant of upload, likewise. -/
theorem filesByMonth_entries (rows : List FileUpload) (t n : Nat) :
    (t, n) ∈ (fileStats rows).filesByMonth ↔
      t ∈ rows.map (fun f => f.uploadDate) ∧
      n = rows.countP (fun f => decide (f.uploadDate = t)) := by
  unfold fileStats
  simp only [groupCount_mem, count_map_eq_countP]

/-- C21 (failing input): the two assignments of the sample store were created
one millisecond apart in November 2023, and so were the two file records of
`twoFilesStore`, yet each summary lists two entries of count 1, keyed by the
instants, where a breakdown by calendar month has one entry of count 2. -/
theorem byMonth_splits_one_month :
    monthOfInstant 1700000000000 = (2023, 11) ∧
    monthOfInstant 1700000000001 = (2023, 11) ∧
    (getAssignmentStatsSummary demoStore JsArg.undefined).map (fun stats => stats.byMonth) =
      some [(1700000000000, 1), (1700000000001, 1)] ∧
    countByMonth (demoStore.assignments.map (fun a => a.assignedAt)) = [((2023, 11), 2)] ∧
    monthOfInstant 1700000000002 = (2023, 11) ∧
    monthOfInstant 1700000000003 = (2023, 11) ∧
    (getFileStatsSummary twoFilesStore JsArg.undefined).map
        (fun stats => stats.filesByMonth) =
      some [(1700000000002, 1), (1700000000003, 1)] ∧
    countByMonth (twoFilesStore.fileUploads.map (fun f => f.uploadDate)) =
      [((2023, 11), 2)] := by
  decide

/-! ### Summary of organizational units -/

theorem strukturStats_spec (rows : List StrukturPerusahaan) :
    (strukturStats rows).total = rows.length ∧
    (strukturStats rows).direktorat = (rows.map (fun s => s.direktorat)).toFinset.card ∧
    (strukturStats rows).subdirektorat =
      (rows.map (fun s => s.subdirektorat)).toFinset.card ∧
    (strukturStats rows).divisi =
      ((rows.map (fun s => s.divisi)).toFinset.erase none).card ∧
    (((strukturStats rows).breakdown.direktorat.map Prod.fst).Nodup ∧
      ∀ name count, (name, count) ∈ (strukturStats rows).breakdown.direktorat ↔
        name ∈ rows.map (fun s => s.direktorat) ∧
        count = rows.countP (fun s => decide (s.direktorat = name))) ∧
    (((strukturStats rows).breakdown.subdirektorat.map Prod.fst).Nodup ∧
      ∀ name count, (name, count) ∈ (strukturStats rows).breakdown.subdirektorat ↔
        name ∈ rows.map (fun s => s.subdirektorat) ∧
        count = rows.countP (fun s => decide (s.subdirektorat = name))) ∧
    (((strukturStats rows).breakdown.divisi.map Prod.fst).Nodup ∧
      ∀ name count, (name, count) ∈ (strukturStats rows).breakdown.divisi ↔
        name ≠ none ∧ name ∈ rows.map (fun s => s.divisi) ∧
        count = rows.countP (fun s => decide (s.divisi = name))) ∧
    ((strukturStats rows).breakdown.direktorat.map Prod.snd).sum = rows.length ∧
    ((strukturStats rows).breakdown.subdirektorat.map Prod.snd).sum = rows.length ∧
    ((strukturStats rows).breakdown.divisi.map Prod.snd).sum =
      rows.countP (fun s => decide (s.divisi ≠ none)) := by
  unfold strukturStats
  simp only [List.map_id']
  refine ⟨trivial, groupCount_length _, groupCount_length _, ?_, ⟨?_, ?_⟩, ⟨?_, ?_⟩, ⟨?_, ?_⟩,
    ?_, ?_, ?_⟩
  · rw [groupCount_filter_length (rows.map (fun s => s.divisi)) (fun k => k != none)]
    congr 1
    ext k
    simp only [Finset.mem_filter, List.mem_toFinset, Finset.mem_erase, bne_iff_ne, ne_eq]
    exact and_comm
  · rw [groupCount_keys]; exact List.nodup_dedup _
  · intro name count
    rw [groupCount_mem, count_map_eq_countP]
  · rw [groupCount_keys]; exact List.nodup_dedup _
  · intro name count
    rw [groupCount_mem, count_map_eq_countP]
  · exact ((List.nodup_dedup _).sublist
      (by rw [← groupCount_keys]; exact (List.filter_sublist _).map _))
  · intro name count
    rw [List.mem_filter, groupCount_mem, count_map_eq_countP]
    simp only [bne_iff_ne, ne_eq]
    tauto
  · exact (groupCount_counts_sum _).trans (List.length_map _ _)
  · exact (groupCount_counts_sum _).trans (List.length_map _ _)
  · rw [groupCount_filter_sum (rows.map (fun s => s.divisi)) (fun k => k != none),
      List.countP_map]
    apply List.countP_congr
    intro s _
    simp

/-- C22: the unit summary over the units selected by the optional year filter
(absent, or parsed to an integer) returns the number of selected units, the
numbers of distinct directorates, sub-directorates and non-null divisions, and
breakdowns that list each distinct (non-null) value once with the number of
selected units having it; the directorate and sub-directorate counts sum to
the total and the division counts to the number of units with a division. -/
theorem strukturStats_summary (st : Store) (tahun : JsArg)
    (h : tahun.truthy = true → tahun.parseInt ≠ none) :
    ∃ rows stats,
      rows = st.strukturs.filter
        (fun s => !tahun.truthy || decide (some s.tahun = tahun.parseInt)) ∧
      getStrukturStatsSummary st tahun = some stats ∧
      stats.total = rows.length ∧
      stats.direktorat = (rows.map (fun s => s.direktorat)).toFinset.card ∧
      stats.subdirektorat = (rows.map (fun s => s.subdirektorat)).toFinset.card ∧
      stats.divisi = ((rows.map (fun s => s.divisi)).toFinset.erase none).card ∧
      ((stats.breakdown.direktorat.map Prod.fst).Nodup ∧
        ∀ name count, (name, count) ∈ stats.breakdown.direktorat ↔
          name ∈ rows.map (fun s => s.direktorat) ∧
          count = rows.countP (fun s => decide (s.direktorat = name))) ∧
      ((stats.breakdown.subdirektorat.map Prod.fst).Nodup ∧
        ∀ name count, (name, count) ∈ stats.breakdown.subdirektorat ↔
          name ∈ rows.map (fun s => s.subdirektorat) ∧
          count = rows.countP (fun s => decide (s.subdirektorat = name))) ∧
      ((stats.breakdown.divisi.map Prod.fst).Nodup ∧
        ∀ name count, (name, count) ∈ stats.breakdown.divisi ↔
          name ≠ none ∧ name ∈ rows.map (fun s => s.divisi) ∧
          count = rows.countP (fun s => decide (s.divisi = name))) ∧
      (stats.breakdown.direktorat.map Prod.snd).sum = stats.total ∧
      (stats.breakdown.subdirektorat.map Prod.snd).sum = stats.total ∧
      (stats.breakdown.divisi.map Prod.snd).sum =
        rows.countP (fun s => decide (s.divisi ≠ none)) := by
  have hsel : st.selectedStrukturs tahun = some (st.strukturs.filter
      (fun s => !tahun.truthy || decide (some s.tahun = tahun.parseInt))) := by
    unfold Store.selectedStrukturs
    by_cases ht : tahun.truthy = true
    · rw [if_pos ht]
      cases hp : tahun.parseInt with
      | none => exact absurd hp (h ht)
      | some year =>
        simp only [ht, Bool.not_true, Bool.false_or, Option.some.injEq]
        exact List.filter_congr (fun s _ => rfl)
    · rw [if_neg ht]
      simp only [Bool.not_eq_true] at ht
      simp [ht]
  obtain ⟨h1, h2, h3, h4, h5, h6, h7, h8, h9, h10⟩ := strukturStats_spec
    (st.strukturs.filter (fun s => !tahun.truthy || decide (some s.tahun = tahun.parseInt)))
  refine ⟨_, strukturStats _, rfl, ?_, h1, h2, h3, h4, h5, h6, h7, h8.trans h1.symm,
    h9.trans h1.symm, h10⟩
  unfold getStrukturStatsSummary
  rw [hsel]
  rfl

/-- Witness for C22 on the sample store with the year filter 2024: two units
are selected, and the directorate counts sum to 2. -/
theorem strukturStats_summary_witness :
    ∃ stats, getStrukturStatsSummary demoStore (JsArg.ofInt 2024) = some stats ∧
      stats.total = 2 ∧ (stats.breakdown.direktorat.map Prod.snd).sum = 2 := by
  obtain ⟨rows, stats, hrows, hstats, htotal, _, _, _, _, _, _, hsum, _⟩ :=
    strukturStats_summary demoStore (JsArg.ofInt 2024) (by decide)
  have hlen : rows.length = 2 := by rw [hrows]; decide
  exact ⟨stats, hstats, by rw [htotal, hlen], by rw [hsum, htotal, hlen]⟩

/-! ### Areas of improvement -/

/-- C23: `updateAOIProgress(id, p)` keeps the length and the order of the
list; an AOI with the given id gets progress `min(100, max(0, p))`, status
`COMPLETED` when `p >= 100` and its previous status otherwise, and the new
`updatedAt`, all other fields as before; every other AOI is unchanged. -/
theorem updateAOIProgress_effect (aois : List AOI) (id : String) (p : Int) (now : String) :
    (updateAOIProgress aois id p now).length = aois.length ∧
    ∀ (i : Nat) (aoi : AOI), aois[i]? = some aoi →
      (aoi.id = id →
        (updateAOIProgress aois id p now)[i]? =
          some { aoi with
                 progress := min 100 (max 0 p)
                 status := if 100 ≤ p then AOIStatus.COMPLETED else aoi.status
                 updatedAt := now }) ∧
      (aoi.id ≠ id → (updateAOIProgress aois id p now)[i]? = some aoi) := by
  refine ⟨by simp [updateAOIProgress], ?_⟩
  intro i aoi hi
  have hclamp : max 0 (min 100 p) = min 100 (max 0 p) := by omega
  constructor
  · intro hid
    simp only [updateAOIProgress, List.getElem?_map, hi, Option.map_some', hid, if_true, ge_iff_le,
      hclamp]
  · intro hid
    simp only [updateAOIProgress, List.getElem?_map, hi, Option.map_some', hid, if_false]

/-- Witness for C23: progress 150 on the first sample AOI is stored as 100
and completes it, and the second AOI stays as it is. -/
theorem updateAOIProgress_effect_witness :
    (updateAOIProgress demoAOIs "1" 150 "2024-02-01T00:00:00.000Z")[0]? =
      some { id := "1", title := "Pedoman GCG", description := "Perbarui pedoman",
             aspect := "ASPEK I", priority := Priority.HIGH, status := AOIStatus.COMPLETED,
             assignedTo := "Budi", dueDate := "2024-12-31",
             createdAt := "2024-01-01T00:00:00.000Z",
             updatedAt := "2024-02-01T00:00:00.000Z", progress := 100, actionItems := [],
             documents := [], year := 2024 } :=
  ((updateAOIProgress_effect demoAOIs "1" 150 "2024-02-01T00:00:00.000Z").2 0
    { id := "1", title := "Pedoman GCG", description := "Perbarui pedoman", aspect := "ASPEK I",
      priority := Priority.HIGH, status := AOIStatus.IN_PROGRESS, assignedTo := "Budi",
      dueDate := "2024-12-31", createdAt := "2024-01-01T00:00:00.000Z",
      updatedAt := "2024-01-01T00:00:00.000Z", progress := 30, actionItems := [],
      documents := [], year := 2024 } rfl).1 rfl

theorem progressInRange_map (aois : List AOI) (f : AOI → AOI)
    (h : ProgressInRange aois)
    (hf : ∀ aoi, 0 ≤ aoi.progress ∧ aoi.progress ≤ 100 →
      0 ≤ (f aoi).progress ∧ (f aoi).progress ≤ 100) :
    ProgressInRange (aois.map f) := by
  intro b hb
  obtain ⟨a, ha, rfl⟩ := List.mem_map.1 hb
  exact hf a (h a ha)

/-- Every call keeps the progress range, provided a progress value that the
call stores as given (`addAOI`, `updateAOI`) lies in the range itself. -/
theorem applyOp_progressInRange (aois : List AOI) (op : AOIOp) (h : ProgressInRange aois)
    (hop : ∀ p, op.storedProgress = some p → 0 ≤ p ∧ p ≤ 100) :
    ProgressInRange (applyOp aois op) := by
  cases op with
  | addAOI aoi id now =>
    intro b hb
    rcases List.mem_append.1 hb with hb | hb
    · exact h b hb
    · rw [List.mem_singleton.1 hb]
      exact hop aoi.progress rfl
  | updateAOI id updates now =>
    apply progressInRange_map _ _ h
    intro a ha
    split
    · cases hp : updates.progress with
      | none => simpa [hp] using ha
      | some p => simpa [hp] using hop p hp
    · exact ha
  | deleteAOI id =>
    intro b hb
    exact h b (List.mem_filter.1 hb).1
  | updateAOIProgress id progress now =>
    apply progressInRange_map _ _ h
    intro a ha
    split
    · dsimp only
      omega
    · exact ha
  | addActionItem aoiId actionItem id =>
    apply progressInRange_map _ _ h
    intro a ha
    split
    · exact ha
    · exact ha
  | updateActionItem aoiId actionItemId updates =>
    apply progressInRange_map _ _ h
    intro a ha
    split
    · exact ha
    · exact ha
  | deleteActionItem aoiId actionItemId =>
    apply progressInRange_map _ _ h
    intro a ha
    split
    · exact ha
    · exact ha

/-- C24 (failing input): on the sample list, whose progress values 30 and 40
are in range, `updateAOI` with the update `progress: 150` stores 150, and
`addAOI` of an AOI with progress -5 stores -5; neither list is in range
afterwards. -/
theorem progress_range_broken :
    ProgressInRange demoAOIs ∧
    (applyOps demoAOIs
        [.updateAOI "1" { AOIUpdates.none with progress := some 150 }
          "2024-02-01T00:00:00.000Z"]).map (fun aoi => aoi.progress) = [150, 40] ∧
    ¬ ProgressInRange (applyOps demoAOIs
        [.updateAOI "1" { AOIUpdates.none with progress := some 150 }
          "2024-02-01T00:00:00.000Z"]) ∧
    (applyOps demoAOIs
        [.addAOI { title := "Kebijakan", description := "Susun kebijakan", aspect := "ASPEK I",
                   priority := Priority.MEDIUM, status := AOIStatus.PENDING,
                   assignedTo := "Dewi", dueDate := "2024-09-30", progress := -5,
                   actionItems := [], documents := [], year := 2024 }
          "1706745600000" "2024-02-01T00:00:00.000Z"]).map (fun aoi => aoi.progress) =
      [30, 40, -5] ∧
    ¬ ProgressInRange (applyOps demoAOIs
        [.addAOI { title := "Kebijakan", description := "Susun kebijakan", aspect := "ASPEK I",
                   priority := Priority.MEDIUM, status := AOIStatus.PENDING,
                   assignedTo := "Dewi", dueDate := "2024-09-30", progress := -5,
                   actionItems := [], documents := [], year := 2024 }
          "1706745600000" "2024-02-01T00:00:00.000Z"]) := by
  unfold ProgressInRange
  decide

theorem priority_partition (l : List AOI) :
    (l.filter (fun aoi => aoi.priority == Priority.CRITICAL)).length +
      (l.filter (fun aoi => aoi.priority == Priority.HIGH)).length +
      (l.filter (fun aoi => aoi.priority == Priority.MEDIUM)).length +
      (l.filter (fun aoi => aoi.priority == Priority.LOW)).length = l.length := by
  induction l with
  | nil => rfl
  | cons a l ih =>
    cases hp : a.priority <;> simp [List.filter_cons, hp] <;> omega

theorem status_partition (l : List AOI) :
    (l.filter (fun aoi => aoi.status == AOIStatus.COMPLETED)).length +
      (l.filter (fun aoi => aoi.status == AOIStatus.IN_PROGRESS)).length +
      (l.filter (fun aoi => aoi.status == AOIStatus.PENDING)).length +
      (l.filter (fun aoi => aoi.status == AOIStatus.CANCELLED)).length = l.length := by
  induction l with
  | nil => rfl
  | cons a l ih =>
    cases hp : a.status <;> simp [List.filter_cons, hp] <;> omega

/-- C29: `getAOIStats(year)` counts the AOIs of the year in `total`; the four
priority counts sum to `total`; and the counts of completed, in-progress and
pending AOIs sum to `total` minus the number of cancelled AOIs of the year,
hence to at most `total`. -/
theorem getAOIStats_relations (aois : List AOI) (year : Int) :
    (getAOIStats aois year).total = aois.countP (fun aoi => decide (aoi.year = year)) ∧
    (getAOIStats aois year).critical + (getAOIStats aois year).high +
      (getAOIStats aois year).medium + (getAOIStats aois year).low =
      (getAOIStats aois year).total ∧
    (getAOIStats aois year).completed + (getAOIStats aois year).inProgress +
      (getAOIStats aois year).pending =
      (getAOIStats aois year).total -
        aois.countP (fun aoi =>
          decide (aoi.year = year ∧ aoi.status = AOIStatus.CANCELLED)) ∧
    aois.countP (fun aoi => decide (aoi.year = year ∧ aoi.status = AOIStatus.CANCELLED)) ≤
      (getAOIStats aois year).total ∧
    (getAOIStats aois year).completed + (getAOIStats aois year).inProgress +
      (getAOIStats aois year).pending ≤ (getAOIStats aois year).total := by
  have hp := priority_partition (aois.filter (fun aoi => aoi.year == year))
  have hs := status_partition (aois.filter (fun aoi => aoi.year == year))
  have hc : aois.countP (fun aoi =>
      decide (aoi.year = year ∧ aoi.status = AOIStatus.CANCELLED)) =
      ((aois.filter (fun aoi => aoi.year == year)).filter
        (fun aoi => aoi.status == AOIStatus.CANCELLED)).length := by
    rw [List.filter_filter, List.countP_eq_length_filter]
    congr 1
    apply List.filter_congr
    intro a _
    by_cases h1 : a.year = year <;> by_cases h2 : a.status = AOIStatus.CANCELLED <;>
      simp [h1, h2]
  have ht : aois.countP (fun aoi => decide (aoi.year = year)) =
      (aois.filter (fun aoi => aoi.year == year)).length := by
    rw [List.countP_eq_length_filter]
    exact congrArg List.length (List.filter_congr (fun a _ => rfl))
  rw [hc, ht]
  unfold getAOIStats
  dsimp only
  omega

/-! ### Creating a year -/

/-- A created year passed the four checks of the handler, and the stored
year number is `parseInt` of the body field. -/
theorem postYearHandler_created (st : Store) (body : YearCreateBody) (isActive : Bool)
    (h : (postYearHandler st body isActive).2.status = 201) :
    body.tahun.arg.truthy = true ∧ body.tahun.arg.isNaN = false ∧
    body.tahun.below1900 = false ∧ body.tahun.above2100 = false ∧
    ∃ tahun, body.tahun.arg.parseInt = some tahun ∧ st.findYear tahun = none ∧
      (postYearHandler st body isActive).1.years.map (fun y => y.tahun) =
        st.years.map (fun y => y.tahun) ++ [tahun] := by
  unfold postYearHandler at h ⊢
  split at h
  · simp at h
  · split at h
    · simp at h
    · rename_i h1 h2
      simp only [Bool.not_eq_true, Bool.not_eq_false', Bool.or_eq_true, not_or] at h1 h2
      rw [if_neg (by simp [h1]), if_neg (by simp [h2])]
      split at h
      · simp at h
      · rename_i tahun hp
        split at h
        · simp at h
        · rename_i hf
          refine ⟨by simpa using h1, by simpa using h2.1.1, by simpa using h2.1.2,
            by simpa using h2.2, tahun, hp, hf, ?_⟩
          simp [hp, hf]

/-- A request whose year is missing, not a number, or as a number below 1900
or above 2100 creates no row: the answer is 400, or 403 for a non-admin. -/
theorem postYear_rejects (st : Store) (user : Identity) (body : YearCreateBody)
    (isActive : Bool)
    (h : body.tahun.arg.truthy = false ∨ body.tahun.arg.isNaN = true ∨
      body.tahun.below1900 = true ∨ body.tahun.above2100 = true) :
    (postYear st user body isActive).1 = st ∧
    ((postYear st user body isActive).2.status = 400 ∨
      (postYear st user body isActive).2.status = 403) := by
  unfold postYear requireAdmin
  split
  · exact ⟨rfl, Or.inr rfl⟩
  · unfold postYearHandler
    by_cases ht : body.tahun.arg.truthy = true
    · have hbad : (body.tahun.arg.isNaN || body.tahun.below1900 ||
          body.tahun.above2100) = true := by
        rcases h with h | h | h | h
        · rw [ht] at h; cases h
        · simp [h]
        · simp [h]
        · simp [h]
      rw [if_neg (by simp [ht]), if_pos hbad]
      exact ⟨rfl, Or.inl rfl⟩
    · rw [if_pos (by simpa using ht)]
      exact ⟨rfl, Or.inl rfl⟩

/-- For a body whose year is a JSON integer, a created row carries that
integer, which lies between 1900 and 2100. -/
theorem postYear_ofInt_range (st : Store) (user : Identity) (n : Int)
    (nama deskripsi : Option String) (isActive : Bool)
    (h : (postYear st user { tahun := YearArg.ofInt n, nama := nama, deskripsi := deskripsi }
      isActive).2.status = 201) :
    1900 ≤ n ∧ n ≤ 2100 ∧
    (postYear st user { tahun := YearArg.ofInt n, nama := nama, deskripsi := deskripsi }
      isActive).1.years.map (fun y => y.tahun) = st.years.map (fun y => y.tahun) ++ [n] := by
  unfold postYear requireAdmin at h ⊢
  split at h
  · simp at h
  · rename_i hr
    rw [if_neg hr]
    obtain ⟨_, _, h3, h4, tahun, hp, _, hy⟩ := postYearHandler_created st _ isActive h
    simp only [YearArg.ofInt, JsArg.ofInt, decide_eq_false_iff_not, not_lt, Option.some.injEq]
      at h3 h4 hp
    subst hp
    exact ⟨h3, by omega, hy⟩

/-- A year given as text with an exponent, `m` followed by `e` and `k`, that is
in range as a number and whose digits `m` are no stored year, creates the year
`m`. -/
theorem postYear_exponentText (st : Store) (user : Identity) (m k : Nat)
    (nama deskripsi : Option String) (isActive : Bool) (hadmin : user.role = "ADMIN")
    (hlow : 1900 ≤ m * 10 ^ k) (hhigh : m * 10 ^ k ≤ 2100)
    (hnew : st.findYear (m : Int) = none) :
    (postYear st user
      { tahun := YearArg.ofExponentText m k, nama := nama, deskripsi := deskripsi }
      isActive).2.status = 201 ∧
    (postYear st user
      { tahun := YearArg.ofExponentText m k, nama := nama, deskripsi := deskripsi }
      isActive).1.years.map (fun y => y.tahun) =
        st.years.map (fun y => y.tahun) ++ [(m : Int)] := by
  have h1 : ¬ m * 10 ^ k < 1900 := by omega
  have h2 : ¬ m * 10 ^ k > 2100 := by omega
  simp [postYear, requireAdmin, hadmin, postYearHandler, YearArg.ofExponentText, h1, h2, hnew]

/-- C25 (failing input): the body `{ tahun: "19e2" }` sent by an admin to the
sample store, which has no year 19, is answered 201 and a Year row with the
year number 19 is stored: as a number the text is 1900 and passes the range
check, while `parseInt` reads 19. -/
theorem postYear_19e2_creates_19 :
    (YearArg.ofExponentText 19 2).text = "19e2" ∧
    demoStore.findYear 19 = none ∧
    postYear demoStore adminUser.identity
        { tahun := YearArg.ofExponentText 19 2, nama := none, deskripsi := none } true =
      ({ demoStore with
         years := demoStore.years ++
           [{ tahun := 19, nama := "Tahun Buku 19e2", deskripsi := "Tahun buku 19e2",
              isActive := true }] },
       { status := 201, message := "Year created successfully" }) := by
  decide

/-! ### Routes and the token check -/

theorem verifyToken_missing (jwtVerify : String → Except JwtError Int) (st : Store) :
    verifyToken jwtVerify st none =
      .error { status := 401, message := "Access token required" } := by
  simp [verifyToken, truthyStr]

/-- C26 (failing input): the route table contradicts the documentation
string.  `POST /api/auth/register` has `verifyToken` (and `requireAdmin`) in
its chain, so a request without a token is answered 401; and besides the
login route six more routes under `/api` have no `verifyToken`, among them
`POST /api/auth/generate-password` and `POST /api/auth/validate-password`. -/
theorem documentation_contradicted :
    apiDocumentation =
      "All endpoints require authentication except /api/auth/login and /api/auth/register" ∧
    ({ method := "POST", path := "/api/auth/register",
       chain := [Middleware.verifyToken, Middleware.requireAdmin] } : Route) ∈ apiRoutes ∧
    (∀ (st : Store) (body : RegisterBody) (gen : Generated),
      postRegisterRequest demoBcrypt demoJwtVerify st none body gen =
        (st, { status := 401, message := "Access token required" })) ∧
    openRoutes =
      [("GET", "/api"), ("GET", "/api/test/public"), ("GET", "/api/test/db-status"),
       ("GET", "/api/auth"), ("POST", "/api/auth/login"),
       ("POST", "/api/auth/generate-password"), ("POST", "/api/auth/validate-password")] ∧
    (postGeneratePassword demoDraws List.reverse).message =
      "Password generated successfully" := by
  refine ⟨rfl, by decide, ?_, by decide, by decide⟩
  intro st body gen
  unfold postRegisterRequest
  rw [verifyToken_missing]

/-! ### The two authorization checks -/

theorem patch_allowed_unit {st : Store} {user : Identity} {a : Assignment}
    {status : Option String} (hrole : user.role ≠ "ADMIN")
    (ha : st.findAssignment a.id = some a)
    (hpatch : (patchAssignmentStatus st user (some a.id) status).2.status = 200) :
    ∃ s u, st.findStruktur a.strukturId = some s ∧
      st.findUserStruktur s.tahun user = some u ∧ u.id = a.strukturId := by
  unfold patchAssignmentStatus at hpatch
  dsimp only at hpatch
  by_cases ht : truthyStr status = true
  · rw [if_neg (by simp [ht]), ha] at hpatch
    dsimp only at hpatch
    cases hs : st.findStruktur a.strukturId with
    | none =>
      rw [hs] at hpatch
      simp at hpatch
    | some s =>
      rw [hs] at hpatch
      dsimp only at hpatch
      rw [if_pos hrole] at hpatch
      cases hu : st.findUserStruktur s.tahun user with
      | none =>
        rw [hu] at hpatch
        simp at hpatch
      | some u =>
        rw [hu] at hpatch
        by_cases hid : u.id = a.strukturId
        · exact ⟨s, u, rfl, hu, hid⟩
        · simp [hid] at hpatch
  · rw [if_pos (by simpa using ht)] at hpatch
    simp at hpatch

/-- C27: in a store whose unit ids are unique, a non-admin identity whose
`PATCH` status request on an assignment is allowed (answered 200) also passes
`requireChecklistAccess` for the assignment's checklist item; the converse
fails on the sample store, where Citra (division Div B) passes the access
check of checklist item 1, assigned to a unit without division, and is refused
the status update of that assignment. -/
theorem patch_allowed_implies_access :
    (∀ (st : Store) (user : Identity) (a : Assignment) (status : Option String),
      st.UniqueStrukturIds → user.role ≠ "ADMIN" →
      st.findAssignment a.id = some a →
      a.checklistId ≠ 0 → st.findChecklist a.checklistId ≠ none →
      (patchAssignmentStatus st user (some a.id) status).2.status = 200 →
      requireChecklistAccess st user (some a.checklistId) = none) ∧
    (requireChecklistAccess demoStore citraUser.identity (some 1) = none ∧
      (demoStore.findAssignment 1).map (fun a => a.checklistId) = some 1 ∧
      (patchAssignmentStatus demoStore citraUser.identity (some 1)
        (some "COMPLETED")).2.status = 403) := by
  refine ⟨?_, by decide⟩
  intro st user a status hids hrole ha hcid hc hpatch
  obtain ⟨s, u, hs, hu, hid⟩ := patch_allowed_unit hrole ha hpatch
  obtain ⟨hum, _, hd, hsd, hdiv⟩ := findUserStruktur_spec hu
  have hsm : s ∈ st.strukturs := findStruktur_mem hs
  have hsid : s.id = a.strukturId := by
    have := List.find?_some hs
    simpa using this
  have hus : u = s :=
    List.inj_on_of_nodup_map hids hum hsm (hid.trans hsid.symm)
  subst hus
  have hmemA : a ∈ st.assignments := List.mem_of_find?_eq_some ha
  have hany : (st.checklistStrukturs a.checklistId).any (fun struktur =>
      some struktur.direktorat == user.direktorat &&
      some struktur.subdirektorat == user.subdirektorat &&
      (!truthyStr struktur.divisi || struktur.divisi == user.divisi)) = true := by
    rw [List.any_eq_true]
    refine ⟨u, ?_, ?_⟩
    · unfold Store.checklistStrukturs
      rw [List.mem_filterMap]
      exact ⟨a, List.mem_filter.2 ⟨hmemA, by simp⟩, hs⟩
    · simp [hd, hsd, hdiv]
  cases hcl : st.findChecklist a.checklistId with
  | none => exact absurd hcl hc
  | some c =>
    unfold requireChecklistAccess
    simp only [hcid, if_false, hcl, hrole, hany, Bool.not_true]
    rfl

/-- Witness for C27 on the sample store: Budi may set the status of
assignment 1 and passes the access check of its checklist item 1. -/
theorem patch_allowed_implies_access_witness :
    (patchAssignmentStatus demoStore budiUser.identity (some 1) (some "COMPLETED")).2.status =
      200 ∧
    requireChecklistAccess demoStore budiUser.identity (some 1) = none :=
  ⟨by decide,
   patch_allowed_implies_access.1 demoStore budiUser.identity
     { id := 1, checklistId := 1, strukturId := 1, assignedBy := 1, status := "PENDING",
       dueDate := none, notes := none, assignedAt := 1700000000000 }
     (some "COMPLETED")
     (by unfold Store.UniqueStrukturIds; decide) (by decide) (by decide) (by decide)
     (by decide) (by decide)⟩

/-! ### Generated passwords -/

/-- The index `Math.floor(Math.random() * n)` at the largest value below 1
that a double can take is `n - 1`, for the four lengths in use. -/
theorem largest_draw_index :
    mathFloor (jsMul { m := 2 ^ 53 - 1, e := -53 } (Double.ofNat 26)) = 25 ∧
    mathFloor (jsMul { m := 2 ^ 53 - 1, e := -53 } (Double.ofNat 10)) = 9 ∧
    mathFloor (jsMul { m := 2 ^ 53 - 1, e := -53 } (Double.ofNat 8)) = 7 ∧
    mathFloor (jsMul { m := 2 ^ 53 - 1, e := -53 } (Double.ofNat 70)) = 69 := by
  decide

theorem upper_draw : ∀ i, i < 26 →
    (jsIndex "ABCDEFGHIJKLMNOPQRSTUVWXYZ" i).length = 1 ∧
    (jsIndex "ABCDEFGHIJKLMNOPQRSTUVWXYZ" i).all
      (fun c => decide (65 ≤ c.toNat ∧ c.toNat ≤ 90)) = true := by
  decide

theorem lower_draw : ∀ i, i < 26 →
    (jsIndex "abcdefghijklmnopqrstuvwxyz" i).length = 1 ∧
    (jsIndex "abcdefghijklmnopqrstuvwxyz" i).all
      (fun c => decide (97 ≤ c.toNat ∧ c.toNat ≤ 122)) = true := by
  decide

theorem digit_draw : ∀ i, i < 10 →
    (jsIndex "0123456789" i).length = 1 ∧
    (jsIndex "0123456789" i).all (fun c => decide (48 ≤ c.toNat ∧ c.toNat ≤ 57)) = true := by
  decide

theorem special_draw : ∀ i, i < 8 →
    (jsIndex "!@#$%^&*" i).length = 1 ∧
    (jsIndex "!@#$%^&*" i).all (fun c => decide (c.toNat ∈ specialCharCodes)) = true := by
  decide

set_option maxRecDepth 20000 in
theorem charset_draw : ∀ i, i < 70 →
    (jsIndex "ABCDEFGHIJKLMNOPQRSTUVWXYZabcdefghijklmnopqrstuvwxyz0123456789!@#$%^&*"
      i).length = 1 ∧
    (jsIndex "ABCDEFGHIJKLMNOPQRSTUVWXYZabcdefghijklmnopqrstuvwxyz0123456789!@#$%^&*"
      i).all (fun c => decide (c.toNat < 128)) = true := by
  decide

theorem singleton_of_draw {l : List Char} {p : Char → Bool}
    (h : l.length = 1 ∧ l.all p = true) : ∃ c, l = [c] ∧ p c = true := by
  obtain ⟨hl, hp⟩ := h
  match l, hl, hp with
  | [c], _, hp => exact ⟨c, rfl, by simpa using hp⟩

theorem jsLength_mk (l : List Char) (h : ∀ c ∈ l, c.toNat < 65536) :
    jsLength (String.mk l) = l.length := by
  unfold jsLength
  show (l.map (fun c => if c.toNat < 65536 then 1 else 2)).sum = l.length
  induction l with
  | nil => rfl
  | cons a l ih =>
    have ha := h a (List.mem_cons_self a l)
    have := ih (fun c hc => h c (List.mem_cons_of_mem a hc))
    simp only [List.map_cons, List.sum_cons, List.length_cons, if_pos ha, this]
    omega

/-- C28: whatever indices are drawn (each below the length of its string) and
however the final sort permutes the characters, the generated password has
length 12 and contains an uppercase letter, a lowercase letter, a digit and a
special character, so `validatePassword` accepts it with strength 4, which is
the strength that `POST /api/auth/generate-password` reports. -/
theorem generateRandomPassword_strength (draws : PasswordDraws)
    (sort : List Char → List Char) (hsort : ∀ l, (sort l).Perm l)
    (hupper : draws.upper < 26) (hlower : draws.lower < 26) (hdigit : draws.digit < 10)
    (hspecial : draws.special < 8) (hrest : ∀ i, i < 12 → 4 ≤ i → draws.rest i < 70) :
    jsLength (generateRandomPassword draws sort) = 12 ∧
    hasUpperCase (generateRandomPassword draws sort) = true ∧
    hasLowerCase (generateRandomPassword draws sort) = true ∧
    hasNumbers (generateRandomPassword draws sort) = true ∧
    hasSpecialChar (generateRandomPassword draws sort) = true ∧
    validatePassword (generateRandomPassword draws sort) =
      { valid := true, strength := some 4, message := none } ∧
    postGeneratePassword draws sort =
      { password := generateRandomPassword draws sort, strength := some 4,
        message := "Password generated successfully" } := by
  obtain ⟨c1, e1, p1⟩ := singleton_of_draw (upper_draw _ hupper)
  obtain ⟨c2, e2, p2⟩ := singleton_of_draw (lower_draw _ hlower)
  obtain ⟨c3, e3, p3⟩ := singleton_of_draw (digit_draw _ hdigit)
  obtain ⟨c4, e4, p4⟩ := singleton_of_draw (special_draw _ hspecial)
  obtain ⟨c5, e5, p5⟩ := singleton_of_draw (charset_draw _ (hrest 4 (by omega) (by omega)))
  obtain ⟨c6, e6, p6⟩ := singleton_of_draw (charset_draw _ (hrest 5 (by omega) (by omega)))
  obtain ⟨c7, e7, p7⟩ := singleton_of_draw (charset_draw _ (hrest 6 (by omega) (by omega)))
  obtain ⟨c8, e8, p8⟩ := singleton_of_draw (charset_draw _ (hrest 7 (by omega) (by omega)))
  obtain ⟨c9, e9, p9⟩ := singleton_of_draw (charset_draw _ (hrest 8 (by omega) (by omega)))
  obtain ⟨c10, e10, p10⟩ := singleton_of_draw (charset_draw _ (hrest 9 (by omega) (by omega)))
  obtain ⟨c11, e11, p11⟩ :=
    singleton_of_draw (charset_draw _ (hrest 10 (by omega) (by omega)))
  obtain ⟨c12, e12, p12⟩ :=
    singleton_of_draw (charset_draw _ (hrest 11 (by omega) (by omega)))
  have hgen : generateRandomPassword draws sort =
      String.mk (sort [c1, c2, c3, c4, c5, c6, c7, c8, c9, c10, c11, c12]) := by
    have hr : List.range' 4 8 = [4, 5, 6, 7, 8, 9, 10, 11] := by decide
    unfold generateRandomPassword
    simp only [hr, List.foldl, e1, e2, e3, e4, e5, e6, e7, e8, e9, e10, e11, e12]
    rfl
  have hperm := hsort [c1, c2, c3, c4, c5, c6, c7, c8, c9, c10, c11, c12]
  simp only [decide_eq_true_eq] at p1 p2 p3 p4 p5 p6 p7 p8 p9 p10 p11 p12
  have hbmp : ∀ c ∈ sort [c1, c2, c3, c4, c5, c6, c7, c8, c9, c10, c11, c12],
      c.toNat < 65536 := by
    intro c hc
    have hc := hperm.mem_iff.1 hc
    simp only [List.mem_cons, List.mem_singleton, List.not_mem_nil, or_false] at hc
    rcases hc with h | h | h | h | h | h | h | h | h | h | h | h <;> subst h
    · omega
    · omega
    · omega
    · have : c.toNat < 128 := by
        revert p4
        unfold specialCharCodes
        simp only [List.mem_cons, List.mem_singleton, List.not_mem_nil, or_false]
        omega
      omega
    all_goals omega
  have hlen : jsLength (generateRandomPassword draws sort) = 12 := by
    rw [hgen, jsLength_mk _ hbmp, hperm.length_eq]
    rfl
  have hU : hasUpperCase (generateRandomPassword draws sort) = true := by
    rw [hasUpperCase_iff, hgen]
    exact ⟨c1, hperm.mem_iff.2 (by simp), p1⟩
  have hL : hasLowerCase (generateRandomPassword draws sort) = true := by
    rw [hasLowerCase_iff, hgen]
    exact ⟨c2, hperm.mem_iff.2 (by simp), p2⟩
  have hN : hasNumbers (generateRandomPassword draws sort) = true := by
    rw [hasNumbers_iff, hgen]
    exact ⟨c3, hperm.mem_iff.2 (by simp), p3⟩
  have hS : hasSpecialChar (generateRandomPassword draws sort) = true := by
    rw [hasSpecialChar_iff, hgen]
    exact ⟨c4, hperm.mem_iff.2 (by simp), p4⟩
  have hv : validatePassword (generateRandomPassword draws sort) =
      { valid := true, strength := some 4, message := none } := by
    unfold validatePassword
    simp [hlen, hU, hL, hN, hS]
  refine ⟨hlen, hU, hL, hN, hS, hv, ?_⟩
  unfold postGeneratePassword
  simp only [hv]

/-- Witness for C28 at the sample draws with the sort that reverses the
characters: the password is `@2tkbSJA#7kQ`. -/
theorem generateRandomPassword_strength_witness :
    generateRandomPassword demoDraws List.reverse = "@2tkbSJA#7kQ" ∧
    validatePassword (generateRandomPassword demoDraws List.reverse) =
      { valid := true, strength := some 4, message := none } :=
  ⟨by decide,
   (generateRandomPassword_strength demoDraws List.reverse (fun l => List.reverse_perm l)
     (by decide) (by decide) (by decide) (by decide) (by decide)).2.2.2.2.2.1⟩

/-! ### Uploads that end without a record -/

/-- A 400 answer of the upload handler leaves the store, and with it the
stored file, as the handler found it. -/
theorem postUploadHandler_400 (st : Store) (user : Identity) (file : Option UploadedFile)
    (body : UploadBody) (gen : Generated) (createThrows : Bool)
    (h : (postUploadHandler st user file body gen createThrows).2.status = 400) :
    (postUploadHandler st user file body gen createThrows).1 = st := by
  unfold postUploadHandler at h ⊢
  unfold uploadCleanup at h ⊢
  repeat' split
  all_goals first
    | rfl
    | (exfalso; revert h; simp_all)

/-- C30 (failing input): on the sample store, an accepted PDF sent without
`checklistId`, with a non-numeric `checklistId`, with the unknown checklist
item 99, or with the year 2025 for checklist item 1 of 2024 is answered 400
and creates no record, and in each case the file written by the upload
middleware stays in the uploads directory. -/
theorem postUpload_orphan_file :
    demoStore.disk = ["uploads/file-1.pdf"] ∧
    ([{ checklistId := JsArg.undefined, tahun := JsArg.ofInt 2024 },
      { checklistId := { truthy := true, isNaN := true, parseInt := none },
        tahun := JsArg.ofInt 2024 },
      { checklistId := JsArg.ofInt 99, tahun := JsArg.ofInt 2024 },
      { checklistId := JsArg.ofInt 1, tahun := JsArg.ofInt 2025 }] : List UploadBody).map
      (fun body =>
        ((postUpload demoStore citraUser.identity
            (some { originalname := "laporan.pdf", mimetype := "application/pdf",
                    size := 2048 })
            body demoGen
            { maxFileSize := 10485760, filename := "file-9.pdf",
              path := "uploads/file-9.pdf", createThrows := false }).2,
         (postUpload demoStore citraUser.identity
            (some { originalname := "laporan.pdf", mimetype := "application/pdf",
                    size := 2048 })
            body demoGen
            { maxFileSize := 10485760, filename := "file-9.pdf",
              path := "uploads/file-9.pdf", createThrows := false }).1.fileUploads.length,
         (postUpload demoStore citraUser.identity
            (some { originalname := "laporan.pdf", mimetype := "application/pdf",
                    size := 2048 })
            body demoGen
            { maxFileSize := 10485760, filename := "file-9.pdf",
              path := "uploads/file-9.pdf", createThrows := false }).1.disk)) =
      [({ status := 400, message := "Checklist ID and tahun are required" }, 1,
        ["uploads/file-1.pdf", "uploads/file-9.pdf"]),
       ({ status := 400, message := "Invalid checklist ID or tahun format" }, 1,
        ["uploads/file-1.pdf", "uploads/file-9.pdf"]),
       ({ status := 400, message := "Checklist not found" }, 1,
        ["uploads/file-1.pdf", "uploads/file-9.pdf"]),
       ({ status := 400, message := "Checklist year does not match" }, 1,
        ["uploads/file-1.pdf", "uploads/file-9.pdf"])] := by
  decide

end GcgHub
